import Mathlib

/-!
RobotEye animation scheduler.

A shallow embedding of `src/src/roboteye_animation.c` (catalog, configuration
calls, `roboteye_animator_trigger`, `roboteye_animator_tick`), the scenario that the
specification draws from the test sequence of `src/src/roboteye_oled.c`, and the
properties proved about them.

Conventions of the embedding

* A `const RobotEyeAnimation *` is either `NULL` or the address of an entry of
  `ROBOTEYE_ANIMATIONS`; it is an `Option (Fin 4)` (`none` is `NULL`, `some i`
  is `&ROBOTEYE_ANIMATIONS[i]`), so pointer equality is equality of indices.
* `uint32_t` fields are natural numbers, every addition to them is reduced
  modulo `2 ^ 32` where the C code adds. `size_t` is taken to be 64 bits wide.
* `float` values are `CFloat`: NaN, the two infinities, or a finite value given
  by the rational number it denotes. Comparisons follow IEEE 754 (every
  comparison with NaN is false). A float literal of the source denotes the
  binary32 number nearest to its decimal text.
* The `RobotEyeAnimator *animator` argument is the state passed in and out; the
  `if (!animator) return` guards have no counterpart.
-/

namespace RobotEye

/-! ## Floating point values -/

/-- Values of the C type `float`. -/
inductive CFloat where
  | nan : CFloat
  | ninf : CFloat
  | fin (q : ℚ) : CFloat
  | pinf : CFloat
  deriving DecidableEq

/-- C comparison `a < b` on floats. -/
def CFloat.lt : CFloat → CFloat → Bool
  | .fin a, .fin b => decide (a < b)
  | .ninf, .fin _ => true
  | .ninf, .pinf => true
  | .fin _, .pinf => true
  | _, _ => false

/-- C comparison `a <= b` on floats. -/
def CFloat.le : CFloat → CFloat → Bool
  | .fin a, .fin b => decide (a ≤ b)
  | .ninf, .ninf => true
  | .ninf, .fin _ => true
  | .ninf, .pinf => true
  | .fin _, .pinf => true
  | .pinf, .pinf => true
  | _, _ => false

/-- Value of the literal `0.35f`: the binary32 number nearest to 0.35, with
24-bit significand 11744051 and exponent -25. -/
def F32_0_35 : ℚ := 11744051 / 33554432

/-- Value of a `0.34` argument converted to `float`: significand 11408507,
exponent -25. -/
def F32_0_34 : ℚ := 11408507 / 33554432

/-- Value of a `0.8` argument converted to `float`: significand 13421773,
exponent -24. -/
def F32_0_8 : ℚ := 13421773 / 16777216

/-! ## Catalog -/

/-- The bitmaps of `roboteye_frames.h`, by name. -/
inductive RobotEyeFrame where
  | IDLE_OPEN
  | IDLE_FOCUS
  | BLINK_HALF
  | BLINK_CLOSED
  | LOOK_LEFT
  | LOOK_RIGHT
  deriving DecidableEq, Repr

/-- The struct `RobotEyeAnimation`; `frames` holds the array the C field points to. -/
structure RobotEyeAnimation where
  frames : List RobotEyeFrame
  frame_count : Nat
  frame_duration_ms : Nat
  loop : Bool
  deriving DecidableEq, Repr

def ROBOTEYE_ANIMATION_IDLE : Nat := 0
def ROBOTEYE_ANIMATION_BLINK : Nat := 1
def ROBOTEYE_ANIMATION_LOOK_LEFT : Nat := 2
def ROBOTEYE_ANIMATION_LOOK_RIGHT : Nat := 3
def ROBOTEYE_ANIMATION_COUNT : Nat := 4

/-- Address of `ROBOTEYE_ANIMATIONS[ROBOTEYE_ANIMATION_IDLE]`. -/
def IDLE : Fin 4 := ⟨0, by decide⟩
/-- Address of `ROBOTEYE_ANIMATIONS[ROBOTEYE_ANIMATION_BLINK]`. -/
def BLINK : Fin 4 := ⟨1, by decide⟩
/-- Address of `ROBOTEYE_ANIMATIONS[ROBOTEYE_ANIMATION_LOOK_LEFT]`. -/
def LOOK_LEFT : Fin 4 := ⟨2, by decide⟩
/-- Address of `ROBOTEYE_ANIMATIONS[ROBOTEYE_ANIMATION_LOOK_RIGHT]`. -/
def LOOK_RIGHT : Fin 4 := ⟨3, by decide⟩

def ROBOTEYE_IDLE_FRAMES : List RobotEyeFrame :=
  [.IDLE_OPEN, .IDLE_FOCUS]

def ROBOTEYE_BLINK_FRAMES : List RobotEyeFrame :=
  [.IDLE_OPEN, .BLINK_HALF, .BLINK_CLOSED, .BLINK_HALF, .IDLE_OPEN]

def ROBOTEYE_LOOK_LEFT_FRAMES : List RobotEyeFrame :=
  [.LOOK_LEFT, .IDLE_FOCUS]

def ROBOTEYE_LOOK_RIGHT_FRAMES : List RobotEyeFrame :=
  [.LOOK_RIGHT, .IDLE_FOCUS]

/-- The table `ROBOTEYE_ANIMATIONS`. -/
def ROBOTEYE_ANIMATIONS (i : Fin 4) : RobotEyeAnimation :=
  match i with
  | ⟨0, _⟩ =>
    { frames := ROBOTEYE_IDLE_FRAMES
      frame_count := ROBOTEYE_IDLE_FRAMES.length
      frame_duration_ms := 140
      loop := true }
  | ⟨1, _⟩ =>
    { frames := ROBOTEYE_BLINK_FRAMES
      frame_count := ROBOTEYE_BLINK_FRAMES.length
      frame_duration_ms := 45
      loop := false }
  | ⟨2, _⟩ =>
    { frames := ROBOTEYE_LOOK_LEFT_FRAMES
      frame_count := ROBOTEYE_LOOK_LEFT_FRAMES.length
      frame_duration_ms := 120
      loop := true }
  | ⟨_ + 3, _⟩ =>
    { frames := ROBOTEYE_LOOK_RIGHT_FRAMES
      frame_count := ROBOTEYE_LOOK_RIGHT_FRAMES.length
      frame_duration_ms := 120
      loop := true }

/-! ## Animator state -/

/-- The struct `RobotEyeAnimator`. -/
structure RobotEyeAnimator where
  current : Option (Fin 4)
  baseline : Option (Fin 4)
  frame_index : Nat
  frame_elapsed_ms : Nat
  blink_timer_ms : Nat
  blink_interval_ms : Nat
  blinking_enabled : Bool
  override_active : Bool
  blink_in_progress : Bool
  horizontal_bias : CFloat
  movement_enabled : Bool
  pending_start : Bool
  deriving DecidableEq

/-- Modulus of `uint32_t` arithmetic. -/
def UINT32_MOD : Nat := 4294967296

/-- Modulus of `size_t` arithmetic. -/
def SIZE_MOD : Nat := 18446744073709551616

/-- Function `roboteye_choose_baseline`, lines 55-74. -/
def roboteye_choose_baseline (animator : RobotEyeAnimator) : Option (Fin 4) :=
  if !animator.movement_enabled then
    some IDLE
  else
    let bias := animator.horizontal_bias
    if CFloat.le bias (.fin (-F32_0_35)) then
      some LOOK_LEFT
    else if CFloat.le (.fin F32_0_35) bias then
      some LOOK_RIGHT
    else
      some IDLE

/-- Function `roboteye_reset_to_baseline`, lines 76-83. -/
def roboteye_reset_to_baseline (animator : RobotEyeAnimator) (reset_elapsed : Bool) :
    RobotEyeAnimator :=
  let a := { animator with current := animator.baseline, frame_index := 0 }
  let a := if reset_elapsed then { a with frame_elapsed_ms := 0 } else a
  { a with pending_start := true }

/-- Function `roboteye_animator_init`, lines 85-102. -/
def roboteye_animator_init (animator : RobotEyeAnimator) (default_animation : Nat) :
    RobotEyeAnimator :=
  if h : default_animation < 4 then
    { current := some ⟨default_animation, h⟩
      baseline := some ⟨default_animation, h⟩
      frame_index := 0
      frame_elapsed_ms := 0
      blink_timer_ms := 0
      blink_interval_ms := 1000
      blinking_enabled := false
      override_active := false
      blink_in_progress := false
      horizontal_bias := .fin 0
      movement_enabled := false
      pending_start := true }
  else
    animator

/-- Function `roboteye_animator_enable_blinking`, lines 104-119. -/
def roboteye_animator_enable_blinking (animator : RobotEyeAnimator) (enabled : Bool)
    (interval_ms : Nat) : RobotEyeAnimator :=
  let a := { animator with blinking_enabled := enabled }
  if enabled then
    let a := { a with blink_interval_ms := if interval_ms ≠ 0 then interval_ms else 1000 }
    if a.blink_timer_ms > a.blink_interval_ms then
      { a with blink_timer_ms := a.blink_interval_ms }
    else
      a
  else
    { a with blink_timer_ms := 0, blink_in_progress := false }

/-- Function `roboteye_animator_set_horizontal_bias`, lines 121-132. -/
def roboteye_animator_set_horizontal_bias (animator : RobotEyeAnimator) (bias : CFloat) :
    RobotEyeAnimator :=
  let bias :=
    if CFloat.lt (.fin 1) bias then .fin 1
    else if CFloat.lt bias (.fin (-1)) then .fin (-1)
    else bias
  { animator with horizontal_bias := bias }

/-- Function `roboteye_animator_enable_movement`, lines 134-143. -/
def roboteye_animator_enable_movement (animator : RobotEyeAnimator) (enabled : Bool) :
    RobotEyeAnimator :=
  let a := { animator with movement_enabled := enabled }
  if !enabled then { a with horizontal_bias := .fin 0 } else a

/-- Function `roboteye_animator_trigger`, lines 145-163. -/
def roboteye_animator_trigger (animator : RobotEyeAnimator) (animation_id : Nat) :
    RobotEyeAnimator :=
  if h : animation_id < 4 then
    let animation := ROBOTEYE_ANIMATIONS ⟨animation_id, h⟩
    let a :=
      { animator with
        current := some ⟨animation_id, h⟩
        frame_index := 0
        frame_elapsed_ms := 0
        override_active := !animation.loop
        blink_in_progress := decide (animation_id = ROBOTEYE_ANIMATION_BLINK)
        pending_start := true }
    if animation.loop then
      { a with baseline := some ⟨animation_id, h⟩ }
    else
      { a with blink_timer_ms := 0 }
  else
    animator

/-- The `while` loop of `roboteye_animator_tick`, lines 210-229. The Boolean is
`false` when the loop left the function through `return NULL` (line 224). The
loop is entered with `current` not `NULL` (lines 179-184 and 223). -/
def carry_loop (animator : RobotEyeAnimator) : RobotEyeAnimator × Bool :=
  match animator.current with
  | none => (animator, false)
  | some c =>
    if animator.frame_elapsed_ms ≥ (ROBOTEYE_ANIMATIONS c).frame_duration_ms then
      let a :=
        { animator with
          frame_elapsed_ms := animator.frame_elapsed_ms - (ROBOTEYE_ANIMATIONS c).frame_duration_ms
          frame_index := (animator.frame_index + 1) % SIZE_MOD }
      if a.frame_index ≥ (ROBOTEYE_ANIMATIONS c).frame_count then
        if (ROBOTEYE_ANIMATIONS c).loop then
          carry_loop { a with frame_index := 0 }
        else
          let a := { a with override_active := false }
          let a := if a.blink_in_progress then { a with blink_in_progress := false } else a
          let a := roboteye_reset_to_baseline a false
          if a.current = none then
            (a, false)
          else
            carry_loop { a with frame_index := 0 }
      else
        carry_loop a
    else
      (animator, true)
termination_by animator.frame_elapsed_ms
decreasing_by
  all_goals simp_wf
  all_goals have hpos : ∀ i : Fin 4, 0 < (ROBOTEYE_ANIMATIONS i).frame_duration_ms := by decide
  all_goals have hc := hpos c
  all_goals (try simp only [roboteye_reset_to_baseline])
  all_goals (try split_ifs)
  all_goals (try simp)
  all_goals omega

/-- What `roboteye_animator_tick` leaves behind: the animator, and the returned
pointer (`none` for `NULL`, `some (c, i)` for `&ROBOTEYE_ANIMATIONS[c].frames[i]`).
When a frame is returned, `i` is also the value stored through the `frame_index`
argument. -/
structure TickResult where
  animator : RobotEyeAnimator
  frame : Option (Fin 4 × Nat)
  deriving DecidableEq

/-- Baseline re-evaluation of `roboteye_animator_tick`, lines 170-177. -/
def tick_baseline (animator : RobotEyeAnimator) : RobotEyeAnimator :=
  let desired_baseline := roboteye_choose_baseline animator
  if desired_baseline ≠ none ∧ desired_baseline ≠ animator.baseline then
    let baseline_was_active :=
      !animator.override_active && decide (animator.current = animator.baseline)
    let a := { animator with baseline := desired_baseline }
    if baseline_was_active then roboteye_reset_to_baseline a true else a
  else
    animator

/-- Blink arbitration of `roboteye_animator_tick`, lines 192-205. The Boolean
carried along is the local variable `started_new_animation`. -/
def tick_blink (animator : RobotEyeAnimator) (delta_ms : Nat) (started_new_animation : Bool) :
    RobotEyeAnimator × Bool :=
  if animator.blinking_enabled && decide (animator.blink_interval_ms > 0) then
    if !animator.blink_in_progress && !animator.override_active then
      if (animator.blink_timer_ms + delta_ms) % UINT32_MOD ≥ animator.blink_interval_ms then
        let a := roboteye_animator_trigger animator ROBOTEYE_ANIMATION_BLINK
        ({ a with blink_timer_ms := 0, pending_start := false }, true)
      else
        ({ animator with blink_timer_ms := (animator.blink_timer_ms + delta_ms) % UINT32_MOD },
          started_new_animation)
    else if animator.blink_in_progress then
      ({ animator with blink_timer_ms := 0 }, started_new_animation)
    else
      (animator, started_new_animation)
  else
    (animator, started_new_animation)

/-- Frame advancement of `roboteye_animator_tick`, lines 207-230. The Boolean
is `false` when the function returned `NULL` from inside the loop. -/
def tick_advance (animator : RobotEyeAnimator) (delta_ms : Nat) (started_new_animation : Bool) :
    RobotEyeAnimator × Bool :=
  if !started_new_animation then
    carry_loop
      { animator with frame_elapsed_ms := (animator.frame_elapsed_ms + delta_ms) % UINT32_MOD }
  else
    (animator, true)

/-- Lines 186-237 of `roboteye_animator_tick`: what the function does once
`current` is known not to be `NULL`. -/
def tick_frames (animator : RobotEyeAnimator) (delta_ms : Nat) : TickResult :=
  let started_new_animation := animator.pending_start
  let a := if animator.pending_start then { animator with pending_start := false } else animator
  let r := tick_blink a delta_ms started_new_animation
  let r := tick_advance r.1 delta_ms r.2
  if r.2 then
    { animator := r.1, frame := r.1.current.map (fun c => (c, r.1.frame_index)) }
  else
    { animator := r.1, frame := none }

/-- Function `roboteye_animator_tick`, lines 165-237. -/
def roboteye_animator_tick (animator : RobotEyeAnimator) (delta_ms : Nat) : TickResult :=
  let a := tick_baseline animator
  let a := if a.current = none then roboteye_reset_to_baseline a true else a
  if a.current = none then
    { animator := a, frame := none }
  else
    tick_frames a delta_ms

/-- Function `roboteye_animation_get`, lines 239-244. -/
def roboteye_animation_get (animation_id : Nat) : Option RobotEyeAnimation :=
  if h : animation_id < 4 then some (ROBOTEYE_ANIMATIONS ⟨animation_id, h⟩) else none

/-! ## Call sequences -/

/-- One call of the public interface on an animator. -/
inductive Op where
  | init (default_animation : Nat)
  | enable_blinking (enabled : Bool) (interval_ms : Nat)
  | set_horizontal_bias (bias : CFloat)
  | enable_movement (enabled : Bool)
  | trigger (animation_id : Nat)
  | tick (delta_ms : Nat)

/-- The animator after a call. -/
def Op.run (op : Op) (s : RobotEyeAnimator) : RobotEyeAnimator :=
  match op with
  | .init id => roboteye_animator_init s id
  | .enable_blinking e i => roboteye_animator_enable_blinking s e i
  | .set_horizontal_bias b => roboteye_animator_set_horizontal_bias s b
  | .enable_movement e => roboteye_animator_enable_movement s e
  | .trigger id => roboteye_animator_trigger s id
  | .tick d => (roboteye_animator_tick s d).animator

/-- The `uint32_t` arguments of a call are below `2 ^ 32`; ids and floats are arbitrary. -/
def Op.wf : Op → Prop
  | .enable_blinking _ i => i < UINT32_MOD
  | .tick d => d < UINT32_MOD
  | _ => True

/-- States reachable from `roboteye_animator_init` with a valid id (on storage of
any content) by finitely many calls. -/
inductive Reachable : RobotEyeAnimator → Prop where
  | init (s0 : RobotEyeAnimator) (id : Nat) (h : id < ROBOTEYE_ANIMATION_COUNT) :
      Reachable (roboteye_animator_init s0 id)
  | step (s : RobotEyeAnimator) (op : Op) (hs : Reachable s) (hop : op.wf) :
      Reachable (op.run s)

/-- The animator after a sequence of ticks. -/
def run_ticks (s : RobotEyeAnimator) : List Nat → RobotEyeAnimator
  | [] => s
  | d :: ds => run_ticks (roboteye_animator_tick s d).animator ds

/-! ## States and predicates of the statements -/

/-- The state in which a completed Blink hands over to the baseline (lines 218-226),
with `r` milliseconds carried over. -/
def blink_done (a : RobotEyeAnimator) (r : Nat) : RobotEyeAnimator :=
  { a with
    current := a.baseline
    frame_index := 0
    frame_elapsed_ms := r
    override_active := false
    blink_in_progress := false
    pending_start := true }

/-- Invariant of the reachable states, apart from the bound on the elapsed time. -/
structure Inv0 (s : RobotEyeAnimator) : Prop where
  cur : ∃ c, s.current = some c ∧ s.frame_index < (ROBOTEYE_ANIMATIONS c).frame_count
  base : ∃ b, s.baseline = some b
  ovr : s.override_active = true → s.current = some BLINK
  home : s.override_active = false → s.current = s.baseline
  bip : s.blink_in_progress = true → s.override_active = true
  interval_pos : 0 < s.blink_interval_ms

/-- Invariant of the reachable states. -/
structure Inv (s : RobotEyeAnimator) extends Inv0 s : Prop where
  elapsed : ∀ c, s.current = some c → s.frame_elapsed_ms < (ROBOTEYE_ANIMATIONS c).frame_duration_ms

/-- Storage that holds zeros, as an animator that was never initialised. -/
def zeroed : RobotEyeAnimator :=
  { current := none
    baseline := none
    frame_index := 0
    frame_elapsed_ms := 0
    blink_timer_ms := 0
    blink_interval_ms := 0
    blinking_enabled := false
    override_active := false
    blink_in_progress := false
    horizontal_bias := .fin 0
    movement_enabled := false
    pending_start := false }

/-- The test of lines 192-194: the autonomous blink fires in a tick of `delta_ms`. -/
def autonomous_blink_fires (a : RobotEyeAnimator) (delta_ms : Nat) : Bool :=
  a.blinking_enabled && decide (a.blink_interval_ms > 0)
    && (!a.blink_in_progress && !a.override_active)
    && decide ((a.blink_timer_ms + delta_ms) % UINT32_MOD ≥ a.blink_interval_ms)

/-- The blink countdown that lines 192-205 leave when the autonomous blink does not
fire. -/
def blink_timer_after (a : RobotEyeAnimator) (delta_ms : Nat) : Nat :=
  if a.blinking_enabled && decide (a.blink_interval_ms > 0) then
    if !a.blink_in_progress && !a.override_active then
      (a.blink_timer_ms + delta_ms) % UINT32_MOD
    else if a.blink_in_progress then 0
    else a.blink_timer_ms
  else
    a.blink_timer_ms

/-- The test of lines 171-174: the tick replaces the stored baseline and the
animation on display with the desired baseline. -/
def baseline_switches (a : RobotEyeAnimator) : Prop :=
  a.override_active = false ∧ a.current = a.baseline
    ∧ roboteye_choose_baseline a ≠ a.baseline

instance (a : RobotEyeAnimator) : Decidable (baseline_switches a) := by
  unfold baseline_switches
  infer_instance

/-- An animator initialised with Idle whose first tick has consumed
`pending_start`: it steadily plays Idle from frame 0. -/
def idle_steady : RobotEyeAnimator :=
  (roboteye_animator_tick (roboteye_animator_init zeroed ROBOTEYE_ANIMATION_IDLE) 0).animator

/-- The scenario of the specification before its first tick: `init(IDLE)`,
`enable_blinking(true, 900)`, `enable_movement(true)`, `set_horizontal_bias(-0.8)`. -/
def scenario_start : RobotEyeAnimator :=
  roboteye_animator_set_horizontal_bias
    (roboteye_animator_enable_movement
      (roboteye_animator_enable_blinking
        (roboteye_animator_init zeroed ROBOTEYE_ANIMATION_IDLE) true 900) true)
    (.fin (-F32_0_8))

/-- The scenario after its six ticks of 40 ms with the bias at -0.8. -/
def scenario_look_left : RobotEyeAnimator :=
  run_ticks scenario_start [40, 40, 40, 40, 40, 40]

/-- The scenario after `set_horizontal_bias(0.0)` and four more ticks of 40 ms. -/
def scenario_idle : RobotEyeAnimator :=
  run_ticks (roboteye_animator_set_horizontal_bias scenario_look_left (.fin 0)) [40, 40, 40, 40]

/-- The states the scenario goes through: blinking every 900 ms and movement are
enabled, no override runs; `c` is on display and is the stored baseline. -/
def scenario_state (c : Fin 4) (i e t : Nat) (bias : ℚ) (p : Bool) : RobotEyeAnimator :=
  { current := some c
    baseline := some c
    frame_index := i
    frame_elapsed_ms := e
    blink_timer_ms := t
    blink_interval_ms := 900
    blinking_enabled := true
    override_active := false
    blink_in_progress := false
    horizontal_bias := .fin bias
    movement_enabled := true
    pending_start := p }

/-- An animator initialised with Idle on which Blink was triggered, after the tick
that consumed `pending_start`: Blink runs as an override, at frame `i` with `e` ms
elapsed. -/
def blink_state (i e : Nat) : RobotEyeAnimator :=
  { current := some BLINK
    baseline := some IDLE
    frame_index := i
    frame_elapsed_ms := e
    blink_timer_ms := 0
    blink_interval_ms := 1000
    blinking_enabled := false
    override_active := true
    blink_in_progress := true
    horizontal_bias := .fin 0
    movement_enabled := false
    pending_start := false }

/-- The animator after `init(IDLE)`, `trigger(BLINK)` and ticks of 0 ms and 44 ms. -/
def blink_at_44 : RobotEyeAnimator :=
  run_ticks
    (roboteye_animator_trigger (roboteye_animator_init zeroed ROBOTEYE_ANIMATION_IDLE)
      ROBOTEYE_ANIMATION_BLINK) [0, 44]

/-- The scenario right after `set_horizontal_bias(0.0)`, before the next tick: LookLeft
is on display and stored as the baseline, the desired baseline is Idle. -/
def scenario_bias_zero : RobotEyeAnimator :=
  roboteye_animator_set_horizontal_bias scenario_look_left (.fin 0)

/-- One pass through the body of the `while` loop (lines 211-228) with `current`
pointing to `c`; the Boolean is `false` when the body returns `NULL`. -/
def carry_body (animator : RobotEyeAnimator) (c : Fin 4) : RobotEyeAnimator × Bool :=
  let a :=
    { animator with
      frame_elapsed_ms := animator.frame_elapsed_ms - (ROBOTEYE_ANIMATIONS c).frame_duration_ms
      frame_index := (animator.frame_index + 1) % SIZE_MOD }
  if a.frame_index ≥ (ROBOTEYE_ANIMATIONS c).frame_count then
    if (ROBOTEYE_ANIMATIONS c).loop then
      ({ a with frame_index := 0 }, true)
    else
      let a := { a with override_active := false }
      let a := if a.blink_in_progress then { a with blink_in_progress := false } else a
      let a := roboteye_reset_to_baseline a false
      if a.current = none then
        (a, false)
      else
        ({ a with frame_index := 0 }, true)
  else
    (a, true)

/-- The `while` loop of lines 210-229 run for at most `fuel` tests of its condition:
`none` when the loop is still running after them. -/
def carry_loop_fuel : Nat → RobotEyeAnimator → Option (RobotEyeAnimator × Bool)
  | 0, _ => none
  | fuel + 1, animator =>
    match animator.current with
    | none => some (animator, false)
    | some c =>
      if animator.frame_elapsed_ms ≥ (ROBOTEYE_ANIMATIONS c).frame_duration_ms then
        if (carry_body animator c).2 then
          carry_loop_fuel fuel (carry_body animator c).1
        else
          some ((carry_body animator c).1, false)
      else
        some (animator, true)

/-- An animator initialised with Idle and left with its defaults (blinking and movement
disabled): Idle is on display and is the baseline, at frame `i` with `e` ms elapsed. -/
def idle_state (i e : Nat) (p : Bool) : RobotEyeAnimator :=
  { current := some IDLE
    baseline := some IDLE
    frame_index := i
    frame_elapsed_ms := e
    blink_timer_ms := 0
    blink_interval_ms := 1000
    blinking_enabled := false
    override_active := false
    blink_in_progress := false
    horizontal_bias := .fin 0
    movement_enabled := false
    pending_start := p }

/-- The Blink override at frame 0 with 44 ms elapsed after a tick of 321 ms: the blink
is over at 225 ms and the 140 ms left are carried into Idle. -/
def blink_carried : RobotEyeAnimator :=
  (roboteye_animator_tick blink_at_44 321).animator

/-- The steady Idle animator after a tick of 100 ms: frame 0 with 100 ms elapsed. -/
def idle_at_100 : RobotEyeAnimator :=
  (roboteye_animator_tick idle_steady 100).animator

/-- The stored baseline is set and is a looping entry of the catalog. -/
def baseline_loops (s : RobotEyeAnimator) : Prop :=
  ∃ b, s.baseline = some b ∧ (ROBOTEYE_ANIMATIONS b).loop = true

/-! ## Catalog facts -/

theorem frame_duration_pos (c : Fin 4) : 0 < (ROBOTEYE_ANIMATIONS c).frame_duration_ms := by
  revert c; decide

theorem catalog_count_bound (c : Fin 4) :
    0 < (ROBOTEYE_ANIMATIONS c).frame_count ∧ (ROBOTEYE_ANIMATIONS c).frame_count < SIZE_MOD := by
  revert c; decide

theorem loop_false_iff (c : Fin 4) : (ROBOTEYE_ANIMATIONS c).loop = false ↔ c = BLINK := by
  revert c; decide

/-! ## The carry loop -/

/-- The loop is left at once when the elapsed time is below the frame duration. -/
theorem carry_loop_exit (a : RobotEyeAnimator) (c : Fin 4) (hc : a.current = some c)
    (he : a.frame_elapsed_ms < (ROBOTEYE_ANIMATIONS c).frame_duration_ms) :
    carry_loop a = (a, true) := by
  rw [carry_loop]
  simp only [hc]
  rw [if_neg (by omega)]

/-- Closed form of the loop on a looping animation. -/
theorem carry_loop_looping (c : Fin 4) (hl : (ROBOTEYE_ANIMATIONS c).loop = true) :
    ∀ (e : Nat) (a : RobotEyeAnimator), a.frame_elapsed_ms = e → a.current = some c →
      a.frame_index < (ROBOTEYE_ANIMATIONS c).frame_count →
      carry_loop a =
        ({ a with
            frame_index :=
              (a.frame_index + a.frame_elapsed_ms / (ROBOTEYE_ANIMATIONS c).frame_duration_ms)
                % (ROBOTEYE_ANIMATIONS c).frame_count
            frame_elapsed_ms :=
              a.frame_elapsed_ms % (ROBOTEYE_ANIMATIONS c).frame_duration_ms }, true) := by
  intro e
  induction e using Nat.strong_induction_on with
  | _ e ih =>
    intro a he hc hi
    have hpos := frame_duration_pos c
    have hcnt := catalog_count_bound c
    obtain ⟨cur, base, i, el, bt, bi, be, oa, bip, hb, me, ps⟩ := a
    simp only at he hc hi
    subst he hc
    rw [carry_loop]
    simp only
    by_cases hge : el ≥ (ROBOTEYE_ANIMATIONS c).frame_duration_ms
    · rw [if_pos hge]
      have hi1 : (i + 1) % SIZE_MOD = i + 1 := Nat.mod_eq_of_lt (by omega)
      rw [hi1]
      have hdiv : el / (ROBOTEYE_ANIMATIONS c).frame_duration_ms
          = (el - (ROBOTEYE_ANIMATIONS c).frame_duration_ms)
              / (ROBOTEYE_ANIMATIONS c).frame_duration_ms + 1 :=
        Nat.div_eq_sub_div hpos hge
      have hmod : el % (ROBOTEYE_ANIMATIONS c).frame_duration_ms
          = (el - (ROBOTEYE_ANIMATIONS c).frame_duration_ms)
              % (ROBOTEYE_ANIMATIONS c).frame_duration_ms :=
        Nat.mod_eq_sub_mod hge
      by_cases hw : i + 1 ≥ (ROBOTEYE_ANIMATIONS c).frame_count
      · rw [if_pos hw, if_pos hl]
        rw [ih (el - (ROBOTEYE_ANIMATIONS c).frame_duration_ms) (by omega) _ rfl rfl
          (by simp; omega)]
        simp only [Prod.mk.injEq, and_true, RobotEyeAnimator.mk.injEq, true_and]
        refine ⟨?_, hmod.symm⟩
        have : i + 1 = (ROBOTEYE_ANIMATIONS c).frame_count := by omega
        rw [hdiv, ← Nat.add_assoc, Nat.add_right_comm, this, Nat.zero_add, Nat.add_mod_left]
      · rw [if_neg hw]
        rw [ih (el - (ROBOTEYE_ANIMATIONS c).frame_duration_ms) (by omega) _ rfl rfl
          (by simp; omega)]
        simp only [Prod.mk.injEq, and_true, RobotEyeAnimator.mk.injEq, true_and]
        refine ⟨?_, hmod.symm⟩
        rw [hdiv]; congr 1; omega
    · rw [if_neg hge]
      have h1 : el / (ROBOTEYE_ANIMATIONS c).frame_duration_ms = 0 :=
        Nat.div_eq_of_lt (by omega)
      have h2 : el % (ROBOTEYE_ANIMATIONS c).frame_duration_ms = el :=
        Nat.mod_eq_of_lt (by omega)
      rw [h1, h2, Nat.add_zero, Nat.mod_eq_of_lt hi]

@[simp] theorem blink_dur : (ROBOTEYE_ANIMATIONS BLINK).frame_duration_ms = 45 := rfl
@[simp] theorem blink_cnt : (ROBOTEYE_ANIMATIONS BLINK).frame_count = 5 := rfl
@[simp] theorem blink_loop : (ROBOTEYE_ANIMATIONS BLINK).loop = false := rfl

theorem carry_loop_blink_stay :
    ∀ (e : Nat) (a : RobotEyeAnimator), a.frame_elapsed_ms = e → a.current = some BLINK →
      45 * a.frame_index + a.frame_elapsed_ms < 225 →
      carry_loop a =
        ({ a with
            frame_index := a.frame_index + a.frame_elapsed_ms / 45
            frame_elapsed_ms := a.frame_elapsed_ms % 45 }, true) := by
  intro e
  induction e using Nat.strong_induction_on with
  | _ e ih =>
    intro a he hc hi
    obtain ⟨cur, base, i, el, bt, bi, be, oa, bip, hb, me, ps⟩ := a
    simp only at he hc hi
    subst he hc
    rw [carry_loop]
    simp only [blink_dur, blink_cnt, blink_loop]
    by_cases hge : el ≥ 45
    · rw [if_pos hge]
      have hi1 : (i + 1) % SIZE_MOD = i + 1 := Nat.mod_eq_of_lt (by unfold SIZE_MOD; omega)
      rw [hi1, if_neg (by omega)]
      rw [ih (el - 45) (by omega) _ rfl rfl (by simp; omega)]
      simp only [Prod.mk.injEq, and_true, RobotEyeAnimator.mk.injEq, true_and]
      omega
    · rw [if_neg hge]
      simp only [Prod.mk.injEq, and_true, RobotEyeAnimator.mk.injEq, true_and]
      omega

theorem carry_loop_blink_done :
    ∀ (e : Nat) (a : RobotEyeAnimator), a.frame_elapsed_ms = e → a.current = some BLINK →
      a.frame_index < 5 → 225 ≤ 45 * a.frame_index + a.frame_elapsed_ms →
      carry_loop a =
        if a.baseline = none then
          (blink_done a (a.frame_elapsed_ms - 45 * (5 - a.frame_index)), false)
        else
          carry_loop (blink_done a (a.frame_elapsed_ms - 45 * (5 - a.frame_index))) := by
  intro e
  induction e using Nat.strong_induction_on with
  | _ e ih =>
    intro a he hc hi hd
    obtain ⟨cur, base, i, el, bt, bi, be, oa, bip, hb, me, ps⟩ := a
    simp only at he hc hi hd
    subst he hc
    rw [carry_loop]
    simp only [blink_dur, blink_cnt, blink_loop]
    have hge : el ≥ 45 := by omega
    rw [if_pos hge]
    have hi1 : (i + 1) % SIZE_MOD = i + 1 := Nat.mod_eq_of_lt (by unfold SIZE_MOD; omega)
    rw [hi1]
    by_cases hw : i + 1 ≥ 5
    · rw [if_pos hw]
      have hi4 : i = 4 := by omega
      subst hi4
      cases bip <;> simp [roboteye_reset_to_baseline, blink_done]
    · rw [if_neg hw]
      rw [ih (el - 45) (by omega) _ rfl rfl (by simp; omega) (by simp; omega)]
      simp only [blink_done]
      have : el - 45 - 45 * (5 - (i + 1)) = el - 45 * (5 - i) := by omega
      rw [this]

/-! ## The invariant of the reachable states -/

/-- The desired baseline is never `NULL` and always loops. -/
theorem choose_baseline_loops (s : RobotEyeAnimator) :
    ∃ b, roboteye_choose_baseline s = some b ∧ (ROBOTEYE_ANIMATIONS b).loop = true := by
  unfold roboteye_choose_baseline
  dsimp only
  split_ifs
  · exact ⟨IDLE, rfl, rfl⟩
  · exact ⟨LOOK_LEFT, rfl, rfl⟩
  · exact ⟨LOOK_RIGHT, rfl, rfl⟩
  · exact ⟨IDLE, rfl, rfl⟩

/-- Baseline re-evaluation, in one piece. -/
theorem tick_baseline_eq (s : RobotEyeAnimator) :
    tick_baseline s =
      if s.override_active = false ∧ s.current = s.baseline
          ∧ roboteye_choose_baseline s ≠ s.baseline then
        { s with
          baseline := roboteye_choose_baseline s
          current := roboteye_choose_baseline s
          frame_index := 0
          frame_elapsed_ms := 0
          pending_start := true }
      else
        { s with baseline := roboteye_choose_baseline s } := by
  obtain ⟨b, hb, -⟩ := choose_baseline_loops s
  unfold tick_baseline roboteye_reset_to_baseline
  simp only [hb]
  by_cases h1 : some b = s.baseline
  · simp only [h1]
    simp
  · by_cases h2 : s.override_active = false <;> by_cases h3 : s.current = s.baseline <;>
      simp [h1, h2, h3]

theorem carry_loop_inv (a : RobotEyeAnimator) (h : Inv0 a)
    (hb : ∃ b, a.baseline = some b ∧ (ROBOTEYE_ANIMATIONS b).loop = true) :
    (carry_loop a).2 = true ∧ Inv (carry_loop a).1
      ∧ (carry_loop a).1.baseline = a.baseline := by
  obtain ⟨c, hc, hi⟩ := h.cur
  obtain ⟨b, hbb, hbl⟩ := hb
  by_cases hl : (ROBOTEYE_ANIMATIONS c).loop = true
  · rw [carry_loop_looping c hl _ a rfl hc hi]
    refine ⟨rfl, ⟨⟨⟨c, hc, Nat.mod_lt _ (catalog_count_bound c).1⟩, h.base, h.ovr, h.home, h.bip,
      h.interval_pos⟩, ?_⟩, rfl⟩
    intro c' hc'
    simp only [hc, Option.some.injEq] at hc'
    subst hc'
    exact Nat.mod_lt _ (frame_duration_pos c)
  · have hcb : c = BLINK := (loop_false_iff c).1 (by simpa using hl)
    subst hcb
    simp only [blink_cnt] at hi
    by_cases hd : 45 * a.frame_index + a.frame_elapsed_ms < 225
    · rw [carry_loop_blink_stay _ a rfl hc hd]
      refine ⟨rfl, ⟨⟨⟨BLINK, hc, ?_⟩, h.base, h.ovr, h.home, h.bip, h.interval_pos⟩, ?_⟩, rfl⟩
      · simp only [blink_cnt]; omega
      · intro c' hc'
        simp only [hc, Option.some.injEq] at hc'
        subst hc'
        exact Nat.mod_lt _ (by decide)
    · rw [carry_loop_blink_done _ a rfl hc hi (by omega)]
      rw [if_neg (by simp [hbb])]
      have hcur : (blink_done a (a.frame_elapsed_ms - 45 * (5 - a.frame_index))).current
          = some b := by simp [blink_done, hbb]
      rw [carry_loop_looping b hbl _ _ rfl hcur (by simpa [blink_done] using (catalog_count_bound b).1)]
      refine ⟨rfl, ⟨⟨⟨b, by simp [blink_done, hbb], Nat.mod_lt _ (catalog_count_bound b).1⟩,
        ⟨b, by simp [blink_done, hbb]⟩, by simp [blink_done], by simp [blink_done],
        by simp [blink_done], h.interval_pos⟩, ?_⟩, rfl⟩
      intro c' hc'
      simp only [blink_done, hbb, Option.some.injEq] at hc'
      subst hc'
      exact Nat.mod_lt _ (frame_duration_pos _)

theorem inv_init (s0 : RobotEyeAnimator) (id : Nat) (h : id < 4) :
    Inv (roboteye_animator_init s0 id) := by
  unfold roboteye_animator_init
  rw [dif_pos h]
  exact ⟨⟨⟨⟨id, h⟩, rfl, (catalog_count_bound _).1⟩, ⟨_, rfl⟩, by simp, by simp, by simp, by simp⟩,
    fun c hc => by
      simp only [Option.some.injEq] at hc
      subst hc
      exact frame_duration_pos _⟩

theorem inv_enable_blinking (s : RobotEyeAnimator) (h : Inv s) (e : Bool) (i : Nat) :
    Inv (roboteye_animator_enable_blinking s e i) := by
  obtain ⟨⟨h1, h2, h3, h4, h5, h6⟩, h7⟩ := h
  unfold roboteye_animator_enable_blinking
  cases e
  · exact ⟨⟨h1, h2, h3, h4, by simp, h6⟩, h7⟩
  · simp only [if_true]
    split_ifs <;> exact ⟨⟨h1, h2, h3, h4, h5, by simp <;> omega⟩, h7⟩

theorem inv_set_horizontal_bias (s : RobotEyeAnimator) (h : Inv s) (b : CFloat) :
    Inv (roboteye_animator_set_horizontal_bias s b) := by
  obtain ⟨⟨h1, h2, h3, h4, h5, h6⟩, h7⟩ := h
  exact ⟨⟨h1, h2, h3, h4, h5, h6⟩, h7⟩

theorem inv_enable_movement (s : RobotEyeAnimator) (h : Inv s) (e : Bool) :
    Inv (roboteye_animator_enable_movement s e) := by
  obtain ⟨⟨h1, h2, h3, h4, h5, h6⟩, h7⟩ := h
  unfold roboteye_animator_enable_movement
  cases e <;> exact ⟨⟨h1, h2, h3, h4, h5, h6⟩, h7⟩

theorem trigger_blink (s : RobotEyeAnimator) :
    roboteye_animator_trigger s ROBOTEYE_ANIMATION_BLINK =
      { s with
        current := some BLINK
        frame_index := 0
        frame_elapsed_ms := 0
        override_active := true
        blink_in_progress := true
        pending_start := true
        blink_timer_ms := 0 } := rfl

theorem trigger_looping (s : RobotEyeAnimator) (id : Nat) (h : id < 4)
    (hl : (ROBOTEYE_ANIMATIONS ⟨id, h⟩).loop = true) :
    roboteye_animator_trigger s id =
      { s with
        current := some ⟨id, h⟩
        baseline := some ⟨id, h⟩
        frame_index := 0
        frame_elapsed_ms := 0
        override_active := false
        blink_in_progress := false
        pending_start := true } := by
  have hid : id ≠ ROBOTEYE_ANIMATION_BLINK := by
    rintro rfl
    have : (⟨ROBOTEYE_ANIMATION_BLINK, h⟩ : Fin 4) = BLINK := rfl
    rw [this] at hl
    exact absurd hl (by simp)
  unfold roboteye_animator_trigger
  rw [dif_pos h]
  simp [hl, hid]

theorem trigger_invalid (s : RobotEyeAnimator) (id : Nat) (h : ¬ id < 4) :
    roboteye_animator_trigger s id = s := by
  unfold roboteye_animator_trigger
  rw [dif_neg h]

theorem inv_trigger (s : RobotEyeAnimator) (h : Inv s) (id : Nat) :
    Inv (roboteye_animator_trigger s id) := by
  obtain ⟨⟨h1, h2, h3, h4, h5, h6⟩, h7⟩ := h
  by_cases hid : id < 4
  · by_cases hl : (ROBOTEYE_ANIMATIONS ⟨id, hid⟩).loop = true
    · rw [trigger_looping s id hid hl]
      exact ⟨⟨⟨_, rfl, (catalog_count_bound _).1⟩, ⟨_, rfl⟩, by simp, by simp, by simp, h6⟩,
        fun c hc => by
          simp only [Option.some.injEq] at hc
          subst hc
          exact frame_duration_pos _⟩
    · have hb : (⟨id, hid⟩ : Fin 4) = BLINK := (loop_false_iff _).1 (by simpa using hl)
      have hid1 : id = ROBOTEYE_ANIMATION_BLINK := congrArg Fin.val hb
      subst hid1
      rw [trigger_blink]
      exact ⟨⟨⟨BLINK, rfl, by simp⟩, h2, by simp, by simp, by simp, h6⟩,
        fun c hc => by
          simp only [Option.some.injEq] at hc
          subst hc
          exact frame_duration_pos _⟩
  · rw [trigger_invalid s id hid]
    exact ⟨⟨h1, h2, h3, h4, h5, h6⟩, h7⟩

theorem inv_tick_baseline (s : RobotEyeAnimator) (h : Inv s) :
    Inv (tick_baseline s) ∧ (tick_baseline s).baseline = roboteye_choose_baseline s := by
  obtain ⟨⟨h1, h2, h3, h4, h5, h6⟩, h7⟩ := h
  obtain ⟨b, hb, -⟩ := choose_baseline_loops s
  rw [tick_baseline_eq]
  split_ifs with hc
  · refine ⟨⟨⟨⟨b, hb, (catalog_count_bound b).1⟩, ⟨b, hb⟩,
      fun ho => absurd ho (by simp [hc.1]), fun _ => rfl, h5, h6⟩, ?_⟩, rfl⟩
    intro c _
    exact frame_duration_pos c
  · refine ⟨⟨⟨h1, ⟨b, hb⟩, h3, ?_, h5, h6⟩, h7⟩, rfl⟩
    intro ho
    have hcb := h4 ho
    have : roboteye_choose_baseline s = s.baseline := by
      by_contra hne
      exact hc ⟨ho, hcb, hne⟩
    simp only [this, hcb]

theorem inv_pending (a : RobotEyeAnimator) (h : Inv a) (p : Bool) :
    Inv { a with pending_start := p } := by
  obtain ⟨⟨h1, h2, h3, h4, h5, h6⟩, h7⟩ := h
  exact ⟨⟨h1, h2, h3, h4, h5, h6⟩, h7⟩

theorem inv_tick_blink (a : RobotEyeAnimator) (h : Inv a) (delta_ms : Nat) (st : Bool) :
    Inv (tick_blink a delta_ms st).1 ∧ (tick_blink a delta_ms st).1.baseline = a.baseline := by
  have ht := inv_trigger a h ROBOTEYE_ANIMATION_BLINK
  rw [trigger_blink] at ht
  obtain ⟨⟨t1, t2, t3, t4, t5, t6⟩, t7⟩ := ht
  obtain ⟨⟨h1, h2, h3, h4, h5, h6⟩, h7⟩ := h
  unfold tick_blink
  rw [trigger_blink]
  split_ifs
  · exact ⟨⟨⟨t1, t2, t3, t4, t5, t6⟩, t7⟩, rfl⟩
  all_goals exact ⟨⟨⟨h1, h2, h3, h4, h5, h6⟩, h7⟩, rfl⟩

theorem inv_tick_advance (a : RobotEyeAnimator) (h : Inv a) (delta_ms : Nat) (st : Bool)
    (hb : ∃ b, a.baseline = some b ∧ (ROBOTEYE_ANIMATIONS b).loop = true) :
    (tick_advance a delta_ms st).2 = true ∧ Inv (tick_advance a delta_ms st).1
      ∧ (tick_advance a delta_ms st).1.baseline = a.baseline := by
  unfold tick_advance
  cases st
  · obtain ⟨⟨h1, h2, h3, h4, h5, h6⟩, -⟩ := h
    exact carry_loop_inv _ ⟨h1, h2, h3, h4, h5, h6⟩ hb
  · exact ⟨rfl, h, rfl⟩

/-- A tick keeps the invariant, stores the desired baseline and returns the
frame `frame_index` of the current animation. -/
theorem inv_tick (s : RobotEyeAnimator) (h : Inv s) (delta_ms : Nat) :
    Inv (roboteye_animator_tick s delta_ms).animator
      ∧ (roboteye_animator_tick s delta_ms).animator.baseline = roboteye_choose_baseline s
      ∧ (roboteye_animator_tick s delta_ms).frame =
          (roboteye_animator_tick s delta_ms).animator.current.map
            (fun c => (c, (roboteye_animator_tick s delta_ms).animator.frame_index)) := by
  obtain ⟨hi1, hb1⟩ := inv_tick_baseline s h
  obtain ⟨c, hc, -⟩ := hi1.cur
  have hne : ¬ (tick_baseline s).current = none := by simp [hc]
  obtain ⟨b, hb, hbl⟩ := choose_baseline_loops s
  unfold roboteye_animator_tick tick_frames
  simp only [hne, if_false]
  have hi2 : Inv (if (tick_baseline s).pending_start = true then
      { tick_baseline s with pending_start := false } else tick_baseline s) := by
    split_ifs
    · exact inv_pending _ hi1 _
    · exact hi1
  have hb2 : (if (tick_baseline s).pending_start = true then
      { tick_baseline s with pending_start := false } else tick_baseline s).baseline
      = roboteye_choose_baseline s := by
    split_ifs <;> exact hb1
  generalize (if (tick_baseline s).pending_start = true then
      { tick_baseline s with pending_start := false } else tick_baseline s) = a2 at hi2 hb2 ⊢
  obtain ⟨hi3, hb3⟩ := inv_tick_blink a2 hi2 delta_ms (tick_baseline s).pending_start
  generalize tick_blink a2 delta_ms (tick_baseline s).pending_start = r3 at hi3 hb3 ⊢
  obtain ⟨ho4, hi4, hb4⟩ := inv_tick_advance r3.1 hi3 delta_ms r3.2
    ⟨b, by rw [hb3, hb2, hb], hbl⟩
  generalize tick_advance r3.1 delta_ms r3.2 = r4 at ho4 hi4 hb4 ⊢
  simp only [ho4, if_true]
  exact ⟨hi4, by rw [hb4, hb3, hb2], trivial⟩

theorem reachable_inv (s : RobotEyeAnimator) (h : Reachable s) : Inv s := by
  induction h with
  | init s0 id hid => exact inv_init s0 id hid
  | step s op _ _ ih =>
    cases op with
    | init id =>
      by_cases hid : id < 4
      · exact inv_init s id hid
      · simp only [Op.run, roboteye_animator_init, dif_neg hid]
        exact ih
    | enable_blinking e i => exact inv_enable_blinking s ih e i
    | set_horizontal_bias b => exact inv_set_horizontal_bias s ih b
    | enable_movement e => exact inv_enable_movement s ih e
    | trigger id => exact inv_trigger s ih id
    | tick d => exact (inv_tick s ih d).1

theorem frame_count_eq_length (c : Fin 4) :
    (ROBOTEYE_ANIMATIONS c).frame_count = (ROBOTEYE_ANIMATIONS c).frames.length := by
  revert c; decide

/-- C1: in every state reachable from `roboteye_animator_init` with a valid id by a
finite sequence of init, enable_blinking, set_horizontal_bias, enable_movement,
trigger and tick calls (ids out of range and every 32-bit `delta_ms` included),
`current` is set and `frame_index` is below the frame count of `current`, which is
the length of its frame array. -/
theorem C1_current_set_and_frame_index_in_bounds (s : RobotEyeAnimator) (h : Reachable s) :
    ∃ c, s.current = some c ∧ s.frame_index < (ROBOTEYE_ANIMATIONS c).frame_count
      ∧ s.frame_index < (ROBOTEYE_ANIMATIONS c).frames.length := by
  obtain ⟨c, hc, hi⟩ := (reachable_inv s h).cur
  exact ⟨c, hc, hi, frame_count_eq_length c ▸ hi⟩

/-- Witness of C1: an animator initialised with Idle, then sent a Blink trigger, a
trigger with id 7, a tick of `2 ^ 32 - 1` ms and an init with id 9. -/
theorem C1_witness :
    Reachable
        (Op.run (.init 9) (Op.run (.tick 4294967295) (Op.run (.trigger 7)
          (Op.run (.trigger 1) (roboteye_animator_init zeroed 0)))))
      ∧ ∃ c,
        (Op.run (.init 9) (Op.run (.tick 4294967295) (Op.run (.trigger 7)
          (Op.run (.trigger 1) (roboteye_animator_init zeroed 0))))).current = some c
        ∧ (Op.run (.init 9) (Op.run (.tick 4294967295) (Op.run (.trigger 7)
          (Op.run (.trigger 1) (roboteye_animator_init zeroed 0))))).frame_index
            < (ROBOTEYE_ANIMATIONS c).frame_count
        ∧ (Op.run (.init 9) (Op.run (.tick 4294967295) (Op.run (.trigger 7)
          (Op.run (.trigger 1) (roboteye_animator_init zeroed 0))))).frame_index
            < (ROBOTEYE_ANIMATIONS c).frames.length :=
  have hr : Reachable
      (Op.run (.init 9) (Op.run (.tick 4294967295) (Op.run (.trigger 7)
        (Op.run (.trigger 1) (roboteye_animator_init zeroed 0))))) :=
    .step _ _ (.step _ _ (.step _ _ (.step _ _ (.init zeroed 0 (by decide)) trivial) trivial)
      (by simp [Op.wf, UINT32_MOD])) trivial
  ⟨hr, C1_current_set_and_frame_index_in_bounds _ hr⟩

/-! ## A tick, case by case -/

/-- Blink arbitration, in one piece. -/
theorem tick_blink_eq (a : RobotEyeAnimator) (delta_ms : Nat) (st : Bool) :
    tick_blink a delta_ms st =
      if autonomous_blink_fires a delta_ms = true then
        ({ a with
            current := some BLINK
            frame_index := 0
            frame_elapsed_ms := 0
            override_active := true
            blink_in_progress := true
            pending_start := false
            blink_timer_ms := 0 }, true)
      else
        ({ a with blink_timer_ms := blink_timer_after a delta_ms }, st) := by
  obtain ⟨cur, base, i, el, bt, bi, be, oa, bip, hb, me, ps⟩ := a
  unfold tick_blink autonomous_blink_fires blink_timer_after
  rw [trigger_blink]
  by_cases h0 : bi > 0 <;> by_cases h3 : (bt + delta_ms) % UINT32_MOD ≥ bi <;>
    cases be <;> cases bip <;> cases oa <;> simp [h0, h3]

theorem tick_of_current (s : RobotEyeAnimator) (delta_ms : Nat) (c : Fin 4)
    (hc : (tick_baseline s).current = some c) :
    roboteye_animator_tick s delta_ms = tick_frames (tick_baseline s) delta_ms := by
  have hne : ¬ (tick_baseline s).current = none := by simp [hc]
  unfold roboteye_animator_tick
  simp only [hne, if_false]

theorem consume_pending (a : RobotEyeAnimator) :
    (if a.pending_start = true then { a with pending_start := false } else a)
      = { a with pending_start := false } := by
  split_ifs with h
  · rfl
  · have : a.pending_start = false := by simpa using h
    rw [← this]

theorem tick_blink_fire (a : RobotEyeAnimator) (delta_ms : Nat) (st : Bool)
    (hf : autonomous_blink_fires a delta_ms = true) :
    tick_blink a delta_ms st =
      ({ a with
          current := some BLINK
          frame_index := 0
          frame_elapsed_ms := 0
          override_active := true
          blink_in_progress := true
          pending_start := false
          blink_timer_ms := 0 }, true) := by
  rw [tick_blink_eq, if_pos hf]

theorem tick_blink_quiet (a : RobotEyeAnimator) (delta_ms : Nat) (st : Bool)
    (hf : autonomous_blink_fires a delta_ms = false) :
    tick_blink a delta_ms st = ({ a with blink_timer_ms := blink_timer_after a delta_ms }, st) := by
  rw [tick_blink_eq, if_neg (by rw [hf]; simp)]

theorem tick_frames_fire (a : RobotEyeAnimator) (delta_ms : Nat)
    (hf : autonomous_blink_fires a delta_ms = true) :
    tick_frames a delta_ms =
      { animator :=
          { a with
            current := some BLINK
            frame_index := 0
            frame_elapsed_ms := 0
            override_active := true
            blink_in_progress := true
            pending_start := false
            blink_timer_ms := 0 }
        frame := some (BLINK, 0) } := by
  unfold tick_frames
  dsimp only
  rw [consume_pending, tick_blink_fire { a with pending_start := false } delta_ms _ hf]
  rfl

theorem tick_frames_pending (a : RobotEyeAnimator) (delta_ms : Nat) (c : Fin 4)
    (hc : a.current = some c) (hp : a.pending_start = true)
    (hf : autonomous_blink_fires a delta_ms = false) :
    tick_frames a delta_ms =
      { animator :=
          { a with pending_start := false, blink_timer_ms := blink_timer_after a delta_ms }
        frame := some (c, a.frame_index) } := by
  unfold tick_frames
  dsimp only
  rw [consume_pending, tick_blink_quiet { a with pending_start := false } delta_ms _ hf, hp]
  simp only [tick_advance, Bool.not_true, Bool.false_eq_true, if_false, if_true, hc,
    Option.map_some']
  rfl

/-- A tick that adds `delta_ms` to the elapsed time and runs the carry loop. -/
theorem tick_frames_advance (a : RobotEyeAnimator) (delta_ms : Nat)
    (hp : a.pending_start = false) (hf : autonomous_blink_fires a delta_ms = false)
    (r : RobotEyeAnimator)
    (hr : carry_loop
        { a with
          blink_timer_ms := blink_timer_after a delta_ms
          frame_elapsed_ms := (a.frame_elapsed_ms + delta_ms) % UINT32_MOD } = (r, true)) :
    tick_frames a delta_ms =
      { animator := r, frame := r.current.map (fun c => (c, r.frame_index)) } := by
  have ha : { a with pending_start := false } = a := by rw [← hp]
  unfold tick_frames
  dsimp only
  rw [consume_pending, ha, tick_blink_quiet a delta_ms _ hf, hp]
  simp only [tick_advance, Bool.not_false, if_true]
  rw [hp] at hr
  rw [hr]
  simp

theorem tick_baseline_stay (s : RobotEyeAnimator) (hsw : ¬ baseline_switches s) :
    tick_baseline s = { s with baseline := roboteye_choose_baseline s } := by
  rw [tick_baseline_eq]
  exact if_neg hsw

theorem tick_baseline_switch (s : RobotEyeAnimator) (hsw : baseline_switches s) :
    tick_baseline s =
      { s with
        baseline := roboteye_choose_baseline s
        current := roboteye_choose_baseline s
        frame_index := 0
        frame_elapsed_ms := 0
        pending_start := true } := by
  rw [tick_baseline_eq]
  exact if_pos hsw

/-- A tick in which the autonomous blink fires. -/
theorem tick_fire (s : RobotEyeAnimator) (delta_ms : Nat) (c : Fin 4) (hc : s.current = some c)
    (hf : autonomous_blink_fires s delta_ms = true) :
    roboteye_animator_tick s delta_ms =
      { animator :=
          { s with
            current := some BLINK
            baseline := roboteye_choose_baseline s
            frame_index := 0
            frame_elapsed_ms := 0
            override_active := true
            blink_in_progress := true
            pending_start := false
            blink_timer_ms := 0 }
        frame := some (BLINK, 0) } := by
  obtain ⟨b, hb, -⟩ := choose_baseline_loops s
  by_cases hsw : baseline_switches s
  · rw [tick_of_current s delta_ms b (by rw [tick_baseline_switch s hsw]; exact hb),
      tick_baseline_switch s hsw]
    exact (tick_frames_fire _ _ (by exact hf)).trans rfl
  · rw [tick_of_current s delta_ms c (by rw [tick_baseline_stay s hsw]; exact hc),
      tick_baseline_stay s hsw]
    exact (tick_frames_fire _ _ (by exact hf)).trans rfl

/-- A tick that switches the animation on display to the desired baseline. -/
theorem tick_switch (s : RobotEyeAnimator) (delta_ms : Nat) (hsw : baseline_switches s)
    (hf : autonomous_blink_fires s delta_ms = false) :
    roboteye_animator_tick s delta_ms =
      { animator :=
          { s with
            current := roboteye_choose_baseline s
            baseline := roboteye_choose_baseline s
            frame_index := 0
            frame_elapsed_ms := 0
            pending_start := false
            blink_timer_ms := blink_timer_after s delta_ms }
        frame := (roboteye_choose_baseline s).map (fun c => (c, 0)) } := by
  obtain ⟨b, hb, -⟩ := choose_baseline_loops s
  rw [tick_of_current s delta_ms b (by rw [tick_baseline_switch s hsw]; exact hb),
    tick_baseline_switch s hsw]
  refine (tick_frames_pending _ _ b ?_ ?_ ?_).trans ?_
  · exact hb
  · rfl
  · exact hf
  · rw [hb]
    rfl

/-- A tick that consumes `pending_start` without a baseline switch. -/
theorem tick_pending (s : RobotEyeAnimator) (delta_ms : Nat) (c : Fin 4)
    (hc : s.current = some c) (hsw : ¬ baseline_switches s) (hp : s.pending_start = true)
    (hf : autonomous_blink_fires s delta_ms = false) :
    roboteye_animator_tick s delta_ms =
      { animator :=
          { s with
            baseline := roboteye_choose_baseline s
            pending_start := false
            blink_timer_ms := blink_timer_after s delta_ms }
        frame := some (c, s.frame_index) } := by
  rw [tick_of_current s delta_ms c (by rw [tick_baseline_stay s hsw]; exact hc),
    tick_baseline_stay s hsw]
  refine (tick_frames_pending _ _ c ?_ ?_ ?_).trans ?_
  · exact hc
  · exact hp
  · exact hf
  · rfl

/-- A tick that advances a looping animation. -/
theorem tick_looping (s : RobotEyeAnimator) (delta_ms : Nat) (c : Fin 4)
    (hc : s.current = some c) (hl : (ROBOTEYE_ANIMATIONS c).loop = true)
    (hi : s.frame_index < (ROBOTEYE_ANIMATIONS c).frame_count)
    (hsw : ¬ baseline_switches s) (hp : s.pending_start = false)
    (hf : autonomous_blink_fires s delta_ms = false) :
    roboteye_animator_tick s delta_ms =
      { animator :=
          { s with
            baseline := roboteye_choose_baseline s
            blink_timer_ms := blink_timer_after s delta_ms
            frame_index :=
              (s.frame_index + (s.frame_elapsed_ms + delta_ms) % UINT32_MOD
                  / (ROBOTEYE_ANIMATIONS c).frame_duration_ms)
                % (ROBOTEYE_ANIMATIONS c).frame_count
            frame_elapsed_ms :=
              (s.frame_elapsed_ms + delta_ms) % UINT32_MOD
                % (ROBOTEYE_ANIMATIONS c).frame_duration_ms }
        frame := some (c,
          (s.frame_index + (s.frame_elapsed_ms + delta_ms) % UINT32_MOD
              / (ROBOTEYE_ANIMATIONS c).frame_duration_ms)
            % (ROBOTEYE_ANIMATIONS c).frame_count) } := by
  rw [tick_of_current s delta_ms c (by rw [tick_baseline_stay s hsw]; exact hc),
    tick_baseline_stay s hsw]
  refine (tick_frames_advance _ _ ?_ ?_ _ (carry_loop_looping c hl _ _ rfl ?_ ?_)).trans ?_
  · exact hp
  · exact hf
  · exact hc
  · exact hi
  · simp only [hc, Option.map_some']
    rfl

/-- A tick inside a Blink that does not reach its end. -/
theorem tick_blink_stay (s : RobotEyeAnimator) (delta_ms : Nat)
    (hc : s.current = some BLINK) (hsw : ¬ baseline_switches s) (hp : s.pending_start = false)
    (hf : autonomous_blink_fires s delta_ms = false)
    (hd : 45 * s.frame_index + (s.frame_elapsed_ms + delta_ms) % UINT32_MOD < 225) :
    roboteye_animator_tick s delta_ms =
      { animator :=
          { s with
            baseline := roboteye_choose_baseline s
            blink_timer_ms := blink_timer_after s delta_ms
            frame_index := s.frame_index + (s.frame_elapsed_ms + delta_ms) % UINT32_MOD / 45
            frame_elapsed_ms := (s.frame_elapsed_ms + delta_ms) % UINT32_MOD % 45 }
        frame := some (BLINK,
          s.frame_index + (s.frame_elapsed_ms + delta_ms) % UINT32_MOD / 45) } := by
  rw [tick_of_current s delta_ms BLINK (by rw [tick_baseline_stay s hsw]; exact hc),
    tick_baseline_stay s hsw]
  refine (tick_frames_advance _ _ ?_ ?_ _ (carry_loop_blink_stay _ _ rfl ?_ ?_)).trans ?_
  · exact hp
  · exact hf
  · exact hc
  · exact hd
  · simp only [hc, Option.map_some']
    rfl

/-- Closed form of the loop when a Blink completes into a looping baseline. -/
theorem carry_loop_blink_done_looping (a : RobotEyeAnimator) (b : Fin 4)
    (hc : a.current = some BLINK) (hi : a.frame_index < 5)
    (hd : 225 ≤ 45 * a.frame_index + a.frame_elapsed_ms)
    (hb : a.baseline = some b) (hbl : (ROBOTEYE_ANIMATIONS b).loop = true) :
    carry_loop a =
      ({ a with
          current := some b
          override_active := false
          blink_in_progress := false
          pending_start := true
          frame_index :=
            (a.frame_elapsed_ms - 45 * (5 - a.frame_index))
                / (ROBOTEYE_ANIMATIONS b).frame_duration_ms
              % (ROBOTEYE_ANIMATIONS b).frame_count
          frame_elapsed_ms :=
            (a.frame_elapsed_ms - 45 * (5 - a.frame_index))
              % (ROBOTEYE_ANIMATIONS b).frame_duration_ms }, true) := by
  rw [carry_loop_blink_done _ _ rfl hc hi hd, if_neg (by simp [hb])]
  rw [carry_loop_looping b hbl _ _ rfl (by simp [blink_done, hb])
    (by simpa [blink_done] using (catalog_count_bound b).1)]
  simp only [blink_done, hb, Nat.zero_add]

/-- A tick that completes a Blink: the rest of the time is carried into the desired
baseline `b`. -/
theorem tick_blink_done (s : RobotEyeAnimator) (delta_ms : Nat) (b : Fin 4)
    (hc : s.current = some BLINK) (hi : s.frame_index < 5)
    (hsw : ¬ baseline_switches s) (hp : s.pending_start = false)
    (hf : autonomous_blink_fires s delta_ms = false)
    (hb : roboteye_choose_baseline s = some b)
    (hd : 225 ≤ 45 * s.frame_index + (s.frame_elapsed_ms + delta_ms) % UINT32_MOD) :
    roboteye_animator_tick s delta_ms =
      { animator :=
          { s with
            current := some b
            baseline := some b
            blink_timer_ms := blink_timer_after s delta_ms
            override_active := false
            blink_in_progress := false
            pending_start := true
            frame_index :=
              ((s.frame_elapsed_ms + delta_ms) % UINT32_MOD - 45 * (5 - s.frame_index))
                  / (ROBOTEYE_ANIMATIONS b).frame_duration_ms
                % (ROBOTEYE_ANIMATIONS b).frame_count
            frame_elapsed_ms :=
              ((s.frame_elapsed_ms + delta_ms) % UINT32_MOD - 45 * (5 - s.frame_index))
                % (ROBOTEYE_ANIMATIONS b).frame_duration_ms }
        frame := some (b,
          ((s.frame_elapsed_ms + delta_ms) % UINT32_MOD - 45 * (5 - s.frame_index))
              / (ROBOTEYE_ANIMATIONS b).frame_duration_ms
            % (ROBOTEYE_ANIMATIONS b).frame_count) } := by
  obtain ⟨b', hb', hbl⟩ := choose_baseline_loops s
  have hbb : b' = b := by
    rw [hb] at hb'
    exact (Option.some.inj hb').symm
  subst hbb
  rw [tick_of_current s delta_ms BLINK (by rw [tick_baseline_stay s hsw]; exact hc),
    tick_baseline_stay s hsw]
  refine (tick_frames_advance _ _ ?_ ?_ _
    (carry_loop_blink_done_looping _ b' ?_ ?_ ?_ ?_ hbl)).trans ?_
  · exact hp
  · exact hf
  · exact hc
  · exact hi
  · exact hd
  · exact hb
  · simp only [hb, Option.map_some']
    rfl

theorem fires_false_of_override (s : RobotEyeAnimator) (delta_ms : Nat)
    (ho : s.override_active = true) : autonomous_blink_fires s delta_ms = false := by
  unfold autonomous_blink_fires
  simp [ho]

theorem fires_false_of_disabled (s : RobotEyeAnimator) (delta_ms : Nat)
    (hb : s.blinking_enabled = false) : autonomous_blink_fires s delta_ms = false := by
  unfold autonomous_blink_fires
  simp [hb]

theorem not_switches_of_override (s : RobotEyeAnimator) (ho : s.override_active = true) :
    ¬ baseline_switches s := by
  rintro ⟨h, -⟩
  rw [ho] at h
  exact absurd h (by decide)

theorem not_switches_of_eq (s : RobotEyeAnimator)
    (h : roboteye_choose_baseline s = s.baseline) : ¬ baseline_switches s :=
  fun hsw => hsw.2.2 h

/-- Counterexample to C2 as stated: on a freshly initialised Idle animator, the single
tick of 225 ms after the Blink trigger only consumes `pending_start`; Blink is still
on display at frame 0 and both flags are still set. -/
theorem C2_counterexample :
    Reachable (roboteye_animator_init zeroed ROBOTEYE_ANIMATION_IDLE)
      ∧ (roboteye_animator_tick
          (roboteye_animator_trigger (roboteye_animator_init zeroed ROBOTEYE_ANIMATION_IDLE)
            ROBOTEYE_ANIMATION_BLINK) 225).animator.current = some BLINK
      ∧ (roboteye_animator_tick
          (roboteye_animator_trigger (roboteye_animator_init zeroed ROBOTEYE_ANIMATION_IDLE)
            ROBOTEYE_ANIMATION_BLINK) 225).animator.baseline = some IDLE
      ∧ (roboteye_animator_tick
          (roboteye_animator_trigger (roboteye_animator_init zeroed ROBOTEYE_ANIMATION_IDLE)
            ROBOTEYE_ANIMATION_BLINK) 225).animator.override_active = true
      ∧ (roboteye_animator_tick
          (roboteye_animator_trigger (roboteye_animator_init zeroed ROBOTEYE_ANIMATION_IDLE)
            ROBOTEYE_ANIMATION_BLINK) 225).animator.blink_in_progress = true :=
  ⟨.init zeroed 0 (by decide), by decide, by decide, by decide, by decide⟩

/-- C2, amended: for every animator, after `roboteye_animator_trigger(BLINK)` the next
tick (of any `delta_ms`) consumes `pending_start` and leaves Blink at frame 0 with no
time elapsed; the tick of 225 ms after that one returns control to the
baseline: `current` equals `baseline`, `override_active` and `blink_in_progress`
are false. -/
theorem C2_blink_completes_after_start_tick (s : RobotEyeAnimator) (d : Nat) :
    (roboteye_animator_tick (roboteye_animator_trigger s ROBOTEYE_ANIMATION_BLINK) d).animator.current
        = some BLINK
      ∧ (roboteye_animator_tick
          (roboteye_animator_trigger s ROBOTEYE_ANIMATION_BLINK) d).animator.frame_index = 0
      ∧ (roboteye_animator_tick
          (roboteye_animator_trigger s ROBOTEYE_ANIMATION_BLINK) d).animator.frame_elapsed_ms = 0
      ∧ (roboteye_animator_tick
          (roboteye_animator_trigger s ROBOTEYE_ANIMATION_BLINK) d).animator.override_active = true
      ∧ (roboteye_animator_tick
          (roboteye_animator_tick
            (roboteye_animator_trigger s ROBOTEYE_ANIMATION_BLINK) d).animator 225).animator.current
        = (roboteye_animator_tick
          (roboteye_animator_tick
            (roboteye_animator_trigger s ROBOTEYE_ANIMATION_BLINK) d).animator 225).animator.baseline
      ∧ (roboteye_animator_tick
          (roboteye_animator_tick
            (roboteye_animator_trigger s ROBOTEYE_ANIMATION_BLINK) d).animator 225).animator.override_active
        = false
      ∧ (roboteye_animator_tick
          (roboteye_animator_tick
            (roboteye_animator_trigger s ROBOTEYE_ANIMATION_BLINK) d).animator 225).animator.blink_in_progress
        = false := by
  obtain ⟨b, hb, -⟩ := choose_baseline_loops s
  have h1 : roboteye_animator_tick (roboteye_animator_trigger s ROBOTEYE_ANIMATION_BLINK) d =
      { animator :=
          { s with
            current := some BLINK
            baseline := some b
            frame_index := 0
            frame_elapsed_ms := 0
            override_active := true
            blink_in_progress := true
            pending_start := false
            blink_timer_ms := 0 }
        frame := some (BLINK, 0) } := by
    rw [trigger_blink]
    refine (tick_pending _ d BLINK rfl (not_switches_of_override _ rfl) rfl
      (fires_false_of_override _ _ rfl)).trans ?_
    have hch : roboteye_choose_baseline
        { s with
          current := some BLINK
          frame_index := 0
          frame_elapsed_ms := 0
          override_active := true
          blink_in_progress := true
          pending_start := true
          blink_timer_ms := 0 } = some b := hb
    rw [hch]
    simp only [blink_timer_after, Bool.not_true, Bool.false_and, Bool.false_eq_true, if_false,
      if_true, ite_self]
  rw [h1]
  refine ⟨rfl, rfl, rfl, rfl, ?_⟩
  have h2 := tick_blink_done
    { s with
      current := some BLINK
      baseline := some b
      frame_index := 0
      frame_elapsed_ms := 0
      override_active := true
      blink_in_progress := true
      pending_start := false
      blink_timer_ms := 0 } 225 b rfl (by simp) (not_switches_of_override _ rfl) rfl
    (fires_false_of_override _ _ rfl) hb (by simp [UINT32_MOD])
  rw [h2]
  exact ⟨rfl, rfl, rfl⟩

/-! ## Steady playback of a looping animation -/

/-- A tick of an animator that steadily plays the looping animation `c`. -/
theorem tick_steady (s : RobotEyeAnimator) (delta_ms : Nat) (c : Fin 4)
    (hc : s.current = some c) (hb : s.baseline = some c)
    (hd : roboteye_choose_baseline s = some c) (hp : s.pending_start = false)
    (hbl : s.blinking_enabled = false) (hl : (ROBOTEYE_ANIMATIONS c).loop = true)
    (hi : s.frame_index < (ROBOTEYE_ANIMATIONS c).frame_count) :
    roboteye_animator_tick s delta_ms =
      { animator :=
          { s with
            frame_index :=
              (s.frame_index + (s.frame_elapsed_ms + delta_ms) % UINT32_MOD
                  / (ROBOTEYE_ANIMATIONS c).frame_duration_ms)
                % (ROBOTEYE_ANIMATIONS c).frame_count
            frame_elapsed_ms :=
              (s.frame_elapsed_ms + delta_ms) % UINT32_MOD
                % (ROBOTEYE_ANIMATIONS c).frame_duration_ms }
        frame := some (c,
          (s.frame_index + (s.frame_elapsed_ms + delta_ms) % UINT32_MOD
              / (ROBOTEYE_ANIMATIONS c).frame_duration_ms)
            % (ROBOTEYE_ANIMATIONS c).frame_count) } := by
  rw [tick_looping s delta_ms c hc hl hi (not_switches_of_eq s (by rw [hd, hb])) hp
    (fires_false_of_disabled s delta_ms hbl)]
  have ht : blink_timer_after s delta_ms = s.blink_timer_ms := by
    simp [blink_timer_after, hbl]
  rw [ht, hd, ← hb]

theorem split_arith (i e a b d n : Nat) (hd : 0 < d) :
    ((i + (e + a) / d) % n + ((e + a) % d + b) / d) % n = (i + (e + (a + b)) / d) % n
      ∧ ((e + a) % d + b) % d = (e + (a + b)) % d := by
  have h1 : (e + (a + b)) / d = (e + a) / d + ((e + a) % d + b) / d := by
    have h := Nat.div_add_mod (e + a) d
    have h2 : e + (a + b) = (e + a) % d + b + d * ((e + a) / d) := by omega
    rw [h2, Nat.add_mul_div_left _ _ hd]
    omega
  constructor
  · rw [h1, Nat.mod_add_mod, Nat.add_assoc]
  · rw [Nat.mod_add_mod, Nat.add_assoc]

/-- Two steady ticks are one tick of the sum, as long as the 32-bit sum does not wrap. -/
theorem tick_steady_split (s : RobotEyeAnimator) (c : Fin 4)
    (hc : s.current = some c) (hb : s.baseline = some c)
    (hd : roboteye_choose_baseline s = some c) (hp : s.pending_start = false)
    (hbl : s.blinking_enabled = false) (hl : (ROBOTEYE_ANIMATIONS c).loop = true)
    (hi : s.frame_index < (ROBOTEYE_ANIMATIONS c).frame_count)
    (a b : Nat) (hab : s.frame_elapsed_ms + a + b < UINT32_MOD) :
    roboteye_animator_tick (roboteye_animator_tick s a).animator b
      = roboteye_animator_tick s (a + b) := by
  have hpos := frame_duration_pos c
  have hn := (catalog_count_bound c).1
  rw [tick_steady s a c hc hb hd hp hbl hl hi, tick_steady s (a + b) c hc hb hd hp hbl hl hi]
  refine (tick_steady _ b c ?_ ?_ ?_ ?_ ?_ hl ?_).trans ?_
  · exact hc
  · exact hb
  · exact hd
  · exact hp
  · exact hbl
  · exact Nat.mod_lt _ hn
  have m1 : (s.frame_elapsed_ms + a) % UINT32_MOD = s.frame_elapsed_ms + a :=
    Nat.mod_eq_of_lt (by omega)
  have m2 : (s.frame_elapsed_ms + (a + b)) % UINT32_MOD = s.frame_elapsed_ms + (a + b) :=
    Nat.mod_eq_of_lt (by omega)
  have hlt : (s.frame_elapsed_ms + a) % (ROBOTEYE_ANIMATIONS c).frame_duration_ms
      ≤ s.frame_elapsed_ms + a := Nat.mod_le _ _
  have m3 : ((s.frame_elapsed_ms + a) % (ROBOTEYE_ANIMATIONS c).frame_duration_ms + b)
      % UINT32_MOD
      = (s.frame_elapsed_ms + a) % (ROBOTEYE_ANIMATIONS c).frame_duration_ms + b :=
    Nat.mod_eq_of_lt (by omega)
  obtain ⟨e1, e2⟩ := split_arith s.frame_index s.frame_elapsed_ms a b
    (ROBOTEYE_ANIMATIONS c).frame_duration_ms (ROBOTEYE_ANIMATIONS c).frame_count hpos
  simp only [m1, m2] at e1 e2 ⊢
  simp only [m3, e1, e2]

theorem frame_duration_lt_uint32 (c : Fin 4) :
    (ROBOTEYE_ANIMATIONS c).frame_duration_ms < UINT32_MOD := by
  revert c; decide

/-- Closed form of any sequence of steady ticks whose 32-bit sums do not wrap. -/
theorem steady_run_ticks (c : Fin 4) (hl : (ROBOTEYE_ANIMATIONS c).loop = true) :
    ∀ (ds : List Nat) (s : RobotEyeAnimator),
      s.current = some c → s.baseline = some c → roboteye_choose_baseline s = some c →
      s.pending_start = false → s.blinking_enabled = false →
      s.frame_index < (ROBOTEYE_ANIMATIONS c).frame_count →
      s.frame_elapsed_ms < (ROBOTEYE_ANIMATIONS c).frame_duration_ms →
      s.frame_elapsed_ms + ds.sum < UINT32_MOD →
      run_ticks s ds =
        { s with
          frame_index :=
            (s.frame_index + (s.frame_elapsed_ms + ds.sum)
                / (ROBOTEYE_ANIMATIONS c).frame_duration_ms)
              % (ROBOTEYE_ANIMATIONS c).frame_count
          frame_elapsed_ms :=
            (s.frame_elapsed_ms + ds.sum) % (ROBOTEYE_ANIMATIONS c).frame_duration_ms } := by
  have hpos := frame_duration_pos c
  have hn := (catalog_count_bound c).1
  intro ds
  induction ds with
  | nil =>
    intro s hc hb hd hp hbl hi he _
    simp only [run_ticks, List.sum_nil, Nat.add_zero]
    rw [Nat.div_eq_of_lt he, Nat.mod_eq_of_lt he, Nat.add_zero, Nat.mod_eq_of_lt hi]
  | cons d ds ih =>
    intro s hc hb hd hp hbl hi he hsum
    simp only [List.sum_cons] at hsum
    simp only [run_ticks, List.sum_cons]
    rw [tick_steady s d c hc hb hd hp hbl hl hi]
    have m1 : (s.frame_elapsed_ms + d) % UINT32_MOD = s.frame_elapsed_ms + d :=
      Nat.mod_eq_of_lt (by omega)
    have hle : (s.frame_elapsed_ms + d) % (ROBOTEYE_ANIMATIONS c).frame_duration_ms
        ≤ s.frame_elapsed_ms + d := Nat.mod_le _ _
    refine (ih _ ?_ ?_ ?_ ?_ ?_ ?_ ?_ ?_).trans ?_
    · exact hc
    · exact hb
    · exact hd
    · exact hp
    · exact hbl
    · exact Nat.mod_lt _ hn
    · exact Nat.mod_lt _ hpos
    · show (s.frame_elapsed_ms + d) % UINT32_MOD % (ROBOTEYE_ANIMATIONS c).frame_duration_ms
        + ds.sum < UINT32_MOD
      rw [m1]; omega
    · obtain ⟨e1, e2⟩ := split_arith s.frame_index s.frame_elapsed_ms d ds.sum
        (ROBOTEYE_ANIMATIONS c).frame_duration_ms (ROBOTEYE_ANIMATIONS c).frame_count hpos
      simp only [m1, e1, e2]

/-- C3: tick-splitting invariance. In every reachable state that steadily plays a
looping animation `c` (`current`, the stored baseline and the desired baseline are
all `c`, `pending_start` is false, blinking is disabled), for all `a`, `b` with
`frame_elapsed + a + b < 2 ^ 32`, `tick(a)` followed by `tick(b)` leaves the same
state and returns the same frame as the single `tick(a + b)`; any number `n` of
1 ms ticks leaves the state of one tick of `n` ms, and in particular on Idle
10000 ticks of 1 ms leave the state of one tick of 10000 ms. -/
theorem C3_tick_splitting_invariance (s : RobotEyeAnimator) (h : Reachable s) (c : Fin 4)
    (hl : (ROBOTEYE_ANIMATIONS c).loop = true)
    (hc : s.current = some c) (hb : s.baseline = some c)
    (hd : roboteye_choose_baseline s = some c)
    (hp : s.pending_start = false) (hbl : s.blinking_enabled = false) :
    (∀ a b : Nat, s.frame_elapsed_ms + a + b < UINT32_MOD →
        roboteye_animator_tick (roboteye_animator_tick s a).animator b
          = roboteye_animator_tick s (a + b))
      ∧ (∀ n : Nat, s.frame_elapsed_ms + n < UINT32_MOD →
        run_ticks s (List.replicate n 1) = (roboteye_animator_tick s n).animator)
      ∧ (c = IDLE →
        run_ticks s (List.replicate 10000 1) = (roboteye_animator_tick s 10000).animator) := by
  have hinv := reachable_inv s h
  obtain ⟨c', hc', hi⟩ := hinv.cur
  have hcc : c' = c := by
    rw [hc] at hc'
    exact (Option.some.inj hc').symm
  subst hcc
  have he := hinv.elapsed c' hc
  have hrep : ∀ n : Nat, s.frame_elapsed_ms + n < UINT32_MOD →
      run_ticks s (List.replicate n 1) = (roboteye_animator_tick s n).animator := by
    intro n hn
    have hsum : (List.replicate n 1).sum = n := by simp
    rw [steady_run_ticks c' hl _ s hc hb hd hp hbl hi he (by rw [hsum]; exact hn), hsum,
      tick_steady s n c' hc hb hd hp hbl hl hi, Nat.mod_eq_of_lt hn]
  refine ⟨fun a b hab => tick_steady_split s c' hc hb hd hp hbl hl hi a b hab, hrep, ?_⟩
  intro _
  have := frame_duration_lt_uint32 c'
  have hall : ∀ i : Fin 4, (ROBOTEYE_ANIMATIONS i).frame_duration_ms ≤ 140 := by decide
  have hd140 := hall c'
  exact hrep 10000 (by unfold UINT32_MOD at *; omega)

theorem idle_steady_reachable : Reachable idle_steady :=
  .step _ (.tick 0) (.init zeroed 0 (by decide)) (by simp [Op.wf, UINT32_MOD])

/-- Witness of C3: the steady Idle animator. -/
theorem C3_witness :
    Reachable idle_steady ∧ (ROBOTEYE_ANIMATIONS IDLE).loop = true
      ∧ idle_steady.current = some IDLE ∧ idle_steady.baseline = some IDLE
      ∧ roboteye_choose_baseline idle_steady = some IDLE
      ∧ idle_steady.pending_start = false ∧ idle_steady.blinking_enabled = false
      ∧ ((∀ a b : Nat, idle_steady.frame_elapsed_ms + a + b < UINT32_MOD →
          roboteye_animator_tick (roboteye_animator_tick idle_steady a).animator b
            = roboteye_animator_tick idle_steady (a + b))
        ∧ (∀ n : Nat, idle_steady.frame_elapsed_ms + n < UINT32_MOD →
          run_ticks idle_steady (List.replicate n 1)
            = (roboteye_animator_tick idle_steady n).animator)
        ∧ (IDLE = IDLE →
          run_ticks idle_steady (List.replicate 10000 1)
            = (roboteye_animator_tick idle_steady 10000).animator)) :=
  ⟨idle_steady_reachable, by decide, by decide, by decide, by decide, by decide, by decide,
    C3_tick_splitting_invariance idle_steady idle_steady_reachable IDLE (by decide) (by decide)
      (by decide) (by decide) (by decide) (by decide)⟩

/-- C4: loop correctness. For every looping catalog animation `c` with `n` frames of
`d` ms, an animator that steadily plays `c` (`current`, the stored and the
desired baseline are `c`, `pending_start` false, blinking disabled) from frame 0
with no time elapsed is back at frame 0 with no time elapsed after any list of
ticks whose `delta_ms` sum to exactly `n * d`. -/
theorem C4_loop_correctness (c : Fin 4) (hl : (ROBOTEYE_ANIMATIONS c).loop = true)
    (s : RobotEyeAnimator) (hc : s.current = some c) (hb : s.baseline = some c)
    (hd : roboteye_choose_baseline s = some c)
    (hp : s.pending_start = false) (hbl : s.blinking_enabled = false)
    (hi : s.frame_index = 0) (he : s.frame_elapsed_ms = 0)
    (ds : List Nat)
    (hsum : ds.sum = (ROBOTEYE_ANIMATIONS c).frame_count * (ROBOTEYE_ANIMATIONS c).frame_duration_ms) :
    (run_ticks s ds).frame_index = 0 ∧ (run_ticks s ds).frame_elapsed_ms = 0 := by
  have hpos := frame_duration_pos c
  have hn := (catalog_count_bound c).1
  have hbound : ∀ i : Fin 4,
      (ROBOTEYE_ANIMATIONS i).frame_count * (ROBOTEYE_ANIMATIONS i).frame_duration_ms
        < UINT32_MOD := by decide
  rw [steady_run_ticks c hl ds s hc hb hd hp hbl (by rw [hi]; exact hn) (by rw [he]; exact hpos)
    (by rw [he, hsum, Nat.zero_add]; exact hbound c)]
  simp only [hi, he, hsum, Nat.zero_add]
  exact ⟨by rw [Nat.mul_div_cancel _ hpos, Nat.mod_self], Nat.mul_mod_left _ _⟩

/-- Witness of C4: Idle (2 frames of 140 ms) ticked by 100 ms and then 180 ms. -/
theorem C4_witness :
    (ROBOTEYE_ANIMATIONS IDLE).loop = true
      ∧ idle_steady.current = some IDLE ∧ idle_steady.baseline = some IDLE
      ∧ roboteye_choose_baseline idle_steady = some IDLE
      ∧ idle_steady.pending_start = false ∧ idle_steady.blinking_enabled = false
      ∧ idle_steady.frame_index = 0 ∧ idle_steady.frame_elapsed_ms = 0
      ∧ [100, 180].sum
          = (ROBOTEYE_ANIMATIONS IDLE).frame_count * (ROBOTEYE_ANIMATIONS IDLE).frame_duration_ms
      ∧ (run_ticks idle_steady [100, 180]).frame_index = 0
      ∧ (run_ticks idle_steady [100, 180]).frame_elapsed_ms = 0 :=
  ⟨by decide, by decide, by decide, by decide, by decide, by decide, by decide, by decide,
    by decide,
    C4_loop_correctness IDLE (by decide) idle_steady (by decide) (by decide) (by decide)
      (by decide) (by decide) (by decide) (by decide) [100, 180] (by decide)⟩

/-! ## The scenario of the specification -/

theorem choose_disabled (s : RobotEyeAnimator) (h : s.movement_enabled = false) :
    roboteye_choose_baseline s = some IDLE := by
  simp [roboteye_choose_baseline, h]

theorem choose_left (s : RobotEyeAnimator) (hm : s.movement_enabled = true)
    (h : CFloat.le s.horizontal_bias (.fin (-F32_0_35)) = true) :
    roboteye_choose_baseline s = some LOOK_LEFT := by
  simp [roboteye_choose_baseline, hm, h]

theorem choose_right (s : RobotEyeAnimator) (hm : s.movement_enabled = true)
    (h1 : CFloat.le s.horizontal_bias (.fin (-F32_0_35)) = false)
    (h2 : CFloat.le (.fin F32_0_35) s.horizontal_bias = true) :
    roboteye_choose_baseline s = some LOOK_RIGHT := by
  simp [roboteye_choose_baseline, hm, h1, h2]

theorem choose_idle (s : RobotEyeAnimator) (hm : s.movement_enabled = true)
    (h1 : CFloat.le s.horizontal_bias (.fin (-F32_0_35)) = false)
    (h2 : CFloat.le (.fin F32_0_35) s.horizontal_bias = false) :
    roboteye_choose_baseline s = some IDLE := by
  simp [roboteye_choose_baseline, hm, h1, h2]

theorem scenario_start_eq : scenario_start = scenario_state IDLE 0 0 0 (-F32_0_8) true := by
  have h1 : CFloat.lt (.fin 1) (.fin (-F32_0_8)) = false := by
    simp only [CFloat.lt, F32_0_8]; norm_num
  have h2 : CFloat.lt (.fin (-F32_0_8)) (.fin (-1)) = false := by
    simp only [CFloat.lt, F32_0_8]; norm_num
  simp [scenario_start, scenario_state, roboteye_animator_set_horizontal_bias, h1, h2,
    roboteye_animator_enable_movement, roboteye_animator_enable_blinking,
    roboteye_animator_init, ROBOTEYE_ANIMATION_IDLE, IDLE]

theorem scenario_choose_left (c : Fin 4) (i e t : Nat) (p : Bool) :
    roboteye_choose_baseline (scenario_state c i e t (-F32_0_8) p) = some LOOK_LEFT := by
  apply choose_left _ rfl
  simp only [scenario_state, CFloat.le, F32_0_8, F32_0_35]; norm_num

theorem scenario_choose_idle (c : Fin 4) (i e t : Nat) (p : Bool) :
    roboteye_choose_baseline (scenario_state c i e t 0 p) = some IDLE := by
  apply choose_idle _ rfl
  · simp only [scenario_state, CFloat.le, F32_0_35]; norm_num
  · simp only [scenario_state, CFloat.le, F32_0_35]; norm_num

/-- A scenario tick that finds the desired baseline `b` different from the stored one. -/
theorem scenario_tick_switch (c b : Fin 4) (i e t : Nat) (q : ℚ) (p : Bool)
    (hb : roboteye_choose_baseline (scenario_state c i e t q p) = some b) (hcb : b ≠ c)
    (ht : t + 40 < 900) :
    roboteye_animator_tick (scenario_state c i e t q p) 40
      = { animator := scenario_state b 0 0 (t + 40) q false, frame := some (b, 0) } := by
  have hsw : baseline_switches (scenario_state c i e t q p) :=
    ⟨rfl, rfl, by rw [hb]; simpa [scenario_state] using hcb⟩
  have hf : autonomous_blink_fires (scenario_state c i e t q p) 40 = false := by
    simp [autonomous_blink_fires, scenario_state, UINT32_MOD]
    omega
  rw [tick_switch _ _ hsw hf, hb]
  have hta : blink_timer_after (scenario_state c i e t q p) 40 = t + 40 := by
    simp [blink_timer_after, scenario_state, UINT32_MOD]
    omega
  rw [hta]
  rfl

/-- A scenario tick on the desired baseline, a looping animation. -/
theorem scenario_tick_advance (c : Fin 4) (i e t : Nat) (q : ℚ)
    (hb : roboteye_choose_baseline (scenario_state c i e t q false) = some c)
    (hl : (ROBOTEYE_ANIMATIONS c).loop = true)
    (hi : i < (ROBOTEYE_ANIMATIONS c).frame_count)
    (ht : t + 40 < 900) (he : e + 40 < UINT32_MOD) :
    roboteye_animator_tick (scenario_state c i e t q false) 40
      = { animator := scenario_state c
            ((i + (e + 40) / (ROBOTEYE_ANIMATIONS c).frame_duration_ms)
              % (ROBOTEYE_ANIMATIONS c).frame_count)
            ((e + 40) % (ROBOTEYE_ANIMATIONS c).frame_duration_ms) (t + 40) q false
          frame := some (c, (i + (e + 40) / (ROBOTEYE_ANIMATIONS c).frame_duration_ms)
              % (ROBOTEYE_ANIMATIONS c).frame_count) } := by
  have hsw : ¬ baseline_switches (scenario_state c i e t q false) :=
    not_switches_of_eq _ (by rw [hb]; rfl)
  have hf : autonomous_blink_fires (scenario_state c i e t q false) 40 = false := by
    simp [autonomous_blink_fires, scenario_state, UINT32_MOD]
    omega
  rw [tick_looping _ _ c rfl hl hi hsw rfl hf, hb]
  have hta : blink_timer_after (scenario_state c i e t q false) 40 = t + 40 := by
    simp [blink_timer_after, scenario_state, UINT32_MOD]
    omega
  have hm : ((scenario_state c i e t q false).frame_elapsed_ms + 40) % UINT32_MOD = e + 40 :=
    Nat.mod_eq_of_lt he
  rw [hta, hm]
  rfl

theorem scenario_look_left_eq :
    scenario_look_left = scenario_state LOOK_LEFT 1 80 240 (-F32_0_8) false := by
  unfold scenario_look_left
  rw [scenario_start_eq]
  simp only [run_ticks]
  rw [scenario_tick_switch IDLE LOOK_LEFT _ _ _ _ _ (scenario_choose_left _ _ _ _ _)
    (by decide) (by decide)]
  rw [scenario_tick_advance LOOK_LEFT _ _ _ _ (scenario_choose_left _ _ _ _ _) (by decide)
    (by decide) (by decide) (by decide)]
  rw [scenario_tick_advance LOOK_LEFT _ _ _ _ (scenario_choose_left _ _ _ _ _) (by decide)
    (by decide) (by decide) (by decide)]
  rw [scenario_tick_advance LOOK_LEFT _ _ _ _ (scenario_choose_left _ _ _ _ _) (by decide)
    (by decide) (by decide) (by decide)]
  rw [scenario_tick_advance LOOK_LEFT _ _ _ _ (scenario_choose_left _ _ _ _ _) (by decide)
    (by decide) (by decide) (by decide)]
  rw [scenario_tick_advance LOOK_LEFT _ _ _ _ (scenario_choose_left _ _ _ _ _) (by decide)
    (by decide) (by decide) (by decide)]
  rfl

theorem reachable_run_ticks (ds : List Nat) :
    ∀ s : RobotEyeAnimator, Reachable s → (∀ d ∈ ds, d < UINT32_MOD) →
      Reachable (run_ticks s ds) := by
  induction ds with
  | nil => intro s h _; exact h
  | cons d ds ih =>
    intro s h hd
    exact ih _ (.step s (.tick d) h (hd d (List.mem_cons_self d ds)))
      (fun x hx => hd x (List.mem_cons_of_mem d hx))

theorem scenario_start_reachable : Reachable scenario_start :=
  .step _ (.set_horizontal_bias _)
    (.step _ (.enable_movement true)
      (.step _ (.enable_blinking true 900) (.init zeroed 0 (by decide))
        (by simp [Op.wf, UINT32_MOD])) trivial) trivial

theorem scenario_look_left_reachable : Reachable scenario_look_left :=
  reachable_run_ticks _ _ scenario_start_reachable (by simp [UINT32_MOD])

theorem scenario_set_bias_zero (c : Fin 4) (i e t : Nat) (q : ℚ) (p : Bool) :
    roboteye_animator_set_horizontal_bias (scenario_state c i e t q p) (.fin 0)
      = scenario_state c i e t 0 p := by
  have h1 : CFloat.lt (.fin 1) (.fin 0) = false := by
    simp only [CFloat.lt]; norm_num
  have h2 : CFloat.lt (.fin 0) (.fin (-1)) = false := by
    simp only [CFloat.lt]; norm_num
  simp [roboteye_animator_set_horizontal_bias, scenario_state, h1, h2]

/-- Counterexample to C5 as stated: after the six ticks the scenario is at frame 1
of LookLeft, not back at frame 0. -/
theorem C5_counterexample :
    scenario_look_left.current = some LOOK_LEFT ∧ scenario_look_left.frame_index = 1
      ∧ scenario_look_left.frame_index ≠ 0 := by
  rw [scenario_look_left_eq]
  exact ⟨rfl, rfl, by decide⟩

/-- C5, amended: after `init(IDLE)`, `enable_blinking(true, 900)`,
`enable_movement(true)`, `set_horizontal_bias(-0.8)` the first tick of 40 ms switches
to LookLeft (which becomes the baseline too) and consumes `pending_start` without
advancing time; the five ticks after it accrue 200 ms, so the frame advances once
under the 120 ms duration: after the six ticks LookLeft is on display, it is the
baseline, no blink has fired (the countdown stands at 240 of 900 ms and no override
ran after any of the ticks), `frame_index` is 1 and `frame_elapsed` is 80. -/
theorem C5_scenario_look_left :
    roboteye_animator_tick scenario_start 40
        = { animator := scenario_state LOOK_LEFT 0 0 40 (-F32_0_8) false
            frame := some (LOOK_LEFT, 0) }
      ∧ run_ticks scenario_start [40, 40] = scenario_state LOOK_LEFT 0 40 80 (-F32_0_8) false
      ∧ run_ticks scenario_start [40, 40, 40]
          = scenario_state LOOK_LEFT 0 80 120 (-F32_0_8) false
      ∧ run_ticks scenario_start [40, 40, 40, 40]
          = scenario_state LOOK_LEFT 1 0 160 (-F32_0_8) false
      ∧ run_ticks scenario_start [40, 40, 40, 40, 40]
          = scenario_state LOOK_LEFT 1 40 200 (-F32_0_8) false
      ∧ scenario_look_left = scenario_state LOOK_LEFT 1 80 240 (-F32_0_8) false
      ∧ scenario_look_left.current = some LOOK_LEFT
      ∧ scenario_look_left.baseline = some LOOK_LEFT
      ∧ scenario_look_left.override_active = false
      ∧ scenario_look_left.blink_in_progress = false
      ∧ scenario_look_left.blink_timer_ms = 240
      ∧ scenario_look_left.frame_index = 1
      ∧ scenario_look_left.frame_elapsed_ms = 80 := by
  have h1 : roboteye_animator_tick scenario_start 40
      = { animator := scenario_state LOOK_LEFT 0 0 40 (-F32_0_8) false
          frame := some (LOOK_LEFT, 0) } := by
    rw [scenario_start_eq]
    exact scenario_tick_switch IDLE LOOK_LEFT _ _ _ _ _ (scenario_choose_left _ _ _ _ _)
      (by decide) (by decide)
  have hstep : ∀ i e t, i < 2 → t + 40 < 900 → e + 40 < UINT32_MOD →
      roboteye_animator_tick (scenario_state LOOK_LEFT i e t (-F32_0_8) false) 40
        = { animator := scenario_state LOOK_LEFT ((i + (e + 40) / 120) % 2) ((e + 40) % 120)
              (t + 40) (-F32_0_8) false
            frame := some (LOOK_LEFT, (i + (e + 40) / 120) % 2) } :=
    fun i e t hi ht he =>
      scenario_tick_advance LOOK_LEFT i e t _ (scenario_choose_left _ _ _ _ _) rfl hi ht he
  have hu : (40 : Nat) < UINT32_MOD := by decide
  have h2 : run_ticks scenario_start [40, 40]
      = scenario_state LOOK_LEFT 0 40 80 (-F32_0_8) false := by
    simp only [run_ticks]
    rw [h1, hstep 0 0 40 (by decide) (by decide) (by decide)]
  have h3 : run_ticks scenario_start [40, 40, 40]
      = scenario_state LOOK_LEFT 0 80 120 (-F32_0_8) false := by
    simp only [run_ticks]
    rw [h1, hstep 0 0 40 (by decide) (by decide) (by decide)]
    exact congrArg TickResult.animator (hstep 0 40 80 (by decide) (by decide) (by decide))
  have h4 : run_ticks scenario_start [40, 40, 40, 40]
      = scenario_state LOOK_LEFT 1 0 160 (-F32_0_8) false := by
    have := h3
    simp only [run_ticks] at this ⊢
    rw [this]
    exact congrArg TickResult.animator (hstep 0 80 120 (by decide) (by decide) (by decide))
  have h5 : run_ticks scenario_start [40, 40, 40, 40, 40]
      = scenario_state LOOK_LEFT 1 40 200 (-F32_0_8) false := by
    have := h4
    simp only [run_ticks] at this ⊢
    rw [this]
    exact congrArg TickResult.animator (hstep 1 0 160 (by decide) (by decide) (by decide))
  refine ⟨h1, h2, h3, h4, h5, scenario_look_left_eq, ?_⟩
  rw [scenario_look_left_eq]
  exact ⟨rfl, rfl, rfl, rfl, rfl, rfl, rfl⟩

theorem scenario_idle_eq : scenario_idle = scenario_state IDLE 0 120 400 0 false := by
  unfold scenario_idle
  rw [scenario_look_left_eq, scenario_set_bias_zero]
  simp only [run_ticks]
  rw [scenario_tick_switch LOOK_LEFT IDLE _ _ _ _ _ (scenario_choose_idle _ _ _ _ _)
    (by decide) (by decide)]
  rw [scenario_tick_advance IDLE _ _ _ _ (scenario_choose_idle _ _ _ _ _) (by decide)
    (by decide) (by decide) (by decide)]
  rw [scenario_tick_advance IDLE _ _ _ _ (scenario_choose_idle _ _ _ _ _) (by decide)
    (by decide) (by decide) (by decide)]
  rw [scenario_tick_advance IDLE _ _ _ _ (scenario_choose_idle _ _ _ _ _) (by decide)
    (by decide) (by decide) (by decide)]
  rfl

/-- C6: real-time baseline switch. In every reachable state with no override active
whose desired baseline (from `movement_enabled` and `horizontal_bias`) differs from
the stored one, a tick of any `delta_ms` in which the autonomous blink does not
fire leaves `baseline` and `current` equal to the desired baseline with
`frame_index` 0 and `frame_elapsed` 0, and returns frame 0 of that animation. In
the scenario, after the LookLeft phase, `set_horizontal_bias(0.0)` and four ticks
of 40 ms switch to Idle on the first tick and end at `frame_index` 0 with
`frame_elapsed` 120. -/
theorem C6_real_time_baseline_switch :
    (∀ s : RobotEyeAnimator, Reachable s → s.override_active = false →
      roboteye_choose_baseline s ≠ s.baseline →
      ∀ delta_ms : Nat, autonomous_blink_fires s delta_ms = false →
        (roboteye_animator_tick s delta_ms).animator.baseline = roboteye_choose_baseline s
          ∧ (roboteye_animator_tick s delta_ms).animator.current = roboteye_choose_baseline s
          ∧ (roboteye_animator_tick s delta_ms).animator.frame_index = 0
          ∧ (roboteye_animator_tick s delta_ms).animator.frame_elapsed_ms = 0
          ∧ (roboteye_animator_tick s delta_ms).frame
              = (roboteye_choose_baseline s).map (fun c => (c, 0))
          ∧ (roboteye_animator_tick s delta_ms).frame ≠ none)
      ∧ (roboteye_animator_tick
            (roboteye_animator_set_horizontal_bias scenario_look_left (.fin 0)) 40
          = { animator := scenario_state IDLE 0 0 280 0 false, frame := some (IDLE, 0) })
      ∧ scenario_idle.current = some IDLE
      ∧ scenario_idle.baseline = some IDLE
      ∧ scenario_idle.frame_index = 0
      ∧ scenario_idle.frame_elapsed_ms = 120 := by
  refine ⟨?_, ?_, ?_⟩
  · intro s hr ho hne delta_ms hf
    have hinv := reachable_inv s hr
    have hsw : baseline_switches s := ⟨ho, hinv.home ho, hne⟩
    obtain ⟨b, hb, -⟩ := choose_baseline_loops s
    rw [tick_switch s delta_ms hsw hf]
    refine ⟨rfl, rfl, rfl, rfl, rfl, ?_⟩
    simp [hb]
  · rw [scenario_look_left_eq, scenario_set_bias_zero]
    exact scenario_tick_switch LOOK_LEFT IDLE _ _ _ _ _ (scenario_choose_idle _ _ _ _ _)
      (by decide) (by decide)
  · rw [scenario_idle_eq]
    exact ⟨rfl, rfl, rfl, rfl⟩

/-- Witness of C6: the scenario right after `set_horizontal_bias(0.0)`, ticked by 40 ms. -/
theorem C6_witness :
    Reachable (roboteye_animator_set_horizontal_bias scenario_look_left (.fin 0))
      ∧ (roboteye_animator_set_horizontal_bias scenario_look_left (.fin 0)).override_active
          = false
      ∧ roboteye_choose_baseline (roboteye_animator_set_horizontal_bias scenario_look_left (.fin 0))
          ≠ (roboteye_animator_set_horizontal_bias scenario_look_left (.fin 0)).baseline
      ∧ autonomous_blink_fires
          (roboteye_animator_set_horizontal_bias scenario_look_left (.fin 0)) 40 = false
      ∧ (roboteye_animator_tick
          (roboteye_animator_set_horizontal_bias scenario_look_left (.fin 0)) 40).animator.current
          = roboteye_choose_baseline
              (roboteye_animator_set_horizontal_bias scenario_look_left (.fin 0))
      ∧ (roboteye_animator_tick
          (roboteye_animator_set_horizontal_bias scenario_look_left (.fin 0)) 40).animator.frame_index
          = 0 :=
  have hr : Reachable (roboteye_animator_set_horizontal_bias scenario_look_left (.fin 0)) :=
    .step _ (.set_horizontal_bias (.fin 0)) scenario_look_left_reachable trivial
  have ho : (roboteye_animator_set_horizontal_bias scenario_look_left (.fin 0)).override_active
      = false := by
    rw [scenario_look_left_eq, scenario_set_bias_zero]; rfl
  have hne : roboteye_choose_baseline
      (roboteye_animator_set_horizontal_bias scenario_look_left (.fin 0))
      ≠ (roboteye_animator_set_horizontal_bias scenario_look_left (.fin 0)).baseline := by
    rw [scenario_look_left_eq, scenario_set_bias_zero, scenario_choose_idle]
    simp [scenario_state, IDLE, LOOK_LEFT]
  have hf : autonomous_blink_fires
      (roboteye_animator_set_horizontal_bias scenario_look_left (.fin 0)) 40 = false := by
    rw [scenario_look_left_eq, scenario_set_bias_zero]
    decide
  ⟨hr, ho, hne, hf, (C6_real_time_baseline_switch.1 _ hr ho hne 40 hf).2.1,
    (C6_real_time_baseline_switch.1 _ hr ho hne 40 hf).2.2.1⟩

/-! ## A Blink override in flight -/

theorem blink_state_choose (i e : Nat) :
    roboteye_choose_baseline (blink_state i e) = some IDLE :=
  choose_disabled _ rfl

/-- A tick inside the Blink of `blink_state` that does not reach its end. -/
theorem blink_state_tick (i e delta_ms : Nat)
    (hd : 45 * i + (e + delta_ms) % UINT32_MOD < 225) :
    (roboteye_animator_tick (blink_state i e) delta_ms).animator
      = blink_state (i + (e + delta_ms) % UINT32_MOD / 45) ((e + delta_ms) % UINT32_MOD % 45) := by
  rw [tick_blink_stay (blink_state i e) delta_ms rfl (not_switches_of_override _ rfl) rfl
    (fires_false_of_override _ _ rfl) hd, blink_state_choose]
  rfl

theorem blink_start_eq :
    (roboteye_animator_tick
      (roboteye_animator_trigger (roboteye_animator_init zeroed ROBOTEYE_ANIMATION_IDLE)
        ROBOTEYE_ANIMATION_BLINK) 0).animator = blink_state 0 0 := by
  rw [trigger_blink]
  rw [tick_pending _ 0 BLINK rfl (not_switches_of_override _ rfl) rfl
    (fires_false_of_override _ _ rfl)]
  rfl

theorem blink_at_44_eq : blink_at_44 = blink_state 0 44 := by
  unfold blink_at_44
  simp only [run_ticks]
  rw [blink_start_eq, blink_state_tick 0 0 44 (by decide)]
  rfl

theorem blink_at_44_reachable : Reachable blink_at_44 :=
  reachable_run_ticks _ _
    (.step _ (.trigger ROBOTEYE_ANIMATION_BLINK) (.init zeroed 0 (by decide)) trivial)
    (by simp [UINT32_MOD])

/-- Counterexample to C7 as stated: a Blink override at frame 0 with 44 ms elapsed
and `delta_ms = 2 ^ 32 - 44`. Then `i * d + e + delta_ms = 2 ^ 32` is far beyond
`n * d = 225`, but the 32-bit sum `e + delta_ms` wraps to 0 and the tick leaves
Blink on display with `override_active` still set. -/
theorem C7_counterexample :
    Reachable blink_at_44
      ∧ blink_at_44.override_active = true ∧ blink_at_44.pending_start = false
      ∧ blink_at_44.current = some BLINK ∧ (ROBOTEYE_ANIMATIONS BLINK).loop = false
      ∧ (4294967252 : Nat) < UINT32_MOD
      ∧ (ROBOTEYE_ANIMATIONS BLINK).frame_count * (ROBOTEYE_ANIMATIONS BLINK).frame_duration_ms
          ≤ blink_at_44.frame_index * (ROBOTEYE_ANIMATIONS BLINK).frame_duration_ms
            + blink_at_44.frame_elapsed_ms + 4294967252
      ∧ (roboteye_animator_tick blink_at_44 4294967252).animator.override_active = true
      ∧ (roboteye_animator_tick blink_at_44 4294967252).animator.current = some BLINK := by
  refine ⟨blink_at_44_reachable, ?_⟩
  rw [blink_at_44_eq, blink_state_tick 0 44 4294967252 (by decide)]
  exact ⟨rfl, rfl, rfl, rfl, by decide, by decide, rfl, rfl⟩

/-- C7, amended: an in-flight override is never preempted by a baseline change. In
every reachable state with `override_active` set and `pending_start` clear, playing
a non-looping animation with `n` frames of `d` ms at frame `i` with `e` ms elapsed,
whatever the movement and bias settings: a tick with `i * d + e + delta_ms < n * d`
leaves `current` and `override_active` as they were (the stored baseline becomes the
desired one); a tick with `i * d + e + delta_ms ≥ n * d` and `e + delta_ms < 2 ^ 32`
clears `override_active` and makes `current` the baseline desired by
`movement_enabled` and `horizontal_bias` at that tick. -/
theorem C7_override_not_preempted (s : RobotEyeAnimator) (hr : Reachable s)
    (ho : s.override_active = true) (hp : s.pending_start = false)
    (c : Fin 4) (hc : s.current = some c) (hl : (ROBOTEYE_ANIMATIONS c).loop = false)
    (delta_ms : Nat) :
    (s.frame_index * (ROBOTEYE_ANIMATIONS c).frame_duration_ms + s.frame_elapsed_ms + delta_ms
        < (ROBOTEYE_ANIMATIONS c).frame_count * (ROBOTEYE_ANIMATIONS c).frame_duration_ms →
      (roboteye_animator_tick s delta_ms).animator.current = s.current
        ∧ (roboteye_animator_tick s delta_ms).animator.override_active = true
        ∧ (roboteye_animator_tick s delta_ms).animator.baseline = roboteye_choose_baseline s)
      ∧ ((ROBOTEYE_ANIMATIONS c).frame_count * (ROBOTEYE_ANIMATIONS c).frame_duration_ms
          ≤ s.frame_index * (ROBOTEYE_ANIMATIONS c).frame_duration_ms + s.frame_elapsed_ms
            + delta_ms →
        s.frame_elapsed_ms + delta_ms < UINT32_MOD →
        (roboteye_animator_tick s delta_ms).animator.override_active = false
          ∧ (roboteye_animator_tick s delta_ms).animator.current = roboteye_choose_baseline s
          ∧ (roboteye_animator_tick s delta_ms).animator.baseline
              = roboteye_choose_baseline s) := by
  have hcb : c = BLINK := (loop_false_iff c).1 hl
  subst hcb
  have hinv := reachable_inv s hr
  obtain ⟨c', hc', hi⟩ := hinv.cur
  have hcc : c' = BLINK := by
    rw [hc] at hc'
    exact (Option.some.inj hc').symm
  subst hcc
  simp only [blink_cnt, blink_dur] at hi ⊢
  have hsw := not_switches_of_override s ho
  have hf := fires_false_of_override s delta_ms ho
  obtain ⟨b, hb, -⟩ := choose_baseline_loops s
  constructor
  · intro hlt
    have hm : (s.frame_elapsed_ms + delta_ms) % UINT32_MOD = s.frame_elapsed_ms + delta_ms :=
      Nat.mod_eq_of_lt (by unfold UINT32_MOD; omega)
    rw [tick_blink_stay s delta_ms hc hsw hp hf (by rw [hm]; omega)]
    exact ⟨rfl, ho, rfl⟩
  · intro hge hm'
    have hm : (s.frame_elapsed_ms + delta_ms) % UINT32_MOD = s.frame_elapsed_ms + delta_ms :=
      Nat.mod_eq_of_lt hm'
    rw [tick_blink_done s delta_ms b hc hi hsw hp hf hb (by rw [hm]; omega)]
    exact ⟨rfl, hb.symm, hb.symm⟩

/-- Witness of C7: the Blink override at frame 0 with 44 ms elapsed, ticked by 10 ms
(the override goes on) and by 181 ms (the override completes into Idle). -/
theorem C7_witness :
    Reachable blink_at_44 ∧ blink_at_44.override_active = true
      ∧ blink_at_44.pending_start = false ∧ blink_at_44.current = some BLINK
      ∧ (ROBOTEYE_ANIMATIONS BLINK).loop = false
      ∧ blink_at_44.frame_index * (ROBOTEYE_ANIMATIONS BLINK).frame_duration_ms
          + blink_at_44.frame_elapsed_ms + 10
        < (ROBOTEYE_ANIMATIONS BLINK).frame_count * (ROBOTEYE_ANIMATIONS BLINK).frame_duration_ms
      ∧ (ROBOTEYE_ANIMATIONS BLINK).frame_count * (ROBOTEYE_ANIMATIONS BLINK).frame_duration_ms
          ≤ blink_at_44.frame_index * (ROBOTEYE_ANIMATIONS BLINK).frame_duration_ms
            + blink_at_44.frame_elapsed_ms + 181
      ∧ blink_at_44.frame_elapsed_ms + 181 < UINT32_MOD
      ∧ (roboteye_animator_tick blink_at_44 10).animator.override_active = true
      ∧ (roboteye_animator_tick blink_at_44 181).animator.override_active = false
      ∧ (roboteye_animator_tick blink_at_44 181).animator.current
          = roboteye_choose_baseline blink_at_44 :=
  have h1 : blink_at_44.override_active = true := by rw [blink_at_44_eq]; rfl
  have h2 : blink_at_44.pending_start = false := by rw [blink_at_44_eq]; rfl
  have h3 : blink_at_44.current = some BLINK := by rw [blink_at_44_eq]; rfl
  have h4 : blink_at_44.frame_index * (ROBOTEYE_ANIMATIONS BLINK).frame_duration_ms
        + blink_at_44.frame_elapsed_ms + 10
      < (ROBOTEYE_ANIMATIONS BLINK).frame_count * (ROBOTEYE_ANIMATIONS BLINK).frame_duration_ms := by
    rw [blink_at_44_eq]; decide
  have h5 : (ROBOTEYE_ANIMATIONS BLINK).frame_count * (ROBOTEYE_ANIMATIONS BLINK).frame_duration_ms
      ≤ blink_at_44.frame_index * (ROBOTEYE_ANIMATIONS BLINK).frame_duration_ms
        + blink_at_44.frame_elapsed_ms + 181 := by
    rw [blink_at_44_eq]; decide
  have h6 : blink_at_44.frame_elapsed_ms + 181 < UINT32_MOD := by
    rw [blink_at_44_eq]; decide
  ⟨blink_at_44_reachable, h1, h2, h3, rfl, h4, h5, h6,
    ((C7_override_not_preempted blink_at_44 blink_at_44_reachable h1 h2 BLINK h3 rfl 10).1
      h4).2.1,
    ((C7_override_not_preempted blink_at_44 blink_at_44_reachable h1 h2 BLINK h3 rfl 181).2
      h5 h6).1,
    ((C7_override_not_preempted blink_at_44 blink_at_44_reachable h1 h2 BLINK h3 rfl 181).2
      h5 h6).2.1⟩

/-- A tick of a reachable-like state with no override and blinking disabled keeps both
and leaves the baseline on display. -/
theorem tick_home (s : RobotEyeAnimator) (hinv : Inv s) (ho : s.override_active = false)
    (hbl : s.blinking_enabled = false) (delta_ms : Nat) :
    (roboteye_animator_tick s delta_ms).animator.override_active = false
      ∧ (roboteye_animator_tick s delta_ms).animator.blinking_enabled = false
      ∧ (roboteye_animator_tick s delta_ms).animator.current
          = (roboteye_animator_tick s delta_ms).animator.baseline := by
  have hf := fires_false_of_disabled s delta_ms hbl
  obtain ⟨c, hc, hi⟩ := hinv.cur
  have hcb := hinv.home ho
  by_cases hsw : baseline_switches s
  · rw [tick_switch s delta_ms hsw hf]
    exact ⟨ho, hbl, rfl⟩
  · have hch : roboteye_choose_baseline s = s.baseline := by
      by_contra hne
      exact hsw ⟨ho, hcb, hne⟩
    by_cases hp : s.pending_start = true
    · rw [tick_pending s delta_ms c hc hsw hp hf]
      exact ⟨ho, hbl, by simp only [hch, hcb]⟩
    · obtain ⟨b, hb, hbl'⟩ := choose_baseline_loops s
      have hbc : b = c := by
        rw [hch, ← hcb, hc] at hb
        exact (Option.some.inj hb).symm
      subst hbc
      rw [tick_looping s delta_ms b hc hbl' hi hsw (by simpa using hp) hf]
      exact ⟨ho, hbl, by simp only [hch, hcb]⟩

theorem run_home (ds : List Nat) :
    ∀ s : RobotEyeAnimator, Inv s → s.override_active = false → s.blinking_enabled = false →
      (run_ticks s ds).override_active = false
        ∧ (run_ticks s ds).current = (run_ticks s ds).baseline := by
  induction ds with
  | nil => intro s hinv ho _; exact ⟨ho, hinv.home ho⟩
  | cons d ds ih =>
    intro s hinv ho hbl
    obtain ⟨h1, h2, -⟩ := tick_home s hinv ho hbl d
    exact ih _ (inv_tick s hinv d).1 h1 h2

/-- Ticks that stay inside a Blink override while blinking is disabled. -/
theorem run_blink_stay (ds : List Nat) :
    ∀ s : RobotEyeAnimator, s.current = some BLINK → s.override_active = true →
      s.pending_start = false →
      45 * s.frame_index + s.frame_elapsed_ms + ds.sum < 225 →
      (run_ticks s ds).current = some BLINK ∧ (run_ticks s ds).override_active = true := by
  induction ds with
  | nil => intro s hc ho _ _; exact ⟨hc, ho⟩
  | cons d ds ih =>
    intro s hc ho hp hsum
    simp only [List.sum_cons] at hsum
    have hm : (s.frame_elapsed_ms + d) % UINT32_MOD = s.frame_elapsed_ms + d :=
      Nat.mod_eq_of_lt (by unfold UINT32_MOD; omega)
    simp only [run_ticks]
    rw [tick_blink_stay s d hc (not_switches_of_override s ho) hp
      (fires_false_of_override s d ho) (by rw [hm]; omega)]
    refine ih _ hc ho hp ?_
    show 45 * (s.frame_index + (s.frame_elapsed_ms + d) % UINT32_MOD / 45)
      + (s.frame_elapsed_ms + d) % UINT32_MOD % 45 + ds.sum < 225
    rw [hm]; omega

/-- Ticks that bring a Blink override exactly to its end while blinking is disabled. -/
theorem run_blink_exact (ds : List Nat) :
    ∀ s : RobotEyeAnimator, Inv s → s.current = some BLINK → s.override_active = true →
      s.pending_start = false → s.blinking_enabled = false →
      45 * s.frame_index + s.frame_elapsed_ms + ds.sum = 225 →
      (run_ticks s ds).current = (run_ticks s ds).baseline
        ∧ (run_ticks s ds).override_active = false := by
  induction ds with
  | nil =>
    intro s hinv hc _ _ _ hsum
    exfalso
    obtain ⟨c, hc', hi⟩ := hinv.cur
    have he := hinv.elapsed c hc'
    have hcc : c = BLINK := by
      rw [hc] at hc'
      exact (Option.some.inj hc').symm
    subst hcc
    simp only [blink_cnt, blink_dur, List.sum_nil] at hi he hsum
    omega
  | cons d ds ih =>
    intro s hinv hc ho hp hbl hsum
    simp only [List.sum_cons] at hsum
    obtain ⟨c, hc', hi⟩ := hinv.cur
    have hcc : c = BLINK := by
      rw [hc] at hc'
      exact (Option.some.inj hc').symm
    subst hcc
    simp only [blink_cnt] at hi
    have hm : (s.frame_elapsed_ms + d) % UINT32_MOD = s.frame_elapsed_ms + d :=
      Nat.mod_eq_of_lt (by unfold UINT32_MOD; omega)
    have hinv1 := (inv_tick s hinv d).1
    simp only [run_ticks]
    by_cases hlt : 45 * s.frame_index + s.frame_elapsed_ms + d < 225
    · have ht := tick_blink_stay s d hc (not_switches_of_override s ho) hp
        (fires_false_of_override s d ho) (by rw [hm]; omega)
      rw [ht] at hinv1 ⊢
      refine ih _ hinv1 hc ho hp hbl ?_
      show 45 * (s.frame_index + (s.frame_elapsed_ms + d) % UINT32_MOD / 45)
        + (s.frame_elapsed_ms + d) % UINT32_MOD % 45 + ds.sum = 225
      rw [hm]; omega
    · obtain ⟨b, hb, -⟩ := choose_baseline_loops s
      have ht := tick_blink_done s d b hc hi (not_switches_of_override s ho) hp
        (fires_false_of_override s d ho) hb (by rw [hm]; omega)
      rw [ht] at hinv1 ⊢
      obtain ⟨h1, h2⟩ := run_home ds _ hinv1 rfl hbl
      exact ⟨h2, h1⟩

/-- C8: disabling blinking mid-blink does not shorten the blink. In every reachable
state with a Blink override in progress (`current` is Blink, `override_active` set,
`pending_start` clear, frame `i`, `e` ms elapsed), `enable_blinking(false, x)`
changes only `blinking_enabled`, `blink_timer_ms` and `blink_in_progress`;
afterwards ticks whose `delta_ms` sum to less than `225 - (45 * i + e)` leave Blink
on display with `override_active` set, and ticks that sum to exactly that remainder
leave `current` equal to `baseline` and `override_active` clear. -/
theorem C8_disabling_blinking_keeps_blink (s : RobotEyeAnimator) (hr : Reachable s)
    (hc : s.current = some BLINK) (ho : s.override_active = true)
    (hp : s.pending_start = false) (x : Nat) :
    roboteye_animator_enable_blinking s false x
        = { s with blinking_enabled := false, blink_timer_ms := 0, blink_in_progress := false }
      ∧ (∀ ds : List Nat, ds.sum < 225 - (45 * s.frame_index + s.frame_elapsed_ms) →
        (run_ticks (roboteye_animator_enable_blinking s false x) ds).current = some BLINK
          ∧ (run_ticks (roboteye_animator_enable_blinking s false x) ds).override_active = true)
      ∧ (∀ ds : List Nat, ds.sum = 225 - (45 * s.frame_index + s.frame_elapsed_ms) →
        (run_ticks (roboteye_animator_enable_blinking s false x) ds).current
            = (run_ticks (roboteye_animator_enable_blinking s false x) ds).baseline
          ∧ (run_ticks (roboteye_animator_enable_blinking s false x) ds).override_active
            = false) := by
  have hinv := reachable_inv s hr
  have hinv' := inv_enable_blinking s hinv false x
  obtain ⟨c, hc', hi⟩ := hinv.cur
  have he := hinv.elapsed c hc'
  have hcc : c = BLINK := by
    rw [hc] at hc'
    exact (Option.some.inj hc').symm
  subst hcc
  simp only [blink_cnt, blink_dur] at hi he
  have heq : roboteye_animator_enable_blinking s false x
      = { s with blinking_enabled := false, blink_timer_ms := 0, blink_in_progress := false } :=
    rfl
  rw [heq] at hinv' ⊢
  refine ⟨rfl, ?_, ?_⟩
  · intro ds hsum
    exact run_blink_stay ds _ hc ho hp (by
      show 45 * s.frame_index + s.frame_elapsed_ms + ds.sum < 225
      omega)
  · intro ds hsum
    exact run_blink_exact ds _ hinv' hc ho hp rfl (by
      show 45 * s.frame_index + s.frame_elapsed_ms + ds.sum = 225
      omega)

/-- Witness of C8: the Blink override at frame 0 with 44 ms elapsed; after
`enable_blinking(false, 0)` ticks of 10 and 20 ms stay in the blink, ticks of 100
and 81 ms (181 ms, the remainder) end it. -/
theorem C8_witness :
    Reachable blink_at_44 ∧ blink_at_44.current = some BLINK
      ∧ blink_at_44.override_active = true ∧ blink_at_44.pending_start = false
      ∧ [10, 20].sum < 225 - (45 * blink_at_44.frame_index + blink_at_44.frame_elapsed_ms)
      ∧ [100, 81].sum = 225 - (45 * blink_at_44.frame_index + blink_at_44.frame_elapsed_ms)
      ∧ (run_ticks (roboteye_animator_enable_blinking blink_at_44 false 0) [10, 20]).current
          = some BLINK
      ∧ (run_ticks (roboteye_animator_enable_blinking blink_at_44 false 0) [100, 81]).current
          = (run_ticks (roboteye_animator_enable_blinking blink_at_44 false 0) [100, 81]).baseline
      ∧ (run_ticks (roboteye_animator_enable_blinking blink_at_44 false 0)
          [100, 81]).override_active = false :=
  have h1 : blink_at_44.current = some BLINK := by rw [blink_at_44_eq]; rfl
  have h2 : blink_at_44.override_active = true := by rw [blink_at_44_eq]; rfl
  have h3 : blink_at_44.pending_start = false := by rw [blink_at_44_eq]; rfl
  have h4 : [10, 20].sum
      < 225 - (45 * blink_at_44.frame_index + blink_at_44.frame_elapsed_ms) := by
    rw [blink_at_44_eq]; decide
  have h5 : [100, 81].sum
      = 225 - (45 * blink_at_44.frame_index + blink_at_44.frame_elapsed_ms) := by
    rw [blink_at_44_eq]; decide
  ⟨blink_at_44_reachable, h1, h2, h3, h4, h5,
    ((C8_disabling_blinking_keeps_blink blink_at_44 blink_at_44_reachable h1 h2 h3 0).2.1
      [10, 20] h4).1,
    ((C8_disabling_blinking_keeps_blink blink_at_44 blink_at_44_reachable h1 h2 h3 0).2.2
      [100, 81] h5).1,
    ((C8_disabling_blinking_keeps_blink blink_at_44 blink_at_44_reachable h1 h2 h3 0).2.2
      [100, 81] h5).2⟩

theorem scenario_bias_zero_eq :
    scenario_bias_zero = scenario_state LOOK_LEFT 1 80 240 0 false := by
  unfold scenario_bias_zero
  rw [scenario_look_left_eq, scenario_set_bias_zero]

theorem scenario_bias_zero_reachable : Reachable scenario_bias_zero :=
  .step _ (.set_horizontal_bias (.fin 0)) scenario_look_left_reachable trivial

/-- Counterexample to C9 as stated: in the scenario right after
`set_horizontal_bias(0.0)` (LookLeft stored as the baseline, countdown 240 of 900 ms)
a tick of 660 ms fires the autonomous blink, and the stored baseline is not left
unchanged: it becomes Idle. -/
theorem C9_counterexample :
    Reachable scenario_bias_zero
      ∧ scenario_bias_zero.blinking_enabled = true ∧ scenario_bias_zero.pending_start = false
      ∧ scenario_bias_zero.override_active = false
      ∧ scenario_bias_zero.blink_in_progress = false
      ∧ scenario_bias_zero.blink_timer_ms + 660 < UINT32_MOD
      ∧ scenario_bias_zero.blink_interval_ms ≤ scenario_bias_zero.blink_timer_ms + 660
      ∧ (roboteye_animator_tick scenario_bias_zero 660).animator.current = some BLINK
      ∧ scenario_bias_zero.baseline = some LOOK_LEFT
      ∧ (roboteye_animator_tick scenario_bias_zero 660).animator.baseline = some IDLE
      ∧ (roboteye_animator_tick scenario_bias_zero 660).animator.baseline
          ≠ scenario_bias_zero.baseline := by
  refine ⟨scenario_bias_zero_reachable, ?_⟩
  rw [scenario_bias_zero_eq]
  have hf : autonomous_blink_fires (scenario_state LOOK_LEFT 1 80 240 0 false) 660 = true := by
    decide
  rw [tick_fire _ 660 LOOK_LEFT rfl hf, scenario_choose_idle]
  exact ⟨rfl, rfl, rfl, rfl, by decide, by decide, rfl, rfl, rfl, by decide⟩

/-- The blink test and the countdown, spelled out for the states C9 is about. -/
theorem fires_iff (s : RobotEyeAnimator) (hi : 0 < s.blink_interval_ms)
    (hbe : s.blinking_enabled = true) (ho : s.override_active = false)
    (hbip : s.blink_in_progress = false) (delta_ms : Nat)
    (hd : s.blink_timer_ms + delta_ms < UINT32_MOD) :
    (autonomous_blink_fires s delta_ms = true ↔ s.blink_interval_ms ≤ s.blink_timer_ms + delta_ms)
      ∧ blink_timer_after s delta_ms = s.blink_timer_ms + delta_ms := by
  unfold autonomous_blink_fires blink_timer_after
  rw [Nat.mod_eq_of_lt hd]
  simp [hbe, ho, hbip, hi]

/-- C9, amended: autonomous blink arbitration. In every reachable state with blinking
enabled, `pending_start` clear, no override active and no blink in progress, and for
every `delta_ms` with `blink_timer_ms + delta_ms < 2 ^ 32`, the tick triggers Blink
if and only if `blink_timer_ms + delta_ms ≥ blink_interval_ms`. When it triggers, the
tick ends with Blink on display at frame 0 with no time elapsed, `override_active` and
`blink_in_progress` set, the countdown at 0 and the stored baseline equal to the
desired baseline (so unchanged when it already was the desired one), and it returns
frame 0 of Blink. Otherwise the countdown becomes `blink_timer_ms + delta_ms` and no
override starts; then, when the stored baseline is the desired one, the frames of
`current` advance by `delta_ms` (added to `frame_elapsed` modulo `2 ^ 32` and carried
through the frames), and when it is not, the tick switches to the desired baseline at
frame 0 with no time elapsed. -/
theorem C9_autonomous_blink_arbitration (s : RobotEyeAnimator) (hr : Reachable s)
    (hbe : s.blinking_enabled = true) (hp : s.pending_start = false)
    (ho : s.override_active = false) (hbip : s.blink_in_progress = false)
    (delta_ms : Nat) (hd : s.blink_timer_ms + delta_ms < UINT32_MOD) :
    ((roboteye_animator_tick s delta_ms).animator.blink_in_progress = true
        ↔ s.blink_interval_ms ≤ s.blink_timer_ms + delta_ms)
      ∧ (s.blink_interval_ms ≤ s.blink_timer_ms + delta_ms →
        roboteye_animator_tick s delta_ms =
            { animator :=
                { s with
                  current := some BLINK
                  baseline := roboteye_choose_baseline s
                  frame_index := 0
                  frame_elapsed_ms := 0
                  override_active := true
                  blink_in_progress := true
                  blink_timer_ms := 0 }
              frame := some (BLINK, 0) }
          ∧ (roboteye_choose_baseline s = s.baseline →
            (roboteye_animator_tick s delta_ms).animator.baseline = s.baseline))
      ∧ (s.blink_timer_ms + delta_ms < s.blink_interval_ms →
        (roboteye_animator_tick s delta_ms).animator.blink_timer_ms
            = s.blink_timer_ms + delta_ms
          ∧ (roboteye_animator_tick s delta_ms).animator.override_active = false
          ∧ (roboteye_choose_baseline s = s.baseline →
            ∀ c : Fin 4, s.current = some c →
              roboteye_animator_tick s delta_ms =
                { animator :=
                    { s with
                      blink_timer_ms := s.blink_timer_ms + delta_ms
                      frame_index :=
                        (s.frame_index + (s.frame_elapsed_ms + delta_ms) % UINT32_MOD
                            / (ROBOTEYE_ANIMATIONS c).frame_duration_ms)
                          % (ROBOTEYE_ANIMATIONS c).frame_count
                      frame_elapsed_ms :=
                        (s.frame_elapsed_ms + delta_ms) % UINT32_MOD
                          % (ROBOTEYE_ANIMATIONS c).frame_duration_ms }
                  frame := some (c,
                    (s.frame_index + (s.frame_elapsed_ms + delta_ms) % UINT32_MOD
                        / (ROBOTEYE_ANIMATIONS c).frame_duration_ms)
                      % (ROBOTEYE_ANIMATIONS c).frame_count) })
          ∧ (roboteye_choose_baseline s ≠ s.baseline →
            roboteye_animator_tick s delta_ms =
              { animator :=
                  { s with
                    current := roboteye_choose_baseline s
                    baseline := roboteye_choose_baseline s
                    frame_index := 0
                    frame_elapsed_ms := 0
                    blink_timer_ms := s.blink_timer_ms + delta_ms }
                frame := (roboteye_choose_baseline s).map (fun c => (c, 0)) })) := by
  have hinv := reachable_inv s hr
  obtain ⟨hiff, hta⟩ := fires_iff s hinv.interval_pos hbe ho hbip delta_ms hd
  obtain ⟨c, hc, hi⟩ := hinv.cur
  have hcb := hinv.home ho
  have hfire : s.blink_interval_ms ≤ s.blink_timer_ms + delta_ms →
      roboteye_animator_tick s delta_ms =
        { animator :=
            { s with
              current := some BLINK
              baseline := roboteye_choose_baseline s
              frame_index := 0
              frame_elapsed_ms := 0
              override_active := true
              blink_in_progress := true
              blink_timer_ms := 0 }
          frame := some (BLINK, 0) } := by
    intro hge
    rw [tick_fire s delta_ms c hc (hiff.2 hge), ← hp]
  have hquiet : s.blink_timer_ms + delta_ms < s.blink_interval_ms →
      autonomous_blink_fires s delta_ms = false := by
    intro hlt
    by_contra hne
    have := hiff.1 (by simpa using hne)
    omega
  have hswitch : s.blink_timer_ms + delta_ms < s.blink_interval_ms →
      roboteye_choose_baseline s ≠ s.baseline →
      roboteye_animator_tick s delta_ms =
        { animator :=
            { s with
              current := roboteye_choose_baseline s
              baseline := roboteye_choose_baseline s
              frame_index := 0
              frame_elapsed_ms := 0
              blink_timer_ms := s.blink_timer_ms + delta_ms }
          frame := (roboteye_choose_baseline s).map (fun c => (c, 0)) } := by
    intro hlt hne
    rw [tick_switch s delta_ms ⟨ho, hcb, hne⟩ (hquiet hlt), hta, ← hp]
  have hadv : s.blink_timer_ms + delta_ms < s.blink_interval_ms →
      roboteye_choose_baseline s = s.baseline →
      ∀ c : Fin 4, s.current = some c →
        roboteye_animator_tick s delta_ms =
          { animator :=
              { s with
                blink_timer_ms := s.blink_timer_ms + delta_ms
                frame_index :=
                  (s.frame_index + (s.frame_elapsed_ms + delta_ms) % UINT32_MOD
                      / (ROBOTEYE_ANIMATIONS c).frame_duration_ms)
                    % (ROBOTEYE_ANIMATIONS c).frame_count
                frame_elapsed_ms :=
                  (s.frame_elapsed_ms + delta_ms) % UINT32_MOD
                    % (ROBOTEYE_ANIMATIONS c).frame_duration_ms }
            frame := some (c,
              (s.frame_index + (s.frame_elapsed_ms + delta_ms) % UINT32_MOD
                  / (ROBOTEYE_ANIMATIONS c).frame_duration_ms)
                % (ROBOTEYE_ANIMATIONS c).frame_count) } := by
    intro hlt heq c' hc'
    have hcc : c' = c := by
      rw [hc] at hc'
      exact (Option.some.inj hc').symm
    subst hcc
    obtain ⟨b, hb, hbl⟩ := choose_baseline_loops s
    have hbc : b = c' := by
      rw [heq, ← hcb, hc] at hb
      exact (Option.some.inj hb).symm
    subst hbc
    rw [tick_looping s delta_ms b hc hbl hi (not_switches_of_eq s heq) hp (hquiet hlt), hta, heq]
  refine ⟨?_, fun hge => ⟨hfire hge, fun heq => ?_⟩, fun hlt => ⟨?_, ?_, hadv hlt, hswitch hlt⟩⟩
  · constructor
    · intro hb
      by_contra hlt
      have hlt' : s.blink_timer_ms + delta_ms < s.blink_interval_ms := by omega
      by_cases heq : roboteye_choose_baseline s = s.baseline
      · rw [hadv hlt' heq c hc] at hb
        rw [hbip] at hb
        exact absurd hb (by decide)
      · rw [hswitch hlt' heq] at hb
        rw [hbip] at hb
        exact absurd hb (by decide)
    · intro hge
      rw [hfire hge]
  · rw [hfire hge]
    exact heq
  · by_cases heq : roboteye_choose_baseline s = s.baseline
    · rw [hadv hlt heq c hc]
    · rw [hswitch hlt heq]
  · by_cases heq : roboteye_choose_baseline s = s.baseline
    · rw [hadv hlt heq c hc]
      exact ho
    · rw [hswitch hlt heq]
      exact ho

/-- Witness of C9: the scenario right after `set_horizontal_bias(0.0)`, ticked by
660 ms; the countdown reaches 900 ms and Blink starts at frame 0. -/
theorem C9_witness :
    Reachable scenario_bias_zero
      ∧ scenario_bias_zero.blinking_enabled = true ∧ scenario_bias_zero.pending_start = false
      ∧ scenario_bias_zero.override_active = false
      ∧ scenario_bias_zero.blink_in_progress = false
      ∧ scenario_bias_zero.blink_timer_ms + 660 < UINT32_MOD
      ∧ scenario_bias_zero.blink_interval_ms ≤ scenario_bias_zero.blink_timer_ms + 660
      ∧ (roboteye_animator_tick scenario_bias_zero 660).animator.blink_in_progress = true :=
  have h1 : scenario_bias_zero.blinking_enabled = true := by rw [scenario_bias_zero_eq]; rfl
  have h2 : scenario_bias_zero.pending_start = false := by rw [scenario_bias_zero_eq]; rfl
  have h3 : scenario_bias_zero.override_active = false := by rw [scenario_bias_zero_eq]; rfl
  have h4 : scenario_bias_zero.blink_in_progress = false := by rw [scenario_bias_zero_eq]; rfl
  have h5 : scenario_bias_zero.blink_timer_ms + 660 < UINT32_MOD := by
    rw [scenario_bias_zero_eq]; decide
  have h6 : scenario_bias_zero.blink_interval_ms ≤ scenario_bias_zero.blink_timer_ms + 660 := by
    rw [scenario_bias_zero_eq]; decide
  ⟨scenario_bias_zero_reachable, h1, h2, h3, h4, h5, h6,
    (C9_autonomous_blink_arbitration scenario_bias_zero scenario_bias_zero_reachable h1 h2 h3 h4
      660 h5).1.2 h6⟩

/-! ## The stored baseline after a tick -/

/-- The loop, one pass unfolded. -/
theorem carry_loop_unfold (a : RobotEyeAnimator) (c : Fin 4) (hc : a.current = some c)
    (hge : a.frame_elapsed_ms ≥ (ROBOTEYE_ANIMATIONS c).frame_duration_ms) :
    carry_loop a =
      if (carry_body a c).2 = true then carry_loop (carry_body a c).1
      else ((carry_body a c).1, false) := by
  rw [carry_loop]
  simp only [hc]
  rw [if_pos hge]
  unfold carry_body
  dsimp only
  split_ifs <;> simp_all


theorem reset_keep_elapsed (a : RobotEyeAnimator) :
    roboteye_reset_to_baseline a false
      = { a with current := a.baseline, frame_index := 0, pending_start := true } := rfl

theorem reset_clear_elapsed (a : RobotEyeAnimator) :
    roboteye_reset_to_baseline a true
      = { a with
          current := a.baseline
          frame_index := 0
          frame_elapsed_ms := 0
          pending_start := true } := rfl

theorem carry_body_baseline (a : RobotEyeAnimator) (c : Fin 4) :
    (carry_body a c).1.baseline = a.baseline := by
  unfold carry_body
  simp only [reset_keep_elapsed]
  split_ifs <;> rfl

theorem carry_body_elapsed (a : RobotEyeAnimator) (c : Fin 4) :
    (carry_body a c).1.frame_elapsed_ms
      = a.frame_elapsed_ms - (ROBOTEYE_ANIMATIONS c).frame_duration_ms := by
  unfold carry_body
  simp only [reset_keep_elapsed]
  split_ifs <;> rfl

/-- The carry loop never writes the stored baseline. -/
theorem carry_loop_baseline :
    ∀ (e : Nat) (a : RobotEyeAnimator), a.frame_elapsed_ms = e →
      (carry_loop a).1.baseline = a.baseline := by
  intro e
  induction e using Nat.strong_induction_on with
  | _ e ih =>
    intro a he
    cases hc : a.current with
    | none =>
      rw [carry_loop]
      simp only [hc]
    | some c =>
      have hpos := frame_duration_pos c
      by_cases hge : a.frame_elapsed_ms ≥ (ROBOTEYE_ANIMATIONS c).frame_duration_ms
      · rw [carry_loop_unfold a c hc hge]
        split_ifs
        · rw [ih _ (by rw [carry_body_elapsed, ← he]; omega) _ rfl, carry_body_baseline]
        · exact carry_body_baseline a c
      · rw [carry_loop_exit a c hc (by omega)]

/-- Every tick stores the desired baseline. -/
theorem tick_stores_desired_baseline (s : RobotEyeAnimator) (delta_ms : Nat) :
    (roboteye_animator_tick s delta_ms).animator.baseline = roboteye_choose_baseline s := by
  have h1 : (tick_baseline s).baseline = roboteye_choose_baseline s := by
    rw [tick_baseline_eq]
    split_ifs <;> rfl
  have h2 : ∀ a : RobotEyeAnimator, ∀ st : Bool,
      (tick_blink a delta_ms st).1.baseline = a.baseline := by
    intro a st
    rw [tick_blink_eq]
    split_ifs <;> rfl
  have h3 : ∀ a : RobotEyeAnimator, ∀ st : Bool,
      (tick_advance a delta_ms st).1.baseline = a.baseline := by
    intro a st
    unfold tick_advance
    split_ifs
    · exact carry_loop_baseline _ _ rfl
    · rfl
  have h4 : ∀ a : RobotEyeAnimator, (tick_frames a delta_ms).animator.baseline = a.baseline := by
    intro a
    unfold tick_frames
    dsimp only
    split_ifs
    · rw [h3, h2]
    · rw [h3, h2]
    · rw [h3, h2]
    · rw [h3, h2]
  unfold roboteye_animator_tick
  dsimp only
  split_ifs
  · rw [reset_clear_elapsed]
    exact h1
  · rw [h4, reset_clear_elapsed]
    exact h1
  · rw [h4, h1]

/-- The constants are binary32 numbers (24-bit significands) within half a unit in the
last place of the decimal numbers they stand for. -/
theorem F32_constants_nearest :
    (8388608 ≤ (11744051 : ℕ) ∧ (11744051 : ℕ) < 16777216 ∧ |F32_0_35 - 35 / 100| < 1 / 67108864)
      ∧ (8388608 ≤ (11408507 : ℕ) ∧ (11408507 : ℕ) < 16777216
        ∧ |F32_0_34 - 34 / 100| < 1 / 67108864)
      ∧ (8388608 ≤ (13421773 : ℕ) ∧ (13421773 : ℕ) < 16777216
        ∧ |F32_0_8 - 8 / 10| < 1 / 33554432) := by
  refine ⟨⟨by decide, by decide, ?_⟩, ⟨by decide, by decide, ?_⟩, ⟨by decide, by decide, ?_⟩⟩
  · rw [abs_lt]; constructor <;> norm_num [F32_0_35]
  · rw [abs_lt]; constructor <;> norm_num [F32_0_34]
  · rw [abs_lt]; constructor <;> norm_num [F32_0_8]

/-- The desired baseline after `set_horizontal_bias` with a finite value, movement
enabled. -/
theorem choose_after_set_bias (s : RobotEyeAnimator) (hm : s.movement_enabled = true) (q : ℚ) :
    roboteye_choose_baseline (roboteye_animator_set_horizontal_bias s (.fin q))
      = if q ≤ -F32_0_35 then some LOOK_LEFT
        else if F32_0_35 ≤ q then some LOOK_RIGHT else some IDLE := by
  have hT : (0 : ℚ) < F32_0_35 ∧ F32_0_35 < 1 := by
    constructor <;> norm_num [F32_0_35]
  unfold roboteye_choose_baseline roboteye_animator_set_horizontal_bias
  simp only [hm, Bool.not_true, Bool.false_eq_true, if_false, CFloat.lt, decide_eq_true_eq]
  by_cases h1 : (1 : ℚ) < q
  · simp only [h1, if_true, CFloat.le, decide_eq_true_eq]
    rw [if_neg (by linarith), if_pos (by linarith), if_neg (by linarith), if_pos (by linarith)]
  · by_cases h2 : q < -1
    · simp only [h1, h2, if_true, if_false, CFloat.le, decide_eq_true_eq]
      rw [if_pos (by linarith), if_pos (by linarith)]
    · simp only [h1, h2, if_false, CFloat.le, decide_eq_true_eq]

/-- C10: bias dead-zone. With movement enabled, the baseline stored by the tick that
follows `set_horizontal_bias(b)` is Idle for `b = -0.34` and `b = 0.34` and for every
`b` strictly between the thresholds `-0.35f` and `0.35f`, LookLeft for `b = -0.35` and
every `b ≤ -0.35f` (minus infinity included), LookRight for `b = 0.35` and every
`b ≥ 0.35f` (plus infinity included); with movement disabled it is Idle for every
`b`. The decimal numbers are the `float` values a caller passes for them. -/
theorem C10_bias_dead_zone (s : RobotEyeAnimator) (delta_ms : Nat) :
    (s.movement_enabled = true →
      (roboteye_animator_tick (roboteye_animator_set_horizontal_bias s (.fin (-F32_0_34)))
          delta_ms).animator.baseline = some IDLE
        ∧ (roboteye_animator_tick (roboteye_animator_set_horizontal_bias s (.fin F32_0_34))
          delta_ms).animator.baseline = some IDLE
        ∧ (∀ q : ℚ, -F32_0_35 < q → q < F32_0_35 →
          (roboteye_animator_tick (roboteye_animator_set_horizontal_bias s (.fin q))
            delta_ms).animator.baseline = some IDLE)
        ∧ (roboteye_animator_tick (roboteye_animator_set_horizontal_bias s (.fin (-F32_0_35)))
          delta_ms).animator.baseline = some LOOK_LEFT
        ∧ (∀ q : ℚ, q ≤ -F32_0_35 →
          (roboteye_animator_tick (roboteye_animator_set_horizontal_bias s (.fin q))
            delta_ms).animator.baseline = some LOOK_LEFT)
        ∧ (roboteye_animator_tick (roboteye_animator_set_horizontal_bias s .ninf)
          delta_ms).animator.baseline = some LOOK_LEFT
        ∧ (roboteye_animator_tick (roboteye_animator_set_horizontal_bias s (.fin F32_0_35))
          delta_ms).animator.baseline = some LOOK_RIGHT
        ∧ (∀ q : ℚ, F32_0_35 ≤ q →
          (roboteye_animator_tick (roboteye_animator_set_horizontal_bias s (.fin q))
            delta_ms).animator.baseline = some LOOK_RIGHT)
        ∧ (roboteye_animator_tick (roboteye_animator_set_horizontal_bias s .pinf)
          delta_ms).animator.baseline = some LOOK_RIGHT)
      ∧ (s.movement_enabled = false → ∀ b : CFloat,
        (roboteye_animator_tick (roboteye_animator_set_horizontal_bias s b)
          delta_ms).animator.baseline = some IDLE) := by
  have hT : (0 : ℚ) < F32_0_35 := by norm_num [F32_0_35]
  constructor
  · intro hm
    have hmid : ∀ q : ℚ, -F32_0_35 < q → q < F32_0_35 →
        (roboteye_animator_tick (roboteye_animator_set_horizontal_bias s (.fin q))
          delta_ms).animator.baseline = some IDLE := by
      intro q h1 h2
      rw [tick_stores_desired_baseline, choose_after_set_bias s hm,
        if_neg (by linarith), if_neg (by linarith)]
    have hleft : ∀ q : ℚ, q ≤ -F32_0_35 →
        (roboteye_animator_tick (roboteye_animator_set_horizontal_bias s (.fin q))
          delta_ms).animator.baseline = some LOOK_LEFT := by
      intro q h1
      rw [tick_stores_desired_baseline, choose_after_set_bias s hm, if_pos h1]
    have hright : ∀ q : ℚ, F32_0_35 ≤ q →
        (roboteye_animator_tick (roboteye_animator_set_horizontal_bias s (.fin q))
          delta_ms).animator.baseline = some LOOK_RIGHT := by
      intro q h1
      rw [tick_stores_desired_baseline, choose_after_set_bias s hm,
        if_neg (by linarith), if_pos h1]
    refine ⟨hmid _ ?_ ?_, hmid _ ?_ ?_, hmid, hleft _ le_rfl, hleft, ?_, hright _ le_rfl,
      hright, ?_⟩
    · norm_num [F32_0_35, F32_0_34]
    · norm_num [F32_0_35, F32_0_34]
    · norm_num [F32_0_35, F32_0_34]
    · norm_num [F32_0_35, F32_0_34]
    · rw [tick_stores_desired_baseline]
      refine choose_left _ hm ?_
      simp only [roboteye_animator_set_horizontal_bias, CFloat.lt, Bool.false_eq_true, if_false,
        if_true, CFloat.le, decide_eq_true_eq]
      norm_num [F32_0_35]
    · rw [tick_stores_desired_baseline]
      refine choose_right _ hm ?_ ?_
      · simp only [roboteye_animator_set_horizontal_bias, CFloat.lt, if_true, CFloat.le,
          decide_eq_false_iff_not]
        norm_num [F32_0_35]
      · simp only [roboteye_animator_set_horizontal_bias, CFloat.lt, if_true, CFloat.le,
          decide_eq_true_eq]
        norm_num [F32_0_35]
  · intro hm b
    rw [tick_stores_desired_baseline]
    exact choose_disabled _ hm

/-- Witness of C10: the scenario animator (movement enabled) sent the bias -0.35 and
an animator with movement disabled sent the bias 1. -/
theorem C10_witness :
    scenario_start.movement_enabled = true
      ∧ (roboteye_animator_tick
          (roboteye_animator_set_horizontal_bias scenario_start (.fin (-F32_0_35)))
          40).animator.baseline = some LOOK_LEFT
      ∧ (-F32_0_35 : ℚ) < 0 ∧ (0 : ℚ) < F32_0_35
      ∧ (roboteye_animator_tick (roboteye_animator_set_horizontal_bias scenario_start (.fin 0))
          40).animator.baseline = some IDLE
      ∧ idle_steady.movement_enabled = false
      ∧ (roboteye_animator_tick (roboteye_animator_set_horizontal_bias idle_steady (.fin 1))
          40).animator.baseline = some IDLE :=
  have hm : scenario_start.movement_enabled = true := by rw [scenario_start_eq]; rfl
  have h1 : (-F32_0_35 : ℚ) < 0 := by norm_num [F32_0_35]
  have h2 : (0 : ℚ) < F32_0_35 := by norm_num [F32_0_35]
  have hi : idle_steady.movement_enabled = false := by decide
  ⟨hm, ((C10_bias_dead_zone scenario_start 40).1 hm).2.2.2.1, h1, h2,
    ((C10_bias_dead_zone scenario_start 40).1 hm).2.2.1 0 h1 h2, hi,
    (C10_bias_dead_zone idle_steady 40).2 hi (.fin 1)⟩

/-- C11: trigger postcondition. For every state (an active override included) and every
valid id, `roboteye_animator_trigger(id)` sets `current` to `catalog[id]`, `frame_index`
and `frame_elapsed` to 0, `pending_start` to true, `override_active` to the negation of
`catalog[id].loop` and `blink_in_progress` to `id == BLINK`; if `catalog[id]` loops,
`baseline` becomes `catalog[id]` and `blink_timer_ms` is unchanged, otherwise `baseline`
is unchanged and `blink_timer_ms` is 0; `blinking_enabled`, `blink_interval_ms`,
`movement_enabled` and `horizontal_bias` are unchanged. -/
theorem C11_trigger_postcondition (s : RobotEyeAnimator) (id : Nat)
    (h : id < ROBOTEYE_ANIMATION_COUNT) :
    (roboteye_animator_trigger s id).current = some ⟨id, h⟩
      ∧ (roboteye_animator_trigger s id).frame_index = 0
      ∧ (roboteye_animator_trigger s id).frame_elapsed_ms = 0
      ∧ (roboteye_animator_trigger s id).pending_start = true
      ∧ (roboteye_animator_trigger s id).override_active = !(ROBOTEYE_ANIMATIONS ⟨id, h⟩).loop
      ∧ (roboteye_animator_trigger s id).blink_in_progress
          = decide (id = ROBOTEYE_ANIMATION_BLINK)
      ∧ ((ROBOTEYE_ANIMATIONS ⟨id, h⟩).loop = true →
          (roboteye_animator_trigger s id).baseline = some ⟨id, h⟩
            ∧ (roboteye_animator_trigger s id).blink_timer_ms = s.blink_timer_ms)
      ∧ ((ROBOTEYE_ANIMATIONS ⟨id, h⟩).loop = false →
          (roboteye_animator_trigger s id).baseline = s.baseline
            ∧ (roboteye_animator_trigger s id).blink_timer_ms = 0)
      ∧ (roboteye_animator_trigger s id).blinking_enabled = s.blinking_enabled
      ∧ (roboteye_animator_trigger s id).blink_interval_ms = s.blink_interval_ms
      ∧ (roboteye_animator_trigger s id).movement_enabled = s.movement_enabled
      ∧ (roboteye_animator_trigger s id).horizontal_bias = s.horizontal_bias := by
  have h4 : id < 4 := h
  by_cases hl : (ROBOTEYE_ANIMATIONS ⟨id, h⟩).loop = true
  · have hid : id ≠ ROBOTEYE_ANIMATION_BLINK := by
      rintro rfl
      have hb : (⟨ROBOTEYE_ANIMATION_BLINK, h⟩ : Fin 4) = BLINK := rfl
      rw [hb] at hl
      exact absurd hl (by simp)
    rw [trigger_looping s id h4 hl]
    refine ⟨rfl, rfl, rfl, rfl, by simp [hl], by simp [hid], fun _ => ⟨rfl, rfl⟩, ?_, rfl, rfl,
      rfl, rfl⟩
    intro hf
    rw [hl] at hf
    exact absurd hf (by decide)
  · have hlf : (ROBOTEYE_ANIMATIONS ⟨id, h⟩).loop = false := by simpa using hl
    have hb : (⟨id, h⟩ : Fin 4) = BLINK := (loop_false_iff _).1 hlf
    have hid : id = ROBOTEYE_ANIMATION_BLINK := congrArg Fin.val hb
    subst hid
    rw [trigger_blink]
    exact ⟨rfl, rfl, rfl, rfl, rfl, rfl, fun ht => absurd ht hl, fun _ => ⟨rfl, rfl⟩,
      rfl, rfl, rfl, rfl⟩

/-- Witness of C11: a Blink override in flight is sent `trigger(LOOK_RIGHT)` and
`trigger(BLINK)`. -/
theorem C11_witness :
    (3 : Nat) < ROBOTEYE_ANIMATION_COUNT ∧ (1 : Nat) < ROBOTEYE_ANIMATION_COUNT
      ∧ (roboteye_animator_trigger (blink_state 2 7) 3).current = some LOOK_RIGHT
      ∧ (roboteye_animator_trigger (blink_state 2 7) 3).override_active = false
      ∧ (roboteye_animator_trigger (blink_state 2 7) 3).baseline = some LOOK_RIGHT
      ∧ (roboteye_animator_trigger (blink_state 2 7) 1).baseline = (blink_state 2 7).baseline
      ∧ (roboteye_animator_trigger (blink_state 2 7) 1).blink_timer_ms = 0 :=
  ⟨by decide, by decide,
    (C11_trigger_postcondition (blink_state 2 7) 3 (by decide)).1,
    (C11_trigger_postcondition (blink_state 2 7) 3 (by decide)).2.2.2.2.1,
    ((C11_trigger_postcondition (blink_state 2 7) 3 (by decide)).2.2.2.2.2.2.1 (by decide)).1,
    ((C11_trigger_postcondition (blink_state 2 7) 1 (by decide)).2.2.2.2.2.2.2.1 (by decide)).1,
    ((C11_trigger_postcondition (blink_state 2 7) 1 (by decide)).2.2.2.2.2.2.2.1 (by decide)).2⟩

/-- C13: ids out of range are rejected without effect. `roboteye_animation_get(id)` is
not-found exactly when `id ≥ ROBOTEYE_ANIMATION_COUNT` (4); for the ids 0 to 3 it is the
Idle, Blink, LookLeft and LookRight entry of the catalog, with 2 frames of 140 ms
looping, 5 frames of 45 ms not looping, 2 frames of 120 ms looping and 2 frames of
120 ms looping; `roboteye_animator_init(id)` and `roboteye_animator_trigger(id)` with
`id ≥ 4` leave the animator as it was. -/
theorem C13_out_of_range_ids (id : Nat) (s : RobotEyeAnimator) :
    (roboteye_animation_get id = none ↔ ROBOTEYE_ANIMATION_COUNT ≤ id)
      ∧ roboteye_animation_get ROBOTEYE_ANIMATION_IDLE = some (ROBOTEYE_ANIMATIONS IDLE)
      ∧ roboteye_animation_get ROBOTEYE_ANIMATION_BLINK = some (ROBOTEYE_ANIMATIONS BLINK)
      ∧ roboteye_animation_get ROBOTEYE_ANIMATION_LOOK_LEFT
          = some (ROBOTEYE_ANIMATIONS LOOK_LEFT)
      ∧ roboteye_animation_get ROBOTEYE_ANIMATION_LOOK_RIGHT
          = some (ROBOTEYE_ANIMATIONS LOOK_RIGHT)
      ∧ ROBOTEYE_ANIMATIONS IDLE
          = { frames := [.IDLE_OPEN, .IDLE_FOCUS], frame_count := 2, frame_duration_ms := 140,
              loop := true }
      ∧ ROBOTEYE_ANIMATIONS BLINK
          = { frames := [.IDLE_OPEN, .BLINK_HALF, .BLINK_CLOSED, .BLINK_HALF, .IDLE_OPEN],
              frame_count := 5, frame_duration_ms := 45, loop := false }
      ∧ ROBOTEYE_ANIMATIONS LOOK_LEFT
          = { frames := [.LOOK_LEFT, .IDLE_FOCUS], frame_count := 2, frame_duration_ms := 120,
              loop := true }
      ∧ ROBOTEYE_ANIMATIONS LOOK_RIGHT
          = { frames := [.LOOK_RIGHT, .IDLE_FOCUS], frame_count := 2, frame_duration_ms := 120,
              loop := true }
      ∧ (ROBOTEYE_ANIMATION_COUNT ≤ id →
          roboteye_animator_init s id = s ∧ roboteye_animator_trigger s id = s) := by
  refine ⟨?_, rfl, rfl, rfl, rfl, rfl, rfl, rfl, rfl, ?_⟩
  · unfold roboteye_animation_get ROBOTEYE_ANIMATION_COUNT
    by_cases h : id < 4
    · rw [dif_pos h]
      simp only [reduceCtorEq, false_iff, not_le]
      exact h
    · rw [dif_neg h]
      simp only [true_iff]
      omega
  · intro h
    have h4 : ¬ id < 4 := by
      unfold ROBOTEYE_ANIMATION_COUNT at h
      omega
    refine ⟨?_, trigger_invalid s id h4⟩
    unfold roboteye_animator_init
    rw [dif_neg h4]

/-- Witness of C13: the ids 4 and `2 ^ 32 - 1` on a Blink override in flight. -/
theorem C13_witness :
    ROBOTEYE_ANIMATION_COUNT ≤ 4 ∧ ROBOTEYE_ANIMATION_COUNT ≤ 4294967295
      ∧ roboteye_animation_get 4 = none
      ∧ roboteye_animator_init (blink_state 2 7) 4 = blink_state 2 7
      ∧ roboteye_animator_trigger (blink_state 2 7) 4294967295 = blink_state 2 7 :=
  ⟨by decide, by decide, (C13_out_of_range_ids 4 (blink_state 2 7)).1.2 (by decide),
    ((C13_out_of_range_ids 4 (blink_state 2 7)).2.2.2.2.2.2.2.2.2 (by decide)).1,
    ((C13_out_of_range_ids 4294967295 (blink_state 2 7)).2.2.2.2.2.2.2.2.2 (by decide)).2⟩

/-- C18: the combination `blink_in_progress` set with `override_active` clear is
unreachable. In every state reachable from a valid init by any sequence of init,
enable_blinking, set_horizontal_bias, enable_movement, trigger and tick calls,
`blink_in_progress` implies `override_active`, and it implies that Blink is on
display. -/
theorem C18_blink_in_progress_implies_override (s : RobotEyeAnimator) (h : Reachable s) :
    ¬ (s.blink_in_progress = true ∧ s.override_active = false)
      ∧ (s.blink_in_progress = true → s.override_active = true)
      ∧ (s.blink_in_progress = true → s.current = some BLINK) := by
  have hinv := reachable_inv s h
  refine ⟨?_, hinv.bip, fun hb => hinv.ovr (hinv.bip hb)⟩
  rintro ⟨hb, ho⟩
  rw [hinv.bip hb] at ho
  exact absurd ho (by decide)

/-- Witness of C18: the Blink override at frame 0 with 44 ms elapsed, after a tick of
`2 ^ 32 - 1` ms, `enable_blinking(true, 0)` and a tick of 7 ms. -/
theorem C18_witness :
    Reachable (Op.run (.tick 7) (Op.run (.enable_blinking true 0)
        (Op.run (.tick 4294967295) blink_at_44)))
      ∧ ((Op.run (.tick 7) (Op.run (.enable_blinking true 0)
          (Op.run (.tick 4294967295) blink_at_44))).blink_in_progress = true →
        (Op.run (.tick 7) (Op.run (.enable_blinking true 0)
          (Op.run (.tick 4294967295) blink_at_44))).override_active = true) :=
  have hr : Reachable (Op.run (.tick 7) (Op.run (.enable_blinking true 0)
      (Op.run (.tick 4294967295) blink_at_44))) :=
    .step _ _ (.step _ _ (.step _ _ blink_at_44_reachable (by simp [Op.wf, UINT32_MOD]))
      (by simp [Op.wf, UINT32_MOD])) (by simp [Op.wf, UINT32_MOD])
  ⟨hr, (C18_blink_in_progress_implies_override _ hr).2.1⟩

/-- The loop is over after at most `frame_elapsed_ms + 1` tests of its condition, with
the result of `carry_loop`. -/
theorem carry_loop_fuel_enough :
    ∀ (e : Nat) (a : RobotEyeAnimator) (fuel : Nat), a.frame_elapsed_ms = e → e < fuel →
      carry_loop_fuel fuel a = some (carry_loop a) := by
  intro e
  induction e using Nat.strong_induction_on with
  | _ e ih =>
    intro a fuel he hf
    obtain ⟨n, rfl⟩ : ∃ n, fuel = n + 1 := ⟨fuel - 1, by omega⟩
    rw [carry_loop_fuel]
    cases hc : a.current with
    | none =>
      rw [carry_loop]
      simp only [hc]
    | some c =>
      have hpos := frame_duration_pos c
      simp only
      by_cases hge : a.frame_elapsed_ms ≥ (ROBOTEYE_ANIMATIONS c).frame_duration_ms
      · rw [if_pos hge, carry_loop_unfold a c hc hge]
        split_ifs
        · exact ih _ (by rw [carry_body_elapsed, ← he]; omega) _ n rfl
            (by rw [carry_body_elapsed]; omega)
        · rfl
      · rw [if_neg hge, carry_loop_exit a c hc (by omega)]

/-- C20: steady-state dwell invariant. The carry loop of the tick terminates for every
state and every `delta_ms`: started with `delta_ms` added to the elapsed time modulo
`2 ^ 32`, it is over after at most `2 ^ 32` tests of its condition. In every state
reachable from a valid init, after any call (a tick in which a non-looping override
completes and carries its leftover time into the baseline included), `current` is set
and `frame_elapsed` is below the frame duration of `current`, which is positive. -/
theorem C20_carry_loop_terminates_and_dwell_bound :
    (∀ (a : RobotEyeAnimator) (delta_ms : Nat),
        carry_loop_fuel UINT32_MOD
            { a with frame_elapsed_ms := (a.frame_elapsed_ms + delta_ms) % UINT32_MOD }
          = some (tick_advance a delta_ms false))
      ∧ (∀ a : RobotEyeAnimator,
        carry_loop_fuel (a.frame_elapsed_ms + 1) a = some (carry_loop a))
      ∧ (∀ c : Fin 4, 0 < (ROBOTEYE_ANIMATIONS c).frame_duration_ms
        ∧ 0 < (ROBOTEYE_ANIMATIONS c).frame_count)
      ∧ (∀ s : RobotEyeAnimator, Reachable s →
        ∃ c, s.current = some c
          ∧ s.frame_elapsed_ms < (ROBOTEYE_ANIMATIONS c).frame_duration_ms) := by
  refine ⟨?_, ?_, fun c => ⟨frame_duration_pos c, (catalog_count_bound c).1⟩, ?_⟩
  · intro a delta_ms
    rw [carry_loop_fuel_enough _ _ UINT32_MOD rfl
      (Nat.mod_lt _ (by decide : 0 < UINT32_MOD))]
    rfl
  · intro a
    exact carry_loop_fuel_enough _ a _ rfl (Nat.lt_succ_self _)
  · intro s hr
    have hinv := reachable_inv s hr
    obtain ⟨c, hc, -⟩ := hinv.cur
    exact ⟨c, hc, hinv.elapsed c hc⟩

theorem idle_state_choose (i e : Nat) (p : Bool) :
    roboteye_choose_baseline (idle_state i e p) = some IDLE :=
  choose_disabled _ rfl

theorem blink_carried_eq : blink_carried = idle_state 1 0 true := by
  unfold blink_carried
  rw [blink_at_44_eq]
  rw [tick_blink_done (blink_state 0 44) 321 IDLE rfl (by decide)
    (not_switches_of_override _ rfl) rfl (fires_false_of_override _ _ rfl)
    (blink_state_choose 0 44) (by decide)]
  rfl

theorem blink_carried_reachable : Reachable blink_carried :=
  .step _ (.tick 321) blink_at_44_reachable (by simp [Op.wf, UINT32_MOD])

theorem idle_steady_eq : idle_steady = idle_state 0 0 false := by decide

/-- Witness of C20: the state left by the tick that completed a Blink and carried
140 ms into Idle. -/
theorem C20_witness :
    Reachable blink_carried
      ∧ ∃ c, blink_carried.current = some c
        ∧ blink_carried.frame_elapsed_ms < (ROBOTEYE_ANIMATIONS c).frame_duration_ms :=
  ⟨blink_carried_reachable,
    C20_carry_loop_terminates_and_dwell_bound.2.2.2 blink_carried blink_carried_reachable⟩

/-- A tick of the Idle animator of `idle_state` once `pending_start` is consumed. -/
theorem idle_state_tick (i e delta_ms : Nat) (hi : i < 2) :
    roboteye_animator_tick (idle_state i e false) delta_ms
      = { animator := idle_state ((i + (e + delta_ms) % UINT32_MOD / 140) % 2)
            ((e + delta_ms) % UINT32_MOD % 140) false
          frame := some (IDLE, (i + (e + delta_ms) % UINT32_MOD / 140) % 2) } :=
  tick_steady (idle_state i e false) delta_ms IDLE rfl rfl (idle_state_choose i e false) rfl rfl
    rfl hi

theorem idle_at_100_eq : idle_at_100 = idle_state 0 100 false := by
  unfold idle_at_100
  rw [idle_steady_eq, idle_state_tick 0 0 100 (by decide)]
  rfl

theorem idle_at_100_reachable : Reachable idle_at_100 :=
  .step _ (.tick 100) idle_steady_reachable (by simp [Op.wf, UINT32_MOD])

/-- Counterexample to C14 as stated: Idle steadily playing at frame 0 with 100 ms
elapsed and `delta_ms = 2 ^ 32 - 1`. The exact sum `e + delta_ms` leaves the remainder
75 modulo 140, but the 32-bit sum wraps to 99 and the tick ends with `frame_elapsed`
99. -/
theorem C14_counterexample :
    Reachable idle_at_100
      ∧ idle_at_100.current = some IDLE ∧ idle_at_100.baseline = some IDLE
      ∧ roboteye_choose_baseline idle_at_100 = some IDLE
      ∧ idle_at_100.pending_start = false ∧ idle_at_100.blinking_enabled = false
      ∧ (4294967295 : Nat) < UINT32_MOD
      ∧ (idle_at_100.frame_elapsed_ms + 4294967295)
          % (ROBOTEYE_ANIMATIONS IDLE).frame_duration_ms = 75
      ∧ (roboteye_animator_tick idle_at_100 4294967295).animator.frame_elapsed_ms = 99
      ∧ (roboteye_animator_tick idle_at_100 4294967295).animator.frame_elapsed_ms
          ≠ (idle_at_100.frame_elapsed_ms + 4294967295)
              % (ROBOTEYE_ANIMATIONS IDLE).frame_duration_ms := by
  refine ⟨idle_at_100_reachable, ?_⟩
  rw [idle_at_100_eq, idle_state_tick 0 100 4294967295 (by decide)]
  exact ⟨rfl, rfl, idle_state_choose _ _ _, rfl, rfl, by decide, by decide, by decide,
    by decide⟩

/-- C14, amended: large-delta exactness up to the 32-bit wrap. In every reachable steady
state playing a looping animation with `n` frames of `d` ms (`current`, the stored and
the desired baseline coincide, `pending_start` clear, blinking disabled) at frame `i`
with `e` ms elapsed, and for every `delta_ms`, a single tick ends with
`frame_index = (i + ((e + delta_ms) mod 2 ^ 32) / d) mod n` and
`frame_elapsed = ((e + delta_ms) mod 2 ^ 32) mod d`, both in bounds; when
`e + delta_ms < 2 ^ 32` these are `(i + (e + delta_ms) / d) mod n` and
`(e + delta_ms) mod d`. A tick of 10000 ms on Idle from frame 0 with no time elapsed
ends at frame 1 with 60 ms elapsed. -/
theorem C14_large_delta_exactness :
    (∀ (s : RobotEyeAnimator), Reachable s → ∀ c : Fin 4,
      (ROBOTEYE_ANIMATIONS c).loop = true → s.current = some c → s.baseline = some c →
      roboteye_choose_baseline s = some c → s.pending_start = false →
      s.blinking_enabled = false → ∀ delta_ms : Nat,
        (roboteye_animator_tick s delta_ms).animator.frame_index
            = (s.frame_index + (s.frame_elapsed_ms + delta_ms) % UINT32_MOD
                  / (ROBOTEYE_ANIMATIONS c).frame_duration_ms)
                % (ROBOTEYE_ANIMATIONS c).frame_count
          ∧ (roboteye_animator_tick s delta_ms).animator.frame_elapsed_ms
            = (s.frame_elapsed_ms + delta_ms) % UINT32_MOD
                % (ROBOTEYE_ANIMATIONS c).frame_duration_ms
          ∧ (roboteye_animator_tick s delta_ms).animator.frame_index
            < (ROBOTEYE_ANIMATIONS c).frame_count
          ∧ (roboteye_animator_tick s delta_ms).animator.frame_elapsed_ms
            < (ROBOTEYE_ANIMATIONS c).frame_duration_ms
          ∧ (s.frame_elapsed_ms + delta_ms < UINT32_MOD →
            (roboteye_animator_tick s delta_ms).animator.frame_index
                = (s.frame_index + (s.frame_elapsed_ms + delta_ms)
                      / (ROBOTEYE_ANIMATIONS c).frame_duration_ms)
                    % (ROBOTEYE_ANIMATIONS c).frame_count
              ∧ (roboteye_animator_tick s delta_ms).animator.frame_elapsed_ms
                = (s.frame_elapsed_ms + delta_ms)
                    % (ROBOTEYE_ANIMATIONS c).frame_duration_ms))
      ∧ idle_steady.frame_index = 0 ∧ idle_steady.frame_elapsed_ms = 0
      ∧ (roboteye_animator_tick idle_steady 10000).animator.frame_index = 1
      ∧ (roboteye_animator_tick idle_steady 10000).animator.frame_elapsed_ms = 60 := by
  refine ⟨?_, ?_⟩
  · intro s hr c hl hc hb hd hp hbl delta_ms
    have hinv := reachable_inv s hr
    obtain ⟨c', hc', hi⟩ := hinv.cur
    have hcc : c' = c := by
      rw [hc] at hc'
      exact (Option.some.inj hc').symm
    subst hcc
    rw [tick_steady s delta_ms c' hc hb hd hp hbl hl hi]
    refine ⟨rfl, rfl, Nat.mod_lt _ (catalog_count_bound c').1,
      Nat.mod_lt _ (frame_duration_pos c'), ?_⟩
    intro hlt
    rw [Nat.mod_eq_of_lt hlt]
    exact ⟨rfl, rfl⟩
  · rw [idle_steady_eq, idle_state_tick 0 0 10000 (by decide)]
    exact ⟨rfl, rfl, by decide, by decide⟩

/-- Witness of C14: Idle at frame 0 with 100 ms elapsed, ticked by 1000 ms. -/
theorem C14_witness :
    Reachable idle_at_100 ∧ (ROBOTEYE_ANIMATIONS IDLE).loop = true
      ∧ idle_at_100.current = some IDLE ∧ idle_at_100.baseline = some IDLE
      ∧ roboteye_choose_baseline idle_at_100 = some IDLE
      ∧ idle_at_100.pending_start = false ∧ idle_at_100.blinking_enabled = false
      ∧ (roboteye_animator_tick idle_at_100 1000).animator.frame_index
          = (idle_at_100.frame_index + (idle_at_100.frame_elapsed_ms + 1000) % UINT32_MOD
                / (ROBOTEYE_ANIMATIONS IDLE).frame_duration_ms)
              % (ROBOTEYE_ANIMATIONS IDLE).frame_count :=
  have h1 : idle_at_100.current = some IDLE := by rw [idle_at_100_eq]; rfl
  have h2 : idle_at_100.baseline = some IDLE := by rw [idle_at_100_eq]; rfl
  have h3 : roboteye_choose_baseline idle_at_100 = some IDLE := by
    rw [idle_at_100_eq]; exact idle_state_choose _ _ _
  have h4 : idle_at_100.pending_start = false := by rw [idle_at_100_eq]; rfl
  have h5 : idle_at_100.blinking_enabled = false := by rw [idle_at_100_eq]; rfl
  ⟨idle_at_100_reachable, rfl, h1, h2, h3, h4, h5,
    (C14_large_delta_exactness.1 idle_at_100 idle_at_100_reachable IDLE rfl h1 h2 h3 h4 h5
      1000).1⟩

theorem timer_after_of_disabled (s : RobotEyeAnimator) (delta_ms : Nat)
    (hb : s.blinking_enabled = false) : blink_timer_after s delta_ms = s.blink_timer_ms := by
  simp [blink_timer_after, hb]

/-- Counterexample to C15 as stated: the state left by the tick that completed a Blink
and carried 140 ms into Idle has `pending_start` set, blinking disabled and the desired
baseline stored, and its next tick reports frame index 1, not 0. -/
theorem C15_counterexample :
    Reachable blink_carried
      ∧ blink_carried.pending_start = true ∧ blink_carried.blinking_enabled = false
      ∧ blink_carried.baseline = roboteye_choose_baseline blink_carried
      ∧ (roboteye_animator_tick blink_carried 5).frame = some (IDLE, 1)
      ∧ (roboteye_animator_tick blink_carried 5).frame ≠ some (IDLE, 0) := by
  refine ⟨blink_carried_reachable, ?_⟩
  rw [blink_carried_eq, idle_state_choose]
  rw [tick_pending (idle_state 1 0 true) 5 IDLE rfl
    (not_switches_of_eq _ (idle_state_choose 1 0 true)) rfl (fires_false_of_disabled _ _ rfl)]
  exact ⟨rfl, rfl, rfl, rfl, by decide⟩

/-- C15, amended: pending-start consumption. In every state reachable from a valid init
in which `pending_start` is set, blinking is disabled and the stored baseline is the
desired baseline, a tick of any `delta_ms` changes nothing but `pending_start`, which it
clears (so `frame_index` and `frame_elapsed` are unchanged: time does not advance), and
it reports the frame of `current` at the unchanged `frame_index`; that is frame 0 when
`frame_index` is 0, as it is after init, trigger or a baseline switch, but not after a
tick that completed an override and carried leftover time into the baseline. -/
theorem C15_pending_start_consumption (s : RobotEyeAnimator) (hr : Reachable s)
    (hp : s.pending_start = true) (hbl : s.blinking_enabled = false)
    (hb : s.baseline = roboteye_choose_baseline s) (delta_ms : Nat) :
    (roboteye_animator_tick s delta_ms).animator = { s with pending_start := false }
      ∧ (roboteye_animator_tick s delta_ms).animator.frame_index = s.frame_index
      ∧ (roboteye_animator_tick s delta_ms).animator.frame_elapsed_ms = s.frame_elapsed_ms
      ∧ (roboteye_animator_tick s delta_ms).animator.pending_start = false
      ∧ (∃ c, s.current = some c
          ∧ (roboteye_animator_tick s delta_ms).frame = some (c, s.frame_index)
          ∧ (s.frame_index = 0 → (roboteye_animator_tick s delta_ms).frame = some (c, 0))) := by
  have hinv := reachable_inv s hr
  obtain ⟨c, hc, -⟩ := hinv.cur
  rw [tick_pending s delta_ms c hc (not_switches_of_eq s hb.symm) hp
    (fires_false_of_disabled s delta_ms hbl), timer_after_of_disabled s delta_ms hbl, ← hb]
  exact ⟨rfl, rfl, rfl, rfl, c, hc, rfl, fun h0 => by rw [h0]⟩

/-- Witness of C15: the state left by the tick that completed a Blink and carried 140 ms
into Idle, ticked by 5 ms. -/
theorem C15_witness :
    Reachable blink_carried
      ∧ blink_carried.pending_start = true ∧ blink_carried.blinking_enabled = false
      ∧ blink_carried.baseline = roboteye_choose_baseline blink_carried
      ∧ (roboteye_animator_tick blink_carried 5).animator
          = { blink_carried with pending_start := false } :=
  have h1 : blink_carried.pending_start = true := by rw [blink_carried_eq]; rfl
  have h2 : blink_carried.blinking_enabled = false := by rw [blink_carried_eq]; rfl
  have h3 : blink_carried.baseline = roboteye_choose_baseline blink_carried := by
    rw [blink_carried_eq, idle_state_choose]; rfl
  ⟨blink_carried_reachable, h1, h2, h3,
    (C15_pending_start_consumption blink_carried blink_carried_reachable h1 h2 h3 5).1⟩

/-- Counterexample to C16 as stated: the scenario before its first tick has
`pending_start` set and blinking enabled with the countdown at 0 of 900 ms; its tick of
40 ms consumes `pending_start` and still moves the countdown to 40, and a tick of
900 ms instead triggers Blink. -/
theorem C16_counterexample :
    Reachable scenario_start
      ∧ scenario_start.pending_start = true ∧ scenario_start.blinking_enabled = true
      ∧ scenario_start.blink_timer_ms = 0 ∧ scenario_start.current = some IDLE
      ∧ (roboteye_animator_tick scenario_start 40).animator.blink_timer_ms = 40
      ∧ (roboteye_animator_tick scenario_start 40).animator.blink_timer_ms
          ≠ scenario_start.blink_timer_ms
      ∧ (roboteye_animator_tick scenario_start 900).animator.current = some BLINK
      ∧ (roboteye_animator_tick scenario_start 900).animator.blink_in_progress = true := by
  refine ⟨scenario_start_reachable, ?_⟩
  rw [scenario_start_eq]
  rw [scenario_tick_switch IDLE LOOK_LEFT _ _ _ _ _ (scenario_choose_left _ _ _ _ _)
    (by decide) (by decide)]
  have hf : autonomous_blink_fires (scenario_state IDLE 0 0 0 (-F32_0_8) true) 900 = true := by
    simp [autonomous_blink_fires, scenario_state, UINT32_MOD]
  rw [tick_fire _ 900 IDLE rfl hf]
  exact ⟨rfl, rfl, rfl, rfl, rfl, by decide, rfl, rfl⟩

/-- C16, amended: autonomous blink arbitration is evaluated also on the tick that
consumes `pending_start`. For every reachable state with `pending_start` set and
blinking enabled, and every `delta_ms` with `blink_timer_ms + delta_ms < 2 ^ 32`: with
no override active, the tick triggers Blink when
`blink_timer_ms + delta_ms ≥ blink_interval_ms` (Blink is on display at frame 0, the
countdown is 0) and otherwise sets the countdown to `blink_timer_ms + delta_ms` and
starts no override; with an override active, the tick does not trigger Blink, leaves
`current` and the frame position as they were, and leaves the countdown unchanged unless
`blink_in_progress` is set, in which case it resets it to 0. -/
theorem C16_blink_arbitration_on_start_tick (s : RobotEyeAnimator) (hr : Reachable s)
    (hp : s.pending_start = true) (hbe : s.blinking_enabled = true)
    (delta_ms : Nat) (hd : s.blink_timer_ms + delta_ms < UINT32_MOD) :
    (s.override_active = false → s.blink_interval_ms ≤ s.blink_timer_ms + delta_ms →
        (roboteye_animator_tick s delta_ms).animator.current = some BLINK
          ∧ (roboteye_animator_tick s delta_ms).animator.frame_index = 0
          ∧ (roboteye_animator_tick s delta_ms).animator.frame_elapsed_ms = 0
          ∧ (roboteye_animator_tick s delta_ms).animator.override_active = true
          ∧ (roboteye_animator_tick s delta_ms).animator.blink_in_progress = true
          ∧ (roboteye_animator_tick s delta_ms).animator.blink_timer_ms = 0
          ∧ (roboteye_animator_tick s delta_ms).frame = some (BLINK, 0))
      ∧ (s.override_active = false → s.blink_timer_ms + delta_ms < s.blink_interval_ms →
        (roboteye_animator_tick s delta_ms).animator.blink_timer_ms
            = s.blink_timer_ms + delta_ms
          ∧ (roboteye_animator_tick s delta_ms).animator.override_active = false
          ∧ (roboteye_animator_tick s delta_ms).animator.blink_in_progress = false
          ∧ (roboteye_animator_tick s delta_ms).animator.pending_start = false)
      ∧ (s.override_active = true →
        (roboteye_animator_tick s delta_ms).animator.current = s.current
          ∧ (roboteye_animator_tick s delta_ms).animator.frame_index = s.frame_index
          ∧ (roboteye_animator_tick s delta_ms).animator.frame_elapsed_ms = s.frame_elapsed_ms
          ∧ (roboteye_animator_tick s delta_ms).animator.override_active = true
          ∧ (roboteye_animator_tick s delta_ms).animator.blink_in_progress
              = s.blink_in_progress
          ∧ (roboteye_animator_tick s delta_ms).animator.blink_timer_ms
              = (if s.blink_in_progress = true then 0 else s.blink_timer_ms)
          ∧ (roboteye_animator_tick s delta_ms).animator.pending_start = false) := by
  have hinv := reachable_inv s hr
  obtain ⟨c, hc, -⟩ := hinv.cur
  have hbip_of : s.override_active = false → s.blink_in_progress = false := by
    intro ho
    by_contra hb
    have := hinv.bip (by simpa using hb)
    rw [ho] at this
    exact absurd this (by decide)
  refine ⟨?_, ?_, ?_⟩
  · intro ho hge
    obtain ⟨hiff, -⟩ := fires_iff s hinv.interval_pos hbe ho (hbip_of ho) delta_ms hd
    rw [tick_fire s delta_ms c hc (hiff.2 hge)]
    exact ⟨rfl, rfl, rfl, rfl, rfl, rfl, rfl⟩
  · intro ho hlt
    obtain ⟨hiff, hta⟩ := fires_iff s hinv.interval_pos hbe ho (hbip_of ho) delta_ms hd
    have hf : autonomous_blink_fires s delta_ms = false := by
      by_contra hne
      have := hiff.1 (by simpa using hne)
      omega
    by_cases hsw : baseline_switches s
    · rw [tick_switch s delta_ms hsw hf, hta]
      exact ⟨rfl, ho, hbip_of ho, rfl⟩
    · rw [tick_pending s delta_ms c hc hsw hp hf, hta]
      exact ⟨rfl, ho, hbip_of ho, rfl⟩
  · intro ho
    rw [tick_pending s delta_ms c hc (not_switches_of_override s ho) hp
      (fires_false_of_override s delta_ms ho)]
    refine ⟨rfl, rfl, rfl, ho, rfl, ?_, rfl⟩
    show blink_timer_after s delta_ms = _
    have hi := hinv.interval_pos
    unfold blink_timer_after
    simp [hbe, ho, hi]

/-- Witness of C16: the scenario before its first tick, ticked by 40 ms. -/
theorem C16_witness :
    Reachable scenario_start
      ∧ scenario_start.pending_start = true ∧ scenario_start.blinking_enabled = true
      ∧ scenario_start.blink_timer_ms + 40 < UINT32_MOD
      ∧ scenario_start.override_active = false
      ∧ scenario_start.blink_timer_ms + 40 < scenario_start.blink_interval_ms
      ∧ (roboteye_animator_tick scenario_start 40).animator.blink_timer_ms
          = scenario_start.blink_timer_ms + 40 :=
  have h1 : scenario_start.pending_start = true := by rw [scenario_start_eq]; rfl
  have h2 : scenario_start.blinking_enabled = true := by rw [scenario_start_eq]; rfl
  have h3 : scenario_start.blink_timer_ms + 40 < UINT32_MOD := by
    rw [scenario_start_eq]; decide
  have h4 : scenario_start.override_active = false := by rw [scenario_start_eq]; rfl
  have h5 : scenario_start.blink_timer_ms + 40 < scenario_start.blink_interval_ms := by
    rw [scenario_start_eq]; decide
  ⟨scenario_start_reachable, h1, h2, h3, h4, h5,
    ((C16_blink_arbitration_on_start_tick scenario_start scenario_start_reachable h1 h2 40
      h3).2.1 h4 h5).1⟩

/-- What the body of the loop leaves alone, the loop leaves alone. -/
theorem carry_loop_preserves {α : Type} (f : RobotEyeAnimator → α)
    (hf : ∀ a c, f (carry_body a c).1 = f a) :
    ∀ (e : Nat) (a : RobotEyeAnimator), a.frame_elapsed_ms = e → f (carry_loop a).1 = f a := by
  intro e
  induction e using Nat.strong_induction_on with
  | _ e ih =>
    intro a he
    cases hc : a.current with
    | none =>
      rw [carry_loop]
      simp only [hc]
    | some c =>
      have hpos := frame_duration_pos c
      by_cases hge : a.frame_elapsed_ms ≥ (ROBOTEYE_ANIMATIONS c).frame_duration_ms
      · rw [carry_loop_unfold a c hc hge]
        split_ifs
        · rw [ih _ (by rw [carry_body_elapsed, ← he]; omega) _ rfl, hf]
        · exact hf a c
      · rw [carry_loop_exit a c hc (by omega)]

/-- A tick leaves alone what each of its stages leaves alone. -/
theorem tick_preserves_of {α : Type} (f : RobotEyeAnimator → α)
    (hbody : ∀ a c, f (carry_body a c).1 = f a)
    (hbase : ∀ a, f (tick_baseline a) = f a)
    (hblink : ∀ a d st, f (tick_blink a d st).1 = f a)
    (helapsed : ∀ (a : RobotEyeAnimator) (e : Nat), f { a with frame_elapsed_ms := e } = f a)
    (hpend : ∀ a : RobotEyeAnimator, f { a with pending_start := false } = f a)
    (hreset : ∀ a, f (roboteye_reset_to_baseline a true) = f a)
    (s : RobotEyeAnimator) (delta_ms : Nat) :
    f (roboteye_animator_tick s delta_ms).animator = f s := by
  have hadv : ∀ (a : RobotEyeAnimator) (st : Bool),
      f (tick_advance a delta_ms st).1 = f a := by
    intro a st
    unfold tick_advance
    split_ifs
    · exact (carry_loop_preserves f hbody _ _ rfl).trans (helapsed a _)
    · rfl
  have hframes : ∀ a : RobotEyeAnimator, f (tick_frames a delta_ms).animator = f a := by
    intro a
    unfold tick_frames
    dsimp only
    rw [consume_pending]
    split_ifs
    · rw [hadv, hblink, hpend]
    · rw [hadv, hblink, hpend]
  unfold roboteye_animator_tick
  dsimp only
  split_ifs
  · rw [hreset, hbase]
  · rw [hframes, hreset, hbase]
  · rw [hframes, hbase]

/-- A tick changes neither `movement_enabled` nor `horizontal_bias`, so the desired
baseline after it is the desired baseline before it. -/
theorem tick_keeps_desired (s : RobotEyeAnimator) (delta_ms : Nat) :
    (roboteye_animator_tick s delta_ms).animator.movement_enabled = s.movement_enabled
      ∧ (roboteye_animator_tick s delta_ms).animator.horizontal_bias = s.horizontal_bias
      ∧ roboteye_choose_baseline (roboteye_animator_tick s delta_ms).animator
          = roboteye_choose_baseline s := by
  have hm : (roboteye_animator_tick s delta_ms).animator.movement_enabled
      = s.movement_enabled := by
    refine tick_preserves_of (fun a => a.movement_enabled) ?_ ?_ ?_ (fun _ _ => rfl)
      (fun _ => rfl) (fun _ => rfl) s delta_ms
    · intro a c
      unfold carry_body
      simp only [reset_keep_elapsed]
      split_ifs <;> rfl
    · intro a
      rw [tick_baseline_eq]
      split_ifs <;> rfl
    · intro a d st
      rw [tick_blink_eq]
      split_ifs <;> rfl
  have hb : (roboteye_animator_tick s delta_ms).animator.horizontal_bias
      = s.horizontal_bias := by
    refine tick_preserves_of (fun a => a.horizontal_bias) ?_ ?_ ?_ (fun _ _ => rfl)
      (fun _ => rfl) (fun _ => rfl) s delta_ms
    · intro a c
      unfold carry_body
      simp only [reset_keep_elapsed]
      split_ifs <;> rfl
    · intro a
      rw [tick_baseline_eq]
      split_ifs <;> rfl
    · intro a d st
      rw [tick_blink_eq]
      split_ifs <;> rfl
  refine ⟨hm, hb, ?_⟩
  unfold roboteye_choose_baseline
  rw [hm, hb]

/-- After at least one tick the stored baseline is the baseline that was desired before
the ticks. -/
theorem run_ticks_baseline (ds : List Nat) :
    ∀ s : RobotEyeAnimator, ds ≠ [] →
      (run_ticks s ds).baseline = roboteye_choose_baseline s := by
  induction ds with
  | nil => intro s h; exact absurd rfl h
  | cons d ds ih =>
    intro s _
    cases ds with
    | nil => exact tick_stores_desired_baseline s d
    | cons d' ds' =>
      have := ih (roboteye_animator_tick s d).animator (by simp)
      rw [(tick_keeps_desired s d).2.2] at this
      exact this

/-- A tick of a state that shows its baseline `c`, the desired one, with blinking
disabled: the state stays such a state and the frame returned is a frame of `c`. -/
theorem tick_home_frames (x : RobotEyeAnimator) (c : Fin 4) (hinv : Inv x)
    (ho : x.override_active = false) (hbl : x.blinking_enabled = false)
    (hc : x.current = some c) (hb : x.baseline = some c)
    (hd : roboteye_choose_baseline x = some c) (delta_ms : Nat) :
    Inv (roboteye_animator_tick x delta_ms).animator
      ∧ (roboteye_animator_tick x delta_ms).animator.override_active = false
      ∧ (roboteye_animator_tick x delta_ms).animator.blinking_enabled = false
      ∧ (roboteye_animator_tick x delta_ms).animator.current = some c
      ∧ (roboteye_animator_tick x delta_ms).animator.baseline = some c
      ∧ roboteye_choose_baseline (roboteye_animator_tick x delta_ms).animator = some c
      ∧ ∃ k, (roboteye_animator_tick x delta_ms).frame = some (c, k)
          ∧ k < (ROBOTEYE_ANIMATIONS c).frame_count := by
  have hinv' := (inv_tick x hinv delta_ms).1
  have hch := (tick_keeps_desired x delta_ms).2.2
  have hsw : ¬ baseline_switches x := not_switches_of_eq x (by rw [hd, hb])
  have hf := fires_false_of_disabled x delta_ms hbl
  obtain ⟨c', hc', hi⟩ := hinv.cur
  have hcc : c' = c := by
    rw [hc] at hc'
    exact (Option.some.inj hc').symm
  subst hcc
  obtain ⟨b, hb', hl⟩ := choose_baseline_loops x
  have hbc : b = c' := by
    rw [hd] at hb'
    exact (Option.some.inj hb').symm
  subst hbc
  refine ⟨hinv', ?_⟩
  rw [hch]
  by_cases hp : x.pending_start = true
  · rw [tick_pending x delta_ms b hc hsw hp hf]
    exact ⟨ho, hbl, hc, hd, hd, x.frame_index, rfl, hi⟩
  · rw [tick_looping x delta_ms b hc hl hi hsw (by simpa using hp) hf]
    exact ⟨ho, hbl, hc, hd, hd, _, rfl, Nat.mod_lt _ (catalog_count_bound b).1⟩

theorem run_home_frames (c : Fin 4) (ds : List Nat) :
    ∀ x : RobotEyeAnimator, Inv x → x.override_active = false → x.blinking_enabled = false →
      x.current = some c → x.baseline = some c → roboteye_choose_baseline x = some c →
      (run_ticks x ds).baseline = some c
        ∧ ∀ delta_ms : Nat, ∃ k,
          (roboteye_animator_tick (run_ticks x ds) delta_ms).frame = some (c, k)
            ∧ k < (ROBOTEYE_ANIMATIONS c).frame_count := by
  induction ds with
  | nil =>
    intro x hinv ho hbl hc hb hd
    exact ⟨hb, fun d => (tick_home_frames x c hinv ho hbl hc hb hd d).2.2.2.2.2.2⟩
  | cons d ds ih =>
    intro x hinv ho hbl hc hb hd
    obtain ⟨h1, h2, h3, h4, h5, h6, -⟩ := tick_home_frames x c hinv ho hbl hc hb hd d
    exact ih _ h1 h2 h3 h4 h5 h6

/-- Counterexample to C12 as stated: on an animator initialised with Idle (movement
disabled), `trigger(LOOK_LEFT)` stores LookLeft as the baseline, but the first tick,
with no change of bias or movement and no other trigger, stores Idle again and returns
frame 0 of Idle. -/
theorem C12_counterexample :
    Reachable (roboteye_animator_init zeroed ROBOTEYE_ANIMATION_IDLE)
      ∧ (ROBOTEYE_ANIMATIONS LOOK_LEFT).loop = true
      ∧ (roboteye_animator_trigger (roboteye_animator_init zeroed ROBOTEYE_ANIMATION_IDLE)
          ROBOTEYE_ANIMATION_LOOK_LEFT).baseline = some LOOK_LEFT
      ∧ (roboteye_animator_trigger (roboteye_animator_init zeroed ROBOTEYE_ANIMATION_IDLE)
          ROBOTEYE_ANIMATION_LOOK_LEFT).movement_enabled = false
      ∧ (roboteye_animator_tick
          (roboteye_animator_trigger (roboteye_animator_init zeroed ROBOTEYE_ANIMATION_IDLE)
            ROBOTEYE_ANIMATION_LOOK_LEFT) 40).animator.baseline = some IDLE
      ∧ (roboteye_animator_tick
          (roboteye_animator_trigger (roboteye_animator_init zeroed ROBOTEYE_ANIMATION_IDLE)
            ROBOTEYE_ANIMATION_LOOK_LEFT) 40).frame = some (IDLE, 0) :=
  ⟨.init zeroed 0 (by decide), by decide, by decide, by decide, by decide, by decide⟩

/-- C12, amended: an explicitly triggered baseline lasts as long as it is the desired
one. For every initialised animator and every looping id, `trigger(id)` stores
`catalog[id]` as the baseline, and every later tick made with no change of
`horizontal_bias` or `movement_enabled` and no other trigger stores the baseline desired
by `movement_enabled` and `horizontal_bias`. When `catalog[id]` is that desired baseline
and blinking is disabled, the baseline stays `catalog[id]` and every frame returned is a
frame of `catalog[id]`. When it is not, the first tick, unless it fires the autonomous
blink, switches `baseline` and `current` to the desired baseline and returns its
frame 0. -/
theorem C12_triggered_baseline (s : RobotEyeAnimator) (hr : Reachable s) (id : Nat)
    (h : id < ROBOTEYE_ANIMATION_COUNT) (hl : (ROBOTEYE_ANIMATIONS ⟨id, h⟩).loop = true) :
    (roboteye_animator_trigger s id).baseline = some ⟨id, h⟩
      ∧ (∀ ds : List Nat, ds ≠ [] →
        (run_ticks (roboteye_animator_trigger s id) ds).baseline = roboteye_choose_baseline s)
      ∧ (roboteye_choose_baseline s = some ⟨id, h⟩ → s.blinking_enabled = false →
        ∀ ds : List Nat,
          (run_ticks (roboteye_animator_trigger s id) ds).baseline = some ⟨id, h⟩
            ∧ ∀ delta_ms : Nat, ∃ k,
              (roboteye_animator_tick (run_ticks (roboteye_animator_trigger s id) ds)
                  delta_ms).frame = some (⟨id, h⟩, k)
                ∧ k < (ROBOTEYE_ANIMATIONS ⟨id, h⟩).frame_count)
      ∧ (roboteye_choose_baseline s ≠ some ⟨id, h⟩ → ∀ delta_ms : Nat,
        autonomous_blink_fires (roboteye_animator_trigger s id) delta_ms = false →
          (roboteye_animator_tick (roboteye_animator_trigger s id) delta_ms).animator.current
              = roboteye_choose_baseline s
            ∧ (roboteye_animator_tick (roboteye_animator_trigger s id)
                delta_ms).animator.baseline = roboteye_choose_baseline s
            ∧ (roboteye_animator_tick (roboteye_animator_trigger s id) delta_ms).frame
              = (roboteye_choose_baseline s).map (fun c => (c, 0))) := by
  have h4 : id < 4 := h
  have hinv := inv_trigger s (reachable_inv s hr) id
  have hch : roboteye_choose_baseline (roboteye_animator_trigger s id)
      = roboteye_choose_baseline s := by
    rw [trigger_looping s id h4 hl]
    rfl
  refine ⟨?_, ?_, ?_, ?_⟩
  · rw [trigger_looping s id h4 hl]
  · intro ds hds
    rw [run_ticks_baseline ds _ hds, hch]
  · intro hd hbl ds
    refine run_home_frames ⟨id, h⟩ ds _ hinv ?_ ?_ ?_ ?_ (by rw [hch, hd])
    · rw [trigger_looping s id h4 hl]
    · rw [trigger_looping s id h4 hl]
      exact hbl
    · rw [trigger_looping s id h4 hl]
    · rw [trigger_looping s id h4 hl]
  · intro hne delta_ms hf
    have hsw : baseline_switches (roboteye_animator_trigger s id) := by
      refine ⟨?_, ?_, ?_⟩
      · rw [trigger_looping s id h4 hl]
      · rw [trigger_looping s id h4 hl]
      · rw [hch]
        rw [trigger_looping s id h4 hl]
        exact hne
    rw [tick_switch _ delta_ms hsw hf, hch]
    exact ⟨rfl, rfl, rfl⟩

/-- Witness of C12: the steady Idle animator (movement and blinking disabled, so Idle
is the desired baseline) sent `trigger(IDLE)` and three ticks. -/
theorem C12_witness :
    Reachable idle_steady ∧ (0 : Nat) < ROBOTEYE_ANIMATION_COUNT
      ∧ (ROBOTEYE_ANIMATIONS IDLE).loop = true
      ∧ roboteye_choose_baseline idle_steady = some IDLE
      ∧ idle_steady.blinking_enabled = false
      ∧ (run_ticks (roboteye_animator_trigger idle_steady 0) [40, 400]).baseline = some IDLE
      ∧ ∃ k, (roboteye_animator_tick
            (run_ticks (roboteye_animator_trigger idle_steady 0) [40, 400]) 7).frame
          = some (IDLE, k)
        ∧ k < (ROBOTEYE_ANIMATIONS IDLE).frame_count :=
  have h1 : roboteye_choose_baseline idle_steady = some IDLE := by decide
  have h2 : idle_steady.blinking_enabled = false := by decide
  ⟨idle_steady_reachable, by decide, rfl, h1, h2,
    ((C12_triggered_baseline idle_steady idle_steady_reachable 0 (by decide) rfl).2.2.1 h1 h2
      [40, 400]).1,
    ((C12_triggered_baseline idle_steady idle_steady_reachable 0 (by decide) rfl).2.2.1 h1 h2
      [40, 400]).2 7⟩

/-- A tick of a state whose `current` is `NULL`: both the baseline switch of lines
171-176 and the recovery of lines 179-180 lead to the desired baseline at frame 0 with
`pending_start` set. -/
theorem tick_unset (s : RobotEyeAnimator) (delta_ms : Nat) (hc : s.current = none) :
    roboteye_animator_tick s delta_ms =
      tick_frames
        { s with
          baseline := roboteye_choose_baseline s
          current := roboteye_choose_baseline s
          frame_index := 0
          frame_elapsed_ms := 0
          pending_start := true } delta_ms := by
  obtain ⟨b, hb, -⟩ := choose_baseline_loops s
  unfold roboteye_animator_tick
  dsimp only
  by_cases hsw : baseline_switches s
  · rw [tick_baseline_switch s hsw]
    simp only [hb, reduceCtorEq, if_false]
  · rw [tick_baseline_stay s hsw]
    simp only [hc, if_true, reset_clear_elapsed, hb, reduceCtorEq, if_false]

/-- Counterexample to C17 as stated: on zeroed storage, where `current` and `baseline`
are both unset, the tick does not report that no frame is available: it returns frame 0
of Idle and leaves Idle as `current` and `baseline`. -/
theorem C17_counterexample :
    zeroed.current = none ∧ zeroed.baseline = none
      ∧ (roboteye_animator_tick zeroed 40).frame = some (IDLE, 0)
      ∧ (roboteye_animator_tick zeroed 40).frame ≠ none
      ∧ (roboteye_animator_tick zeroed 40).animator.current = some IDLE
      ∧ (roboteye_animator_tick zeroed 40).animator.baseline = some IDLE :=
  ⟨rfl, rfl, by decide, by decide, by decide, by decide⟩

/-- C17, amended: recovery of an uninitialised animator. A tick on a state whose
`current` is unset stores the desired baseline and falls back to it: `current` becomes
that baseline, `frame_index` and `frame_elapsed` become 0, and frame 0 of it is
returned, unless the autonomous blink fires in that tick, in which case Blink starts
and frame 0 of Blink is returned. This holds whether or not the stored baseline was
set: a tick on a state whose `current` is unset never reports that no frame is
available. -/
theorem C17_recovery_of_unset_current (s : RobotEyeAnimator) (delta_ms : Nat)
    (hc : s.current = none) :
    (autonomous_blink_fires s delta_ms = false →
        roboteye_animator_tick s delta_ms =
          { animator :=
              { s with
                baseline := roboteye_choose_baseline s
                current := roboteye_choose_baseline s
                frame_index := 0
                frame_elapsed_ms := 0
                pending_start := false
                blink_timer_ms := blink_timer_after s delta_ms }
            frame := (roboteye_choose_baseline s).map (fun c => (c, 0)) })
      ∧ (autonomous_blink_fires s delta_ms = true →
        roboteye_animator_tick s delta_ms =
          { animator :=
              { s with
                baseline := roboteye_choose_baseline s
                current := some BLINK
                frame_index := 0
                frame_elapsed_ms := 0
                override_active := true
                blink_in_progress := true
                pending_start := false
                blink_timer_ms := 0 }
            frame := some (BLINK, 0) })
      ∧ (roboteye_animator_tick s delta_ms).animator.current ≠ none
      ∧ (roboteye_animator_tick s delta_ms).animator.baseline = roboteye_choose_baseline s
      ∧ (roboteye_animator_tick s delta_ms).animator.frame_index = 0
      ∧ (roboteye_animator_tick s delta_ms).animator.frame_elapsed_ms = 0
      ∧ (roboteye_animator_tick s delta_ms).frame ≠ none := by
  obtain ⟨b, hb, -⟩ := choose_baseline_loops s
  have hquiet : autonomous_blink_fires s delta_ms = false →
      roboteye_animator_tick s delta_ms =
        { animator :=
            { s with
              baseline := roboteye_choose_baseline s
              current := roboteye_choose_baseline s
              frame_index := 0
              frame_elapsed_ms := 0
              pending_start := false
              blink_timer_ms := blink_timer_after s delta_ms }
          frame := (roboteye_choose_baseline s).map (fun c => (c, 0)) } := by
    intro hf
    rw [tick_unset s delta_ms hc]
    refine (tick_frames_pending _ delta_ms b ?_ ?_ ?_).trans ?_
    · exact hb
    · rfl
    · exact hf
    · rw [hb]
      rfl
  have hfire : autonomous_blink_fires s delta_ms = true →
      roboteye_animator_tick s delta_ms =
        { animator :=
            { s with
              baseline := roboteye_choose_baseline s
              current := some BLINK
              frame_index := 0
              frame_elapsed_ms := 0
              override_active := true
              blink_in_progress := true
              pending_start := false
              blink_timer_ms := 0 }
          frame := some (BLINK, 0) } := by
    intro hf
    rw [tick_unset s delta_ms hc]
    exact (tick_frames_fire _ delta_ms (by exact hf)).trans rfl
  refine ⟨hquiet, hfire, ?_⟩
  cases hf : autonomous_blink_fires s delta_ms with
  | false =>
    rw [hquiet hf, hb]
    exact ⟨by simp, rfl, rfl, rfl, by simp⟩
  | true =>
    rw [hfire hf]
    exact ⟨by simp, rfl, rfl, rfl, by simp⟩

/-- Witness of C17: zeroed storage ticked by 40 ms. -/
theorem C17_witness :
    zeroed.current = none ∧ autonomous_blink_fires zeroed 40 = false
      ∧ (roboteye_animator_tick zeroed 40).frame ≠ none
      ∧ roboteye_animator_tick zeroed 40
          = { animator :=
                { zeroed with
                  baseline := roboteye_choose_baseline zeroed
                  current := roboteye_choose_baseline zeroed
                  frame_index := 0
                  frame_elapsed_ms := 0
                  pending_start := false
                  blink_timer_ms := blink_timer_after zeroed 40 }
              frame := (roboteye_choose_baseline zeroed).map (fun c => (c, 0)) } :=
  ⟨rfl, by decide, (C17_recovery_of_unset_current zeroed 40 rfl).2.2.2.2.2.2,
    (C17_recovery_of_unset_current zeroed 40 rfl).1 (by decide)⟩

theorem tick_baseline_loops (s : RobotEyeAnimator) (delta_ms : Nat) :
    baseline_loops (roboteye_animator_tick s delta_ms).animator := by
  obtain ⟨b, hb, hl⟩ := choose_baseline_loops s
  exact ⟨b, by rw [tick_stores_desired_baseline, hb], hl⟩

/-- Counterexample to C19 as stated: `roboteye_animator_init` with the valid id Blink
stores Blink, which does not loop, as the baseline. -/
theorem C19_counterexample :
    (ROBOTEYE_ANIMATION_BLINK < ROBOTEYE_ANIMATION_COUNT)
      ∧ Reachable (roboteye_animator_init zeroed ROBOTEYE_ANIMATION_BLINK)
      ∧ (roboteye_animator_init zeroed ROBOTEYE_ANIMATION_BLINK).baseline = some BLINK
      ∧ (ROBOTEYE_ANIMATIONS BLINK).loop = false
      ∧ ¬ baseline_loops (roboteye_animator_init zeroed ROBOTEYE_ANIMATION_BLINK) := by
  refine ⟨by decide, .init zeroed 1 (by decide), rfl, rfl, ?_⟩
  rintro ⟨b, hb, hl⟩
  have hbb : b = BLINK := (Option.some.inj hb).symm
  subst hbb
  exact absurd hl (by decide)

/-- C19, amended: the baseline is a looping definition after every tick, after
`roboteye_animator_init` with a looping id (Idle, LookLeft, LookRight) and after every
later call other than `init(BLINK)`. In every reachable state the baseline loops, or it
is the Blink stored by `init(BLINK)` and no tick has run since (`pending_start` is
still set). -/
theorem C19_baseline_loops :
    (∀ (s0 : RobotEyeAnimator) (id : Nat) (h : id < ROBOTEYE_ANIMATION_COUNT),
        (ROBOTEYE_ANIMATIONS ⟨id, h⟩).loop = true →
        baseline_loops (roboteye_animator_init s0 id))
      ∧ (∀ (s : RobotEyeAnimator) (op : Op), baseline_loops s →
        op ≠ .init ROBOTEYE_ANIMATION_BLINK → baseline_loops (op.run s))
      ∧ (∀ (s : RobotEyeAnimator) (delta_ms : Nat),
        baseline_loops (roboteye_animator_tick s delta_ms).animator)
      ∧ (∀ s : RobotEyeAnimator, Reachable s →
        baseline_loops s ∨ (s.baseline = some BLINK ∧ s.pending_start = true)) := by
  have hinit : ∀ (s0 : RobotEyeAnimator) (id : Nat) (h : id < 4),
      (ROBOTEYE_ANIMATIONS ⟨id, h⟩).loop = true →
      baseline_loops (roboteye_animator_init s0 id) := by
    intro s0 id h hl
    unfold roboteye_animator_init
    rw [dif_pos h]
    exact ⟨⟨id, h⟩, rfl, hl⟩
  have hinit_blink : ∀ (s0 : RobotEyeAnimator) (id : Nat) (h : id < 4),
      (ROBOTEYE_ANIMATIONS ⟨id, h⟩).loop = false →
      (roboteye_animator_init s0 id).baseline = some BLINK
        ∧ (roboteye_animator_init s0 id).pending_start = true := by
    intro s0 id h hl
    have hb : (⟨id, h⟩ : Fin 4) = BLINK := (loop_false_iff _).1 hl
    unfold roboteye_animator_init
    rw [dif_pos h]
    exact ⟨congrArg some hb, rfl⟩
  have htrig : ∀ (s : RobotEyeAnimator) (id : Nat),
      (baseline_loops s → baseline_loops (roboteye_animator_trigger s id))
        ∧ (s.baseline = some BLINK ∧ s.pending_start = true →
          baseline_loops (roboteye_animator_trigger s id)
            ∨ ((roboteye_animator_trigger s id).baseline = some BLINK
              ∧ (roboteye_animator_trigger s id).pending_start = true)) := by
    intro s id
    by_cases h : id < 4
    · by_cases hl : (ROBOTEYE_ANIMATIONS ⟨id, h⟩).loop = true
      · rw [trigger_looping s id h hl]
        exact ⟨fun _ => ⟨⟨id, h⟩, rfl, hl⟩, fun _ => Or.inl ⟨⟨id, h⟩, rfl, hl⟩⟩
      · have hb : (⟨id, h⟩ : Fin 4) = BLINK := (loop_false_iff _).1 (by simpa using hl)
        have hid : id = ROBOTEYE_ANIMATION_BLINK := congrArg Fin.val hb
        subst hid
        rw [trigger_blink]
        exact ⟨fun hs => hs, fun hs => Or.inr ⟨hs.1, rfl⟩⟩
    · rw [trigger_invalid s id h]
      exact ⟨fun hs => hs, fun hs => Or.inr hs⟩
  refine ⟨fun s0 id h hl => hinit s0 id h hl, ?_, tick_baseline_loops, ?_⟩
  · intro s op hs hop
    cases op with
    | init id =>
      by_cases h : id < 4
      · by_cases hl : (ROBOTEYE_ANIMATIONS ⟨id, h⟩).loop = true
        · exact hinit s id h hl
        · exfalso
          have hb : (⟨id, h⟩ : Fin 4) = BLINK := (loop_false_iff _).1 (by simpa using hl)
          have hid : id = ROBOTEYE_ANIMATION_BLINK := congrArg Fin.val hb
          exact hop (by rw [hid])
      · simp only [Op.run, roboteye_animator_init, dif_neg h]
        exact hs
    | enable_blinking e i =>
      simp only [Op.run, roboteye_animator_enable_blinking]
      cases e
      · exact hs
      · simp only [if_true]
        split_ifs <;> exact hs
    | set_horizontal_bias b => exact hs
    | enable_movement e =>
      simp only [Op.run, roboteye_animator_enable_movement]
      cases e <;> exact hs
    | trigger id => exact (htrig s id).1 hs
    | tick d => exact tick_baseline_loops s d
  · intro s hr
    induction hr with
    | init s0 id hid =>
      by_cases hl : (ROBOTEYE_ANIMATIONS ⟨id, hid⟩).loop = true
      · exact Or.inl (hinit s0 id hid hl)
      · exact Or.inr (hinit_blink s0 id hid (by simpa using hl))
    | step s op _ _ ih =>
      cases op with
      | init id =>
        by_cases h : id < 4
        · by_cases hl : (ROBOTEYE_ANIMATIONS ⟨id, h⟩).loop = true
          · exact Or.inl (hinit s id h hl)
          · exact Or.inr (hinit_blink s id h (by simpa using hl))
        · simp only [Op.run, roboteye_animator_init, dif_neg h]
          exact ih
      | enable_blinking e i =>
        simp only [Op.run, roboteye_animator_enable_blinking]
        cases e
        · exact ih
        · simp only [if_true]
          split_ifs <;> exact ih
      | set_horizontal_bias b => exact ih
      | enable_movement e =>
        simp only [Op.run, roboteye_animator_enable_movement]
        cases e <;> exact ih
      | trigger id =>
        rcases ih with hs | hs
        · exact Or.inl ((htrig s id).1 hs)
        · exact (htrig s id).2 hs
      | tick d => exact Or.inl (tick_baseline_loops s d)

/-- Witness of C19: init with LookLeft, and init with Blink followed by `trigger(BLINK)`
and by a tick. -/
theorem C19_witness :
    (2 : Nat) < ROBOTEYE_ANIMATION_COUNT ∧ (ROBOTEYE_ANIMATIONS LOOK_LEFT).loop = true
      ∧ baseline_loops (roboteye_animator_init zeroed 2)
      ∧ Reachable (Op.run (.trigger 1) (roboteye_animator_init zeroed 1))
      ∧ (baseline_loops (Op.run (.trigger 1) (roboteye_animator_init zeroed 1))
        ∨ ((Op.run (.trigger 1) (roboteye_animator_init zeroed 1)).baseline = some BLINK
          ∧ (Op.run (.trigger 1) (roboteye_animator_init zeroed 1)).pending_start = true))
      ∧ baseline_loops
          (roboteye_animator_tick (Op.run (.trigger 1) (roboteye_animator_init zeroed 1))
            0).animator :=
  have hr : Reachable (Op.run (.trigger 1) (roboteye_animator_init zeroed 1)) :=
    .step _ (.trigger 1) (.init zeroed 1 (by decide)) trivial
  ⟨by decide, rfl, C19_baseline_loops.1 zeroed 2 (by decide) rfl, hr,
    C19_baseline_loops.2.2.2 _ hr, C19_baseline_loops.2.2.1 _ 0⟩

end RobotEye
